import Mathlib

/-!
Verification of the TrendPulse crypto trend scanner
(src/crypto_trend_scanner.py) against its natural-language specification.

The price pipeline works on pandas Series.  We embed a series as a function
from sample index to an optional rational: `none` is pandas NaN, `some v` a
defined float value, with real arithmetic idealised over ℚ.  Every pandas
operation used by the source is given its exact documented semantics:

* `s.ewm(span, adjust=False).mean()` — exponential weighted average with
  smoothing factor 2/(span+1), adjust=False, ignore_na=False, the default
  min_periods, i.e. the output is NaN until the first non-NaN sample, seeds
  at that sample, and carries a decaying old weight across interior NaNs.
* `s.rolling(window).mean()` — mean of the trailing window, NaN while the
  window is not full or contains a NaN.
* comparisons (`<`, `>`, `<=`, `>=`) — elementwise, False on NaN.
* `s.shift(1)` — previous sample, NaN at index 0.
-/

namespace TrendScanner

/-- One step of pandas `ewm(span, adjust=False).mean()` with ignore_na=False.
State: the running weighted average (`none` before any observation) and the
accumulated weight of the old average.  On a NaN input the average is kept and
its weight decays; on an observation the average is updated by
`(w*(1-a)*m + a*v) / (w*(1-a) + a)` and the weight resets to 1, which for
NaN-free input is the textbook recurrence `m + (v - m)*a`. -/
def ewmStep (a : ℚ) : Option ℚ × ℚ → Option ℚ → Option ℚ × ℚ
  | (none, w), none => (none, w)
  | (none, _), some v => (some v, 1)
  | (some m, w), none => (some m, w * (1 - a))
  | (some m, w), some v => (some ((w * (1 - a) * m + a * v) / (w * (1 - a) + a)), 1)

/-- State of the exponential weighted average after consuming samples 0..i. -/
def ewmState (a : ℚ) (x : ℕ → Option ℚ) : ℕ → Option ℚ × ℚ
  | 0 => ewmStep a (none, 1) (x 0)
  | i + 1 => ewmStep a (ewmState a x i) (x (i + 1))

/-- Value of `x.ewm(span, adjust=False).mean()` at index `i`
(`a` is the smoothing factor derived from the span). -/
def ewmAt (a : ℚ) (x : ℕ → Option ℚ) (i : ℕ) : Option ℚ := (ewmState a x i).1

/-- Smoothing factor of a pandas span: `alpha = 2/(span+1)`. -/
def smoothingFactor (length : ℚ) : ℚ := 2 / (length + 1)

/-- Value of `x.rolling(window=w).mean()` at index `i`: the arithmetic mean of
the trailing `w` samples, `none` while fewer than `w` samples exist or any
sample in the window is NaN. -/
def rollingMeanAt (w : ℕ) (x : ℕ → Option ℚ) (i : ℕ) : Option ℚ :=
  if w ≤ i + 1 then
    ((List.range w).mapM (fun k => x (i + 1 - w + k))).map (fun l => l.sum / (w : ℚ))
  else none

/-- Elementwise pandas `<` on possibly-NaN values: False when either is NaN. -/
def oLT : Option ℚ → Option ℚ → Bool
  | some a, some b => decide (a < b)
  | _, _ => false

/-- Elementwise pandas `<=` on possibly-NaN values: False when either is NaN. -/
def oLE : Option ℚ → Option ℚ → Bool
  | some a, some b => decide (a ≤ b)
  | _, _ => false

/-- Elementwise pandas subtraction: NaN when either operand is NaN. -/
def osub : Option ℚ → Option ℚ → Option ℚ
  | some a, some b => some (a - b)
  | _, _ => none

/-- The `TrendPulse` class.  Its `__init__` stores the three technical
parameters; no method ever mutates them. -/
structure TrendPulse where
  channel_length : ℕ
  average_length : ℕ
  smoothing_length : ℕ
deriving DecidableEq

/-- The analyzer instance built by `TrendPulse()`. -/
def theEngine : TrendPulse := ⟨9, 12, 3⟩

/-- `TrendPulse.exponential_average`: `src.ewm(span=length, adjust=False).mean()`. -/
def TrendPulse.exponential_average (_tp : TrendPulse) (src : ℕ → Option ℚ)
    (length : ℚ) : ℕ → Option ℚ :=
  ewmAt (smoothingFactor length) src

/-- `TrendPulse.simple_average`: `src.rolling(window=length).mean()`. -/
def TrendPulse.simple_average (_tp : TrendPulse) (src : ℕ → Option ℚ)
    (length : ℕ) : ℕ → Option ℚ :=
  rollingMeanAt length src

/-- `TrendPulse.detect_crossover`: with `prev_diff = (s1 - s2).shift(1)` and
`curr_diff = s1 - s2`, returns `(prev_diff < 0 & curr_diff > 0) |
(prev_diff > 0 & curr_diff < 0)`.  At index 0 the shifted values are NaN and
both comparisons are False. -/
def TrendPulse.detect_crossover (_tp : TrendPulse) (series1 series2 : ℕ → Option ℚ) :
    ℕ → Bool
  | 0 => false
  | j + 1 =>
    (oLT (osub (series1 j) (series2 j)) (some 0)
        && oLT (some 0) (osub (series1 (j + 1)) (series2 (j + 1))))
      || (oLT (some 0) (osub (series1 j) (series2 j))
        && oLT (osub (series1 (j + 1)) (series2 (j + 1))) (some 0))

/-- The dictionary returned by `calculate_trend_waves`. -/
structure Waves where
  primary : ℕ → Option ℚ
  secondary : ℕ → Option ℚ
  extreme_low : ℕ → Bool
  extreme_high : ℕ → Bool
  cross_detected : ℕ → Bool
  bullish_cross : ℕ → Bool
  bearish_cross : ℕ → Bool

/-- `TrendPulse.calculate_trend_waves`, line for line.  The momentum division
`(price - base) / (0.015 * deviation)` is NaN-strict: where the deviation is 0
the numerator is provably 0 as well (`specDev_zero_num` below), so the
pandas float result there is 0/0 = NaN, i.e. `none`; 0.015 = 3/200. -/
def TrendPulse.calculate_trend_waves (tp : TrendPulse) (price_source : ℕ → ℚ)
    (ch_len avg_len : ℚ) (smooth_len : ℕ) : Waves :=
  let src : ℕ → Option ℚ := fun i => some (price_source i)
  let smooth_base := tp.exponential_average src ch_len
  let price_deviation :=
    tp.exponential_average (fun i => (smooth_base i).map (fun b => |price_source i - b|)) ch_len
  let momentum_index : ℕ → Option ℚ := fun i =>
    match smooth_base i, price_deviation i with
    | some b, some d => if d = 0 then none else some ((price_source i - b) / (3 / 200 * d))
    | _, _ => none
  let primary_wave := tp.exponential_average momentum_index avg_len
  let secondary_wave := tp.simple_average primary_wave smooth_len
  { primary := primary_wave
    secondary := secondary_wave
    extreme_low := fun i => oLE (primary_wave i) (some (-60)) && oLE (secondary_wave i) (some (-60))
    extreme_high := fun i => oLE (some 60) (secondary_wave i) && oLE (some 60) (primary_wave i)
    cross_detected := tp.detect_crossover primary_wave secondary_wave
    bullish_cross := fun i => oLT (secondary_wave i) (primary_wave i)
    bearish_cross := fun i => oLT (primary_wave i) (secondary_wave i) }

/-- Sample `i` of a price series stored as a list (index access). -/
def sample (P : List ℚ) (i : ℕ) : ℚ := P.getD i 0

/-- The OHLC price DataFrame handed to `generate_signals`: a time index and the
`high`/`low`/`close` columns, plus the `avg_price` column which
`generate_signals` writes (absent, i.e. `none`, on data as fetched). -/
structure Frame where
  idx : List String
  high : List ℚ
  low : List ℚ
  close : List ℚ
  avg_price : Option (List ℚ)
deriving DecidableEq

/-- `len(price_data)`: the number of rows. -/
def Frame.len (f : Frame) : ℕ := f.close.length

/-- The HLC3 average-price column `(high + low + close) / 3`. -/
def hlc3 (f : Frame) : List ℚ :=
  List.zipWith (fun h s => (h + s) / 3) f.high (List.zipWith (fun a b => a + b) f.low f.close)

/-- The dictionary returned by `generate_signals`. -/
structure SignalReport where
  timestamp : String
  long_signal : Bool
  short_signal : Bool
deriving DecidableEq

/-- `TrendPulse.generate_signals`: raises `ValueError` (modelled as
`Except.error`) for fewer than 50 rows, otherwise writes the `avg_price`
column onto the passed frame, derives the waves with the default parameters
9/12/3 and reports the last sample of the long/short signal series.  The
`pd.isna` guards on lines 79-80 are identities: the signal series are boolean,
never NaN. -/
def TrendPulse.generate_signals (tp : TrendPulse) (price_data : Frame) :
    Except String (Frame × SignalReport) :=
  if price_data.len < 50 then Except.error "Insufficient historical data"
  else
    let avg := hlc3 price_data
    let waves := tp.calculate_trend_waves (sample avg) 9 12 3
    let i := price_data.len - 1
    Except.ok ({ price_data with avg_price := some avg },
      { timestamp := price_data.idx.getD i ""
        long_signal := waves.cross_detected i && waves.bullish_cross i && waves.extreme_low i
        short_signal := waves.cross_detected i && waves.bearish_cross i && waves.extreme_high i })

/-! Named views of the wave pipeline of the default engine on a list-backed
price series; each is definitionally a field of `calculate_trend_waves`. -/

/-- The waves computed by the engine for a price series. -/
def engineWaves (P : List ℚ) : Waves := theEngine.calculate_trend_waves (sample P) 9 12 3

/-- `smooth_base`: EMA of the price with channel length 9. -/
def basisAt (P : List ℚ) : ℕ → Option ℚ :=
  ewmAt (smoothingFactor 9) (fun i => some (sample P i))

/-- `price_deviation`: EMA of `|price - smooth_base|` with channel length 9. -/
def devAt (P : List ℚ) : ℕ → Option ℚ :=
  ewmAt (smoothingFactor 9) (fun i => (basisAt P i).map (fun b => |sample P i - b|))

/-- `momentum_index`: the normalized momentum, NaN where the deviation is 0. -/
def momentumAt (P : List ℚ) (i : ℕ) : Option ℚ :=
  match basisAt P i, devAt P i with
  | some b, some d => if d = 0 then none else some ((sample P i - b) / (3 / 200 * d))
  | _, _ => none

/-- `primary_wave` (wave1). -/
def wave1At (P : List ℚ) : ℕ → Option ℚ := (engineWaves P).primary

/-- `secondary_wave` (wave2). -/
def wave2At (P : List ℚ) : ℕ → Option ℚ := (engineWaves P).secondary

/-- The long-signal series `cross_detected & bullish_cross & extreme_low`. -/
def longAt (P : List ℚ) (i : ℕ) : Bool :=
  (engineWaves P).cross_detected i && (engineWaves P).bullish_cross i
    && (engineWaves P).extreme_low i

/-- The short-signal series `cross_detected & bearish_cross & extreme_high`. -/
def shortAt (P : List ℚ) (i : ℕ) : Bool :=
  (engineWaves P).cross_detected i && (engineWaves P).bearish_cross i
    && (engineWaves P).extreme_high i

/-! The reference pipeline, taken from the words of the specification
(§4.1-4.2), for the refinement claim C3. -/

/-- The textbook adjust=False exponential-average recurrence with smoothing
factor `a`, seeded at the first sample; used as the closed form of `ewmState`
on NaN-free input. -/
def emaRec (a : ℚ) (g : ℕ → ℚ) : ℕ → ℚ
  | 0 => g 0
  | i + 1 => emaRec a g i + (g (i + 1) - emaRec a g i) * a

/-- The spec's `exponential_average(series, length)`: smoothing factor
`2/(length+1)`, recurrence `ema[i] = ema[i-1] + (x[i] - ema[i-1]) * factor`,
seeded with `ema[0] = x[0]`, defined for every index. -/
def specExponentialAverage (length : ℚ) (x : ℕ → ℚ) : ℕ → ℚ
  | 0 => x 0
  | i + 1 =>
    specExponentialAverage length x i
      + (x (i + 1) - specExponentialAverage length x i) * (2 / (length + 1))

/-- The spec's exponential average over a partial (NaN-carrying) series, with
the usual strict reading of undefinedness: the seed is `x[0]` and the
recurrence is undefined as soon as an operand is undefined. -/
def specStrictEma (length : ℚ) (x : ℕ → Option ℚ) : ℕ → Option ℚ
  | 0 => x 0
  | i + 1 =>
    match specStrictEma length x i, x (i + 1) with
    | some m, some v => some (m + (v - m) * (2 / (length + 1)))
    | _, _ => none

/-- The spec's `simple_average(series, length)`: trailing mean, undefined for
indices below `length - 1` and where an operand is undefined. -/
def specSimpleAverage (length : ℕ) (x : ℕ → Option ℚ) (i : ℕ) : Option ℚ :=
  if length ≤ i + 1 then
    ((List.range length).mapM (fun k => x (i + 1 - length + k))).map
      (fun l => l.sum / (length : ℚ))
  else none

/-- Spec step 1: `base = exponential_average(P, channel_length)`. -/
def specBase (P : List ℚ) : ℕ → ℚ := specExponentialAverage 9 (sample P)

/-- Spec step 2: `deviation = exponential_average(|P - base|, channel_length)`. -/
def specDev (P : List ℚ) : ℕ → ℚ :=
  specExponentialAverage 9 (fun i => |sample P i - specBase P i|)

/-- Spec step 3: `momentum = (P - base) / (0.015 * deviation)`, undefined at
indices with zero deviation. -/
def specMomentum (P : List ℚ) (i : ℕ) : Option ℚ :=
  if specDev P i = 0 then none else some ((sample P i - specBase P i) / (3 / 200 * specDev P i))

/-- Spec step 4: `wave1 = exponential_average(momentum, average_length)`. -/
def specWave1 (P : List ℚ) : ℕ → Option ℚ := specStrictEma 12 (specMomentum P)

/-- Spec step 5: `wave2 = simple_average(wave1, smoothing_length)`. -/
def specWave2 (P : List ℚ) (i : ℕ) : Option ℚ := specSimpleAverage 3 (specWave1 P) i

/-! The alert deduplication store and the scan's dispatch decisions (C6). -/

/-- Modelled from the spec: the Alert Deduplication Store of §4.4 is absent
from the source file; per the spec it is a set of string keys
`symbol_action_bucket` marked as sent. -/
def DedupStore := List String

/-- Modelled from the spec: `is_duplicate(key)` — pure lookup. -/
def is_duplicate (s : List String) (k : String) : Bool := s.contains k

/-- Modelled from the spec: `record(key)` — marks key as sent; idempotent. -/
def record (s : List String) (k : String) : List String :=
  if s.contains k then s else k :: s

/-- An asset row as used by the scan loop. -/
structure AssetInfo where
  symbol : String
  name : String
deriving DecidableEq

/-- The dispatch decisions of `execute_market_scan` lines 279-288: for every
processed asset a long alert attempt is made when `long_signal` holds, else a
short attempt when `short_signal` holds.  No deduplication state is consulted
or written anywhere in the loop. -/
def scanDispatchAttempts (results : List (AssetInfo × SignalReport)) :
    List (String × String) :=
  results.foldr
    (fun p acc =>
      if p.2.long_signal then (p.1.symbol, "long") :: acc
      else if p.2.short_signal then (p.1.symbol, "short") :: acc
      else acc)
    []

/-! Concrete inputs used by witnesses and counterexamples. -/

/-- A frame of `n` rows whose high, low and close all equal `c`. -/
def flatFrame (c : ℚ) (n : ℕ) : Frame :=
  ⟨List.replicate n "t", List.replicate n c, List.replicate n c, List.replicate n c, none⟩

/-- The flat frame after `generate_signals` wrote its average-price column. -/
def flatFrameAvg (c : ℚ) (n : ℕ) : Frame :=
  ⟨List.replicate n "t", List.replicate n c, List.replicate n c, List.replicate n c,
    some (List.replicate n c)⟩

/-- A frame whose high, low and close columns all equal the given series, so
that its HLC3 average price is that series. -/
def seriesFrame (P : List ℚ) : Frame := ⟨List.replicate P.length "t", P, P, P, none⟩

/-- The C1 counterexample price series: constant, then engineered so that at
the last sample wave1 ties wave2 at the previous sample and crosses above it
in the oversold zone. -/

def exC1 : List ℚ := List.replicate 44 100 ++ [99, (397 / 3 : ℚ), (2579381 / 7275 : ℚ), (312087877 / 123675 : ℚ), (-5414747989 / 225525 : ℚ), (4551217914919 / 141855225 : ℚ)]

/-- The C2 counterexample price series: the mirror image of `exC1`. -/

def exC2 : List ℚ := List.replicate 44 100 ++ [101, (203 / 3 : ℚ), (-1124381 / 7275 : ℚ), (-287352877 / 123675 : ℚ), (5459852989 / 225525 : ℚ), (-4522846869919 / 141855225 : ℚ)]

/-- The C7 counterexample price series: strictly increasing, engineered so
that wave1 peaks and turns down inside the overbought zone at the last
sample. -/

def exC7 : List ℚ := [100, 101, (537 / 5 : ℚ), (3981 / 25 : ℚ), (14349 / 25 : ℚ), (97293 / 25 : ℚ), (152169 / 5 : ℚ), (6069261 / 25 : ℚ), (48536589 / 25 : ℚ), (388275213 / 25 : ℚ), (621236841 / 5 : ℚ), (24849456141 / 25 : ℚ), (198795631629 / 25 : ℚ), (1590365035533 / 25 : ℚ), (2544584053353 / 5 : ℚ), (101783362116621 / 25 : ℚ), (814266896915469 / 25 : ℚ), (6514135175306253 / 25 : ℚ), 2084523256097301, (416904651219442701 / 25 : ℚ), (3335237209755524109 / 25 : ℚ), (26681897678044175373 / 25 : ℚ), (42691036284870677097 / 5 : ℚ), (1707641451394827066381 / 25 : ℚ), (13661131611158616513549 / 25 : ℚ), (109289052889268932090893 / 25 : ℚ), (174862484622830291341929 / 5 : ℚ), (6994499384913211653659661 / 25 : ℚ), (55955995079305693229259789 / 25 : ℚ), (447647960634445545834060813 / 25 : ℚ), (716236737015112873334493801 / 5 : ℚ), (28649469480604514933379734541 / 25 : ℚ), (229195755844836119467037858829 / 25 : ℚ), (1833566046758688955736302853133 / 25 : ℚ), (2933705674813902329178084561513 / 5 : ℚ), (117348226992556093167123382443021 / 25 : ℚ), (938785815940448745336987059526669 / 25 : ℚ), (7510286527523589962695896476195853 / 25 : ℚ), 2403291688807548788062686872381973, (480658337761509757612537374476377101 / 25 : ℚ), (3845266702092078060900298995810999309 / 25 : ℚ), (30762133616736624487202391966487976973 / 25 : ℚ), (49219413786778599179523827146380759657 / 5 : ℚ), (1968776551471143967180953085855230368781 / 25 : ℚ), (15750212411769151737447624686841842932749 / 25 : ℚ), (126001699294153213899580997494734743444493 / 25 : ℚ), (201602718870645142239329595991575589507689 / 5 : ℚ), (21130951644589842686566768765042922900200461 / 25 : ℚ), (422544365218141059234209697672713430007847949 / 25 : ℚ), (22084532504847994209358797754083075438567087741 / 1225 : ℚ)]

/-- A two-sample price series for the C3 counterexample. -/
def exC3 : List ℚ := [1, 2]

/-- A four-sample price series for the C3 counterexample (wave2 mismatch). -/
def exC3b : List ℚ := [1, 2, 3, 4]

/-! ### Basic bridges between the engine definitions -/

theorem ewmState_succ (a : ℚ) (x : ℕ → Option ℚ) (i : ℕ) :
    ewmState a x (i + 1) = ewmStep a (ewmState a x i) (x (i + 1)) := rfl

theorem wave1At_def (P : List ℚ) : wave1At P = ewmAt (smoothingFactor 12) (momentumAt P) := rfl

theorem wave2At_def (P : List ℚ) : wave2At P = rollingMeanAt 3 (wave1At P) := rfl

theorem longAt_eq (P : List ℚ) (i : ℕ) :
    longAt P i = ((theEngine.detect_crossover (wave1At P) (wave2At P) i
      && oLT (wave2At P i) (wave1At P i))
      && (oLE (wave1At P i) (some (-60)) && oLE (wave2At P i) (some (-60)))) := rfl

theorem shortAt_eq (P : List ℚ) (i : ℕ) :
    shortAt P i = ((theEngine.detect_crossover (wave1At P) (wave2At P) i
      && oLT (wave1At P i) (wave2At P i))
      && (oLE (some 60) (wave2At P i) && oLE (some 60) (wave1At P i))) := rfl

theorem oLT_none_right (x : Option ℚ) : oLT x none = false := by cases x <;> rfl

theorem oLT_none_left (x : Option ℚ) : oLT none x = false := rfl

theorem oLE_none_right (x : Option ℚ) : oLE x none = false := by cases x <;> rfl

theorem oLE_none_left (x : Option ℚ) : oLE none x = false := rfl

theorem osub_none_left (x : Option ℚ) : osub none x = none := rfl

theorem osub_none_right (x : Option ℚ) : osub x none = none := by cases x <;> rfl

/-! ### The exponential average on NaN-free input -/

theorem ewmState_total (a : ℚ) (g : ℕ → ℚ) :
    ∀ i, ewmState a (fun j => some (g j)) i = (some (emaRec a g i), 1) := by
  intro i
  induction i with
  | zero => simp [ewmState, ewmStep, emaRec]
  | succ n ih =>
    rw [ewmState_succ, ih]
    show ewmStep a (some (emaRec a g n), 1) (some (g (n + 1))) = _
    simp only [ewmStep, emaRec, Prod.mk.injEq, Option.some.injEq]
    refine ⟨?_, trivial⟩
    rw [show (1 : ℚ) * (1 - a) + a = 1 by ring, div_one]
    ring

theorem spec_ema_eq_rec (length : ℚ) (x : ℕ → ℚ) :
    ∀ i, specExponentialAverage length x i = emaRec (smoothingFactor length) x i := by
  intro i
  induction i with
  | zero => rfl
  | succ n ih => rw [specExponentialAverage, emaRec, ih, smoothingFactor]

theorem basisAt_eq (P : List ℚ) (i : ℕ) : basisAt P i = some (specBase P i) := by
  show (ewmState (smoothingFactor 9) (fun j => some (sample P j)) i).1 = _
  rw [ewmState_total]
  simp [specBase, spec_ema_eq_rec]

theorem devAt_eq (P : List ℚ) (i : ℕ) : devAt P i = some (specDev P i) := by
  have hfun : (fun k => (basisAt P k).map (fun b => |sample P k - b|))
      = fun k => some (|sample P k - specBase P k|) := by
    funext k; rw [basisAt_eq]; rfl
  show (ewmState (smoothingFactor 9)
      (fun k => (basisAt P k).map (fun b => |sample P k - b|)) i).1 = _
  rw [hfun, ewmState_total]
  simp [specDev, spec_ema_eq_rec]

theorem momentumAt_eq_spec (P : List ℚ) (i : ℕ) : momentumAt P i = specMomentum P i := by
  rw [momentumAt, basisAt_eq, devAt_eq, specMomentum]

/-! ### The deviation series: nonnegative, zero exactly on the constant head -/

theorem specDev_at_zero (P : List ℚ) : specDev P 0 = 0 := by
  show |sample P 0 - specBase P 0| = 0
  show |sample P 0 - sample P 0| = 0
  simp

theorem specDev_succ (P : List ℚ) (i : ℕ) :
    specDev P (i + 1) = specDev P i
      + (|sample P (i + 1) - specBase P (i + 1)| - specDev P i) * (2 / (9 + 1)) := rfl

theorem specDev_nonneg (P : List ℚ) : ∀ i, 0 ≤ specDev P i := by
  intro i
  induction i with
  | zero => rw [specDev_at_zero]
  | succ n ih =>
    rw [specDev_succ]
    have h := abs_nonneg (sample P (n + 1) - specBase P (n + 1))
    nlinarith

theorem specDev_pos_succ (P : List ℚ) (i : ℕ) (h : 0 < specDev P i) :
    0 < specDev P (i + 1) := by
  rw [specDev_succ]
  have h2 := abs_nonneg (sample P (i + 1) - specBase P (i + 1))
  nlinarith

theorem specDev_zero_pred (P : List ℚ) (i : ℕ) (h : specDev P (i + 1) = 0) :
    specDev P i = 0 := by
  rw [specDev_succ] at h
  have h1 := specDev_nonneg P i
  have h2 := abs_nonneg (sample P (i + 1) - specBase P (i + 1))
  nlinarith

theorem specDev_zero_of_le (P : List ℚ) :
    ∀ i, specDev P i = 0 → ∀ j, j ≤ i → specDev P j = 0 := by
  intro i
  induction i with
  | zero =>
    intro h j hj
    rw [Nat.le_zero.mp hj]
    exact h
  | succ n ih =>
    intro h j hj
    rcases Nat.lt_or_ge j (n + 1) with h' | h'
    · exact ih (specDev_zero_pred P n h) j (by omega)
    · have hj' : j = n + 1 := by omega
      rw [hj']
      exact h

/-- Where the deviation vanishes, so does the momentum numerator: the pandas
division there is 0/0, i.e. NaN. -/
theorem specDev_zero_num (P : List ℚ) :
    ∀ i, specDev P i = 0 → sample P i - specBase P i = 0 := by
  intro i
  cases i with
  | zero => intro _; show sample P 0 - sample P 0 = 0; ring
  | succ n =>
    intro h
    rw [specDev_succ] at h
    have h1 := specDev_nonneg P n
    have h2 := abs_nonneg (sample P (n + 1) - specBase P (n + 1))
    have h3 : |sample P (n + 1) - specBase P (n + 1)| = 0 := by nlinarith
    exact abs_eq_zero.mp h3

theorem momentum_none_iff (P : List ℚ) (i : ℕ) :
    momentumAt P i = none ↔ specDev P i = 0 := by
  by_cases h : specDev P i = 0 <;> simp [momentumAt_eq_spec, specMomentum, h]

theorem momentum_progressive (P : List ℚ) :
    ∀ i, momentumAt P i ≠ none → momentumAt P (i + 1) ≠ none := by
  intro i h
  rw [Ne, momentum_none_iff] at h ⊢
  intro hz
  exact h (specDev_zero_pred P i hz)

theorem momentum_none_down (P : List ℚ) (i : ℕ) (h : momentumAt P i = none) :
    ∀ j, j ≤ i → momentumAt P j = none := by
  intro j hj
  rw [momentum_none_iff] at h ⊢
  exact specDev_zero_of_le P i h j hj

/-! ### The exponential average on series whose NaNs form a head segment -/

theorem ewmState_none_of (a : ℚ) (x : ℕ → Option ℚ) :
    ∀ i, (∀ j, j ≤ i → x j = none) → ewmState a x i = (none, 1) := by
  intro i
  induction i with
  | zero =>
    intro h
    show ewmStep a (none, 1) (x 0) = (none, 1)
    rw [h 0 (le_refl 0)]
    rfl
  | succ n ih =>
    intro h
    rw [ewmState_succ, ih (fun j hj => h j (le_trans hj (Nat.le_succ n))),
      h (n + 1) (le_refl (n + 1))]
    rfl

theorem ewmState_shape (a : ℚ) (x : ℕ → Option ℚ)
    (hx : ∀ i, x i ≠ none → x (i + 1) ≠ none) :
    ∀ i, (ewmState a x i = (none, 1) ∧ x i = none)
      ∨ ∃ m, ewmState a x i = (some m, 1) ∧ x i ≠ none := by
  intro i
  induction i with
  | zero =>
    cases h : x 0 with
    | none =>
      left
      refine ⟨?_, rfl⟩
      show ewmStep a (none, 1) (x 0) = (none, 1)
      rw [h]
      rfl
    | some v =>
      right
      refine ⟨v, ?_, by simp [h]⟩
      show ewmStep a (none, 1) (x 0) = (some v, 1)
      rw [h]
      rfl
  | succ n ih =>
    rcases ih with ⟨hs, hn⟩ | ⟨m, hs, hne⟩
    · cases h : x (n + 1) with
      | none =>
        left
        refine ⟨?_, rfl⟩
        rw [ewmState_succ, hs, h]
        rfl
      | some v =>
        right
        refine ⟨v, ?_, by simp [h]⟩
        rw [ewmState_succ, hs, h]
        rfl
    · cases h : x (n + 1) with
      | none => exact absurd h (hx n hne)
      | some v =>
        right
        refine ⟨(1 * (1 - a) * m + a * v) / (1 * (1 - a) + a), ?_, by simp [h]⟩
        rw [ewmState_succ, hs, h]
        rfl

theorem ewmState_seed (a : ℚ) (x : ℕ → Option ℚ) (i : ℕ) (v : ℚ)
    (hpre : ∀ j, j < i → x j = none) (hv : x i = some v) :
    ewmState a x i = (some v, 1) := by
  cases i with
  | zero =>
    show ewmStep a (none, 1) (x 0) = (some v, 1)
    rw [hv]
    rfl
  | succ n =>
    rw [ewmState_succ, ewmState_none_of a x n (fun j hj => hpre j (by omega)), hv]
    rfl

theorem ewmState_step_of_some (a : ℚ) (x : ℕ → Option ℚ) (i : ℕ) (w v : ℚ)
    (hs : ewmState a x i = (some w, 1)) (hv : x (i + 1) = some v) :
    ewmState a x (i + 1) = (some (w + (v - w) * a), 1) := by
  rw [ewmState_succ, hs, hv]
  simp only [ewmStep, Prod.mk.injEq, Option.some.injEq]
  refine ⟨?_, trivial⟩
  rw [show (1 : ℚ) * (1 - a) + a = 1 by ring, div_one]
  ring

theorem wave1At_none (P : List ℚ) (i : ℕ) (h : momentumAt P i = none) :
    wave1At P i = none := by
  rw [wave1At_def]
  show (ewmState (smoothingFactor 12) (momentumAt P) i).1 = none
  rcases ewmState_shape (smoothingFactor 12) (momentumAt P) (momentum_progressive P) i with
    ⟨hs, _⟩ | ⟨m, _, hne⟩
  · rw [hs]
  · exact absurd h hne

theorem wave1At_seed (P : List ℚ) (i : ℕ) (v : ℚ)
    (hpre : ∀ j, j < i → momentumAt P j = none) (hv : momentumAt P i = some v) :
    wave1At P i = some v := by
  rw [wave1At_def]
  show (ewmState (smoothingFactor 12) (momentumAt P) i).1 = some v
  rw [ewmState_seed (smoothingFactor 12) (momentumAt P) i v hpre hv]

theorem wave1At_rec (P : List ℚ) (i : ℕ) (w v : ℚ)
    (hw : wave1At P i = some w) (hv : momentumAt P (i + 1) = some v) :
    wave1At P (i + 1) = some (w + (v - w) * smoothingFactor 12) := by
  have hw' : (ewmState (smoothingFactor 12) (momentumAt P) i).1 = some w := hw
  rcases ewmState_shape (smoothingFactor 12) (momentumAt P) (momentum_progressive P) i with
    ⟨hs, _⟩ | ⟨m, hs, _⟩
  · rw [hs] at hw'
    exact absurd hw' (by simp)
  · have hmw : m = w := by
      rw [hs] at hw'
      simpa using hw'
    subst hmw
    show (ewmState (smoothingFactor 12) (momentumAt P) (i + 1)).1
      = some (m + (v - m) * smoothingFactor 12)
    rw [ewmState_step_of_some (smoothingFactor 12) (momentumAt P) i m v hs hv]

/-! ### The trailing window of length three -/

theorem rollingMean3 (x : ℕ → Option ℚ) (i : ℕ) (h : 2 ≤ i) :
    rollingMeanAt 3 x i = (x (i - 2)).bind (fun a =>
      (x (i - 1)).bind (fun b => (x i).map (fun c => (a + b + c) / 3))) := by
  rw [rollingMeanAt, if_pos (by omega)]
  rw [show List.range 3 = [0, 1, 2] from rfl]
  have h0 : i + 1 - 3 + 0 = i - 2 := by omega
  have h1 : i + 1 - 3 + 1 = i - 1 := by omega
  have h2 : i + 1 - 3 + 2 = i := by omega
  simp only [List.mapM_cons, List.mapM_nil, h0, h1, h2]
  rcases x (i - 2) with _ | a <;> rcases x (i - 1) with _ | b <;> rcases x i with _ | c <;>
    simp <;> ring

theorem rollingMean3_low (x : ℕ → Option ℚ) (i : ℕ) (h : i < 2) :
    rollingMeanAt 3 x i = none := by
  rw [rollingMeanAt, if_neg (by omega)]

/-! ### Constant-head price series -/

theorem ewmState_const (a : ℚ) (x : ℕ → Option ℚ) (c : ℚ) :
    ∀ i, (∀ j, j ≤ i → x j = some c) → ewmState a x i = (some c, 1) := by
  intro i
  induction i with
  | zero =>
    intro h
    show ewmStep a (none, 1) (x 0) = (some c, 1)
    rw [h 0 (le_refl 0)]
    rfl
  | succ n ih =>
    intro h
    rw [ewmState_succ, ih (fun j hj => h j (by omega)), h (n + 1) (le_refl (n + 1))]
    simp only [ewmStep, Prod.mk.injEq, Option.some.injEq]
    refine ⟨?_, trivial⟩
    rw [show (1 : ℚ) * (1 - a) + a = 1 by ring, div_one]
    ring

theorem basisAt_const (P : List ℚ) (c : ℚ) (i : ℕ)
    (hc : ∀ j, j ≤ i → sample P j = c) : basisAt P i = some c := by
  show (ewmState (smoothingFactor 9) (fun j => some (sample P j)) i).1 = some c
  rw [ewmState_const (smoothingFactor 9) _ c i (fun j hj => by rw [hc j hj])]

theorem devAt_const (P : List ℚ) (c : ℚ) (i : ℕ)
    (hc : ∀ j, j ≤ i → sample P j = c) : devAt P i = some 0 := by
  have hin : ∀ j, j ≤ i → (basisAt P j).map (fun b => |sample P j - b|) = some 0 := by
    intro j hj
    rw [basisAt_const P c j (fun k hk => hc k (le_trans hk hj)), hc j hj]
    simp
  show (ewmState (smoothingFactor 9)
      (fun k => (basisAt P k).map (fun b => |sample P k - b|)) i).1 = some 0
  rw [ewmState_const (smoothingFactor 9) _ 0 i hin]

theorem momentumAt_const_none (P : List ℚ) (c : ℚ) (i : ℕ)
    (hc : ∀ j, j ≤ i → sample P j = c) : momentumAt P i = none := by
  rw [momentumAt, basisAt_const P c i hc, devAt_const P c i hc]
  simp

theorem signalsAt_false_of_wave1_none (P : List ℚ) (i : ℕ) (h : wave1At P i = none) :
    longAt P i = false ∧ shortAt P i = false := by
  rw [longAt_eq, shortAt_eq, h, oLT_none_right, oLT_none_left, oLE_none_left, oLE_none_right]
  simp

/-! ### Frames with constant or series-valued columns -/

theorem getD_replicate {α : Type} (a d : α) : ∀ n i, i < n → (List.replicate n a).getD i d = a := by
  intro n
  induction n with
  | zero => intro i hi; omega
  | succ m ih =>
    intro i hi
    cases i with
    | zero => rfl
    | succ j => exact ih j (by omega)

theorem sample_replicate (c : ℚ) (n j : ℕ) (h : j < n) :
    sample (List.replicate n c) j = c :=
  getD_replicate c 0 n j h

theorem zip3_self : ∀ Q : List ℚ,
    List.zipWith (fun h s => (h + s) / 3) Q (List.zipWith (fun a b => a + b) Q Q) = Q := by
  intro Q
  induction Q with
  | nil => rfl
  | cons p t ih =>
    rw [List.zipWith_cons_cons, List.zipWith_cons_cons, ih]
    congr 1
    ring

theorem hlc3_series (P : List ℚ) : hlc3 (seriesFrame P) = P := zip3_self P

theorem zip3_const (c : ℚ) : ∀ n, List.zipWith (fun h s => (h + s) / 3) (List.replicate n c)
    (List.zipWith (fun a b => a + b) (List.replicate n c) (List.replicate n c))
      = List.replicate n c := by
  intro n
  induction n with
  | zero => rfl
  | succ m ih =>
    rw [List.replicate_succ, List.zipWith_cons_cons, List.zipWith_cons_cons, ih]
    congr 1
    ring

theorem hlc3_flat (c : ℚ) (n : ℕ) : hlc3 (flatFrame c n) = List.replicate n c := zip3_const c n

theorem flatFrame_len (c : ℚ) (n : ℕ) : (flatFrame c n).len = n := List.length_replicate n c

theorem seriesFrame_len (P : List ℚ) : (seriesFrame P).len = P.length := rfl

/-! ### The two outcomes of generate_signals -/

theorem generate_signals_ok (tp : TrendPulse) (f : Frame) (h : 50 ≤ f.len) :
    tp.generate_signals f = Except.ok ({ f with avg_price := some (hlc3 f) },
      ⟨f.idx.getD (f.len - 1) "", longAt (hlc3 f) (f.len - 1),
        shortAt (hlc3 f) (f.len - 1)⟩) := by
  rw [TrendPulse.generate_signals, if_neg (by omega)]
  rfl

theorem generate_signals_err (tp : TrendPulse) (f : Frame) (h : f.len < 50) :
    tp.generate_signals f = Except.error "Insufficient historical data" := by
  rw [TrendPulse.generate_signals, if_pos h]

theorem wave1_flat_none (c : ℚ) (n i : ℕ) (h : i < n) :
    wave1At (List.replicate n c) i = none :=
  wave1At_none _ _ (momentumAt_const_none _ c i (fun j hj => sample_replicate c n j (by omega)))

theorem flat_report (c : ℚ) (n : ℕ) (h : 50 ≤ n) :
    theEngine.generate_signals (flatFrame c n)
      = Except.ok (flatFrameAvg c n, ⟨"t", false, false⟩) := by
  have hsig := signalsAt_false_of_wave1_none (List.replicate n c) (n - 1)
    (wave1_flat_none c n (n - 1) (by omega))
  rw [generate_signals_ok theEngine (flatFrame c n)
      (by rw [flatFrame_len]; exact h)]
  rw [flatFrame_len, hlc3_flat, hsig.1, hsig.2]
  congr 1
  show ((⟨List.replicate n "t", List.replicate n c, List.replicate n c, List.replicate n c,
    some (List.replicate n c)⟩ : Frame),
      (⟨(List.replicate n "t").getD (n - 1) "", false, false⟩ : SignalReport))
    = (flatFrameAvg c n, ⟨"t", false, false⟩)
  rw [getD_replicate "t" "" n (n - 1) (by omega)]
  rfl

/-! ### The classifier at a single instant -/

theorem oLT_asymm (x y : Option ℚ) (h1 : oLT x y = true) (h2 : oLT y x = true) : False := by
  cases x <;> cases y <;> simp only [oLT, decide_eq_true_eq, Bool.false_eq_true] at h1 h2
  exact absurd h2 (not_lt.mpr (le_of_lt h1))

theorem long_short_exclusive (P : List ℚ) (i : ℕ) :
    ¬(longAt P i = true ∧ shortAt P i = true) := by
  rintro ⟨hl, hs⟩
  rw [longAt_eq] at hl
  rw [shortAt_eq] at hs
  simp only [Bool.and_eq_true] at hl hs
  exact oLT_asymm _ _ hs.1.2 hl.1.2

theorem long_iff_at_succ (P : List ℚ) (j : ℕ) :
    longAt P (j + 1) = true ↔
      (match wave1At P j, wave2At P j, wave1At P (j + 1), wave2At P (j + 1) with
        | some p1, some p2, some c1, some c2 => p1 < p2 ∧ c2 < c1 ∧ c1 ≤ -60 ∧ c2 ≤ -60
        | _, _, _, _ => False) := by
  rw [longAt_eq]
  simp only [TrendPulse.detect_crossover]
  rcases h1 : wave1At P j with _ | p1 <;> rcases h2 : wave2At P j with _ | p2 <;>
    rcases h3 : wave1At P (j + 1) with _ | c1 <;> rcases h4 : wave2At P (j + 1) with _ | c2 <;>
      simp only [oLT, oLE, osub, Bool.and_eq_true, Bool.or_eq_true, decide_eq_true_eq,
        Bool.false_eq_true, false_and, and_false, false_or, or_false, and_true, true_and] <;>
    try simp
  constructor
  · rintro ⟨⟨hcross, hbull⟩, hlow⟩
    rcases hcross with ⟨hp, hc⟩ | ⟨hp, hc⟩
    · exact ⟨by linarith, hbull, hlow.1, hlow.2⟩
    · exact absurd hbull (by linarith)
  · rintro ⟨hp, hb, h60a, h60b⟩
    exact ⟨⟨Or.inl ⟨by linarith, by linarith⟩, hb⟩, h60a, h60b⟩

theorem short_iff_at_succ (P : List ℚ) (j : ℕ) :
    shortAt P (j + 1) = true ↔
      (match wave1At P j, wave2At P j, wave1At P (j + 1), wave2At P (j + 1) with
        | some p1, some p2, some c1, some c2 => p2 < p1 ∧ c1 < c2 ∧ 60 ≤ c1 ∧ 60 ≤ c2
        | _, _, _, _ => False) := by
  rw [shortAt_eq]
  simp only [TrendPulse.detect_crossover]
  rcases h1 : wave1At P j with _ | p1 <;> rcases h2 : wave2At P j with _ | p2 <;>
    rcases h3 : wave1At P (j + 1) with _ | c1 <;> rcases h4 : wave2At P (j + 1) with _ | c2 <;>
      simp only [oLT, oLE, osub, Bool.and_eq_true, Bool.or_eq_true, decide_eq_true_eq,
        Bool.false_eq_true, false_and, and_false, false_or, or_false, and_true, true_and] <;>
    try simp
  constructor
  · rintro ⟨⟨hcross, hbear⟩, hhigh⟩
    rcases hcross with ⟨hp, hc⟩ | ⟨hp, hc⟩
    · exact absurd hbear (by linarith)
    · exact ⟨by linarith, hbear, hhigh.2, hhigh.1⟩
  · rintro ⟨hp, hb, h60a, h60b⟩
    exact ⟨⟨Or.inr ⟨by linarith, by linarith⟩, hb⟩, h60b, h60a⟩

/-! ### Strictly increasing price series keep both waves positive -/

theorem sf9_val : smoothingFactor 9 = 1 / 5 := by norm_num [smoothingFactor]

theorem sf12_val : smoothingFactor 12 = 2 / 13 := by norm_num [smoothingFactor]

theorem specBase_succ (P : List ℚ) (i : ℕ) :
    specBase P (i + 1) = specBase P i
      + (sample P (i + 1) - specBase P i) * (2 / (9 + 1)) := rfl

theorem specBase_le_sample (P : List ℚ) (n : ℕ)
    (hmono : ∀ i, i < n - 1 → sample P i < sample P (i + 1)) :
    ∀ i, i < n → specBase P i ≤ sample P i ∧ (1 ≤ i → specBase P i < sample P i) := by
  intro i
  induction i with
  | zero => exact fun _ => ⟨le_of_eq rfl, fun hc => absurd hc (by omega)⟩
  | succ m ih =>
    intro h
    have hm := ih (by omega)
    have hlt : sample P m < sample P (m + 1) := hmono m (by omega)
    have hb : specBase P m < sample P (m + 1) := lt_of_le_of_lt hm.1 hlt
    rw [specBase_succ]
    constructor
    · nlinarith
    · intro _
      nlinarith

theorem specDev_pos_of_mono (P : List ℚ) (n : ℕ)
    (hmono : ∀ i, i < n - 1 → sample P i < sample P (i + 1)) :
    ∀ i, 1 ≤ i → i < n → 0 < specDev P i := by
  intro i h1 h2
  cases i with
  | zero => omega
  | succ m =>
    have hdiff : 0 < sample P (m + 1) - specBase P (m + 1) := by
      have := (specBase_le_sample P n hmono (m + 1) h2).2 (by omega)
      linarith
    have habs : |sample P (m + 1) - specBase P (m + 1)| = sample P (m + 1) - specBase P (m + 1) :=
      abs_of_pos hdiff
    have hd0 := specDev_nonneg P m
    rw [specDev_succ, habs]
    nlinarith

theorem momentum_pos_of_mono (P : List ℚ) (n : ℕ)
    (hmono : ∀ i, i < n - 1 → sample P i < sample P (i + 1)) :
    ∀ i, 1 ≤ i → i < n → ∃ m, momentumAt P i = some m ∧ 0 < m := by
  intro i h1 h2
  have hd := specDev_pos_of_mono P n hmono i h1 h2
  have hdiff : 0 < sample P i - specBase P i := by
    have := (specBase_le_sample P n hmono i h2).2 h1
    linarith
  refine ⟨(sample P i - specBase P i) / (3 / 200 * specDev P i), ?_, ?_⟩
  · rw [momentumAt_eq_spec, specMomentum, if_neg (ne_of_gt hd)]
  · exact div_pos hdiff (by nlinarith)

theorem momentumAt_at_zero_none (P : List ℚ) : momentumAt P 0 = none := by
  rw [momentum_none_iff]
  exact specDev_at_zero P

theorem wave1_pos_of_mono (P : List ℚ) (n : ℕ)
    (hmono : ∀ i, i < n - 1 → sample P i < sample P (i + 1)) :
    ∀ i, 1 ≤ i → i < n → ∃ w, wave1At P i = some w ∧ 0 < w := by
  intro i
  induction i with
  | zero => omega
  | succ m ih =>
    intro h1 h2
    rcases Nat.eq_zero_or_pos m with hm | hm
    · subst hm
      obtain ⟨v, hv, hvpos⟩ := momentum_pos_of_mono P n hmono 1 (le_refl 1) h2
      refine ⟨v, wave1At_seed P 1 v ?_ hv, hvpos⟩
      intro j hj
      have hj0 : j = 0 := by omega
      rw [hj0]
      exact momentumAt_at_zero_none P
    · obtain ⟨w, hw, hwpos⟩ := ih (by omega) (by omega)
      obtain ⟨v, hv, hvpos⟩ := momentum_pos_of_mono P n hmono (m + 1) (by omega) h2
      refine ⟨w + (v - w) * smoothingFactor 12, wave1At_rec P m w v hw hv, ?_⟩
      rw [sf12_val]
      nlinarith

theorem longAt_at_zero (P : List ℚ) : longAt P 0 = false := rfl

theorem longAt_false_of_pos (P : List ℚ) (i : ℕ) (w : ℚ)
    (hw : wave1At P i = some w) (hpos : 0 < w) : longAt P i = false := by
  rw [longAt_eq, hw]
  have : oLE (some w) (some (-60)) = false := by
    simp only [oLE, decide_eq_false_iff_not]
    intro hc
    linarith
  rw [this]
  simp

/-! ### Claim theorems -/

/-- C1 (amended): for a frame of at least 50 rows the reported long signal is
the last sample of the long-signal series, and that sample is BUY exactly when
wave1 crossed *strictly* above wave2 (prev1 < prev2, not prev1 ≤ prev2, and
cur1 > cur2) with both waves at or below -60 at the current sample. -/
theorem c1_strict_cross_buy (f : Frame) (h : 50 ≤ f.len) :
    (theEngine.generate_signals f).map (fun pr => pr.2.long_signal)
      = Except.ok (longAt (hlc3 f) (f.len - 1)) ∧
    (longAt (hlc3 f) (f.len - 1) = true ↔
      (match wave1At (hlc3 f) (f.len - 2), wave2At (hlc3 f) (f.len - 2),
          wave1At (hlc3 f) (f.len - 1), wave2At (hlc3 f) (f.len - 1) with
        | some p1, some p2, some c1, some c2 => p1 < p2 ∧ c2 < c1 ∧ c1 ≤ -60 ∧ c2 ≤ -60
        | _, _, _, _ => False)) := by
  constructor
  · rw [generate_signals_ok theEngine f h]
    rfl
  · rw [show f.len - 1 = (f.len - 2) + 1 by omega]
    exact long_iff_at_succ (hlc3 f) (f.len - 2)

/-- Witness for C1 at a concrete 50-row frame. -/
theorem c1_strict_cross_buy_witness :
    ((theEngine.generate_signals (flatFrame 7 50)).map (fun pr => pr.2.long_signal)
      = Except.ok (longAt (hlc3 (flatFrame 7 50)) ((flatFrame 7 50).len - 1))) ∧
    (longAt (hlc3 (flatFrame 7 50)) ((flatFrame 7 50).len - 1) = true ↔
      (match wave1At (hlc3 (flatFrame 7 50)) ((flatFrame 7 50).len - 2),
          wave2At (hlc3 (flatFrame 7 50)) ((flatFrame 7 50).len - 2),
          wave1At (hlc3 (flatFrame 7 50)) ((flatFrame 7 50).len - 1),
          wave2At (hlc3 (flatFrame 7 50)) ((flatFrame 7 50).len - 1) with
        | some p1, some p2, some c1, some c2 => p1 < p2 ∧ c2 < c1 ∧ c1 ≤ -60 ∧ c2 ≤ -60
        | _, _, _, _ => False)) :=
  c1_strict_cross_buy (flatFrame 7 50) (by simp [flatFrame_len])

/-- C2 (amended): the reported short signal is the last sample of the
short-signal series, and that sample is SELL exactly when wave1 crossed
*strictly* below wave2 (prev1 > prev2, not prev1 ≥ prev2, and cur1 < cur2)
with both waves at or above 60 at the current sample. -/
theorem c2_strict_cross_sell (f : Frame) (h : 50 ≤ f.len) :
    (theEngine.generate_signals f).map (fun pr => pr.2.short_signal)
      = Except.ok (shortAt (hlc3 f) (f.len - 1)) ∧
    (shortAt (hlc3 f) (f.len - 1) = true ↔
      (match wave1At (hlc3 f) (f.len - 2), wave2At (hlc3 f) (f.len - 2),
          wave1At (hlc3 f) (f.len - 1), wave2At (hlc3 f) (f.len - 1) with
        | some p1, some p2, some c1, some c2 => p2 < p1 ∧ c1 < c2 ∧ 60 ≤ c1 ∧ 60 ≤ c2
        | _, _, _, _ => False)) := by
  constructor
  · rw [generate_signals_ok theEngine f h]
    rfl
  · rw [show f.len - 1 = (f.len - 2) + 1 by omega]
    exact short_iff_at_succ (hlc3 f) (f.len - 2)

/-- Witness for C2 at a concrete 50-row frame. -/
theorem c2_strict_cross_sell_witness :
    ((theEngine.generate_signals (flatFrame 7 50)).map (fun pr => pr.2.short_signal)
      = Except.ok (shortAt (hlc3 (flatFrame 7 50)) ((flatFrame 7 50).len - 1))) ∧
    (shortAt (hlc3 (flatFrame 7 50)) ((flatFrame 7 50).len - 1) = true ↔
      (match wave1At (hlc3 (flatFrame 7 50)) ((flatFrame 7 50).len - 2),
          wave2At (hlc3 (flatFrame 7 50)) ((flatFrame 7 50).len - 2),
          wave1At (hlc3 (flatFrame 7 50)) ((flatFrame 7 50).len - 1),
          wave2At (hlc3 (flatFrame 7 50)) ((flatFrame 7 50).len - 1) with
        | some p1, some p2, some c1, some c2 => p2 < p1 ∧ c1 < c2 ∧ 60 ≤ c1 ∧ 60 ≤ c2
        | _, _, _, _ => False)) :=
  c2_strict_cross_sell (flatFrame 7 50) (by simp [flatFrame_len])

/-- C3 (amended): base and deviation match the reference EMA exactly and the
momentum matches the reference momentum, but the engine's wave1 is *not* the
reference EMA seeded at index 0 (momentum[0] is always NaN): wave1 is NaN
exactly while the momentum is NaN, seeds at the first defined momentum sample
and follows the reference recurrence afterwards; wave2 is the trailing
3-sample mean of wave1, defined only where the whole window is. -/
theorem c3_engine_vs_reference (P : List ℚ) (i : ℕ) (v w : ℚ) :
    basisAt P i = some (specBase P i) ∧
    devAt P i = some (specDev P i) ∧
    momentumAt P i = specMomentum P i ∧
    (momentumAt P i = none → wave1At P i = none) ∧
    ((∀ j, j < i → momentumAt P j = none) → momentumAt P i = some v → wave1At P i = some v) ∧
    (wave1At P i = some w → momentumAt P (i + 1) = some v →
      wave1At P (i + 1) = some (w + (v - w) * smoothingFactor 12)) ∧
    (2 ≤ i → wave2At P i = (wave1At P (i - 2)).bind (fun x =>
      (wave1At P (i - 1)).bind (fun y => (wave1At P i).map (fun z => (x + y + z) / 3)))) ∧
    (i < 2 → wave2At P i = none) :=
  ⟨basisAt_eq P i, devAt_eq P i, momentumAt_eq_spec P i, wave1At_none P i,
    wave1At_seed P i v, wave1At_rec P i w v,
    fun h => by rw [wave2At_def]; exact rollingMean3 (wave1At P) i h,
    fun h => by rw [wave2At_def]; exact rollingMean3_low (wave1At P) i h⟩

/-- Witness for C3: on the series [1, 2] the engine seeds wave1 at index 1
with the momentum value 1000/3. -/
theorem c3_engine_vs_reference_witness :
    momentumAt exC3 1 = some (1000 / 3) ∧ wave1At exC3 1 = some (1000 / 3) := by
  have hm : momentumAt exC3 1 = some (1000 / 3) := by
    norm_num [momentumAt, basisAt, devAt, ewmAt, ewmState, ewmStep, sample, exC3,
      smoothingFactor, abs_of_nonneg, abs_of_neg]
  exact ⟨hm, (c3_engine_vs_reference exC3 1 (1000 / 3) 0).2.2.2.2.1
    (by intro j hj; interval_cases j; exact momentumAt_at_zero_none exC3) hm⟩

/-- Counterexample for C3 as frozen: the reference pipeline (strict reading:
an EMA seeded with the undefined momentum[0] is undefined everywhere) does not
equal the engine's wave1/wave2 wherever the engine has defined values. -/
theorem specSimple3 (x : ℕ → Option ℚ) (i : ℕ) (h : 2 ≤ i) :
    specSimpleAverage 3 x i = (x (i - 2)).bind (fun a =>
      (x (i - 1)).bind (fun b => (x i).map (fun c => (a + b + c) / 3))) := by
  rw [specSimpleAverage, if_pos (by omega)]
  rw [show List.range 3 = [0, 1, 2] from rfl]
  have h0 : i + 1 - 3 + 0 = i - 2 := by omega
  have h1 : i + 1 - 3 + 1 = i - 1 := by omega
  have h2 : i + 1 - 3 + 2 = i := by omega
  simp only [List.mapM_cons, List.mapM_nil, h0, h1, h2]
  rcases x (i - 2) with _ | a <;> rcases x (i - 1) with _ | b <;> rcases x i with _ | c <;>
    simp <;> ring

theorem c3_reference_counterexample :
    wave1At exC3 1 ≠ specWave1 exC3 1 ∧ wave1At exC3 1 = some (1000 / 3) ∧
    specWave1 exC3 1 = none ∧ wave2At exC3b 3 ≠ specWave2 exC3b 3 ∧
    specWave2 exC3b 3 = none := by
  have h1 : wave1At exC3 1 = some (1000 / 3) := by
    norm_num [wave1At, engineWaves, TrendPulse.calculate_trend_waves,
      TrendPulse.exponential_average, momentumAt, basisAt, devAt, ewmAt, ewmState, ewmStep,
      sample, exC3, smoothingFactor, theEngine, abs_of_nonneg, abs_of_neg]
  have h2 : specWave1 exC3 1 = none := by
    norm_num [specWave1, specStrictEma, specMomentum, specDev, specBase,
      specExponentialAverage, sample, exC3]
  have h30 : specWave1 exC3b 1 = none := by
    norm_num [specWave1, specStrictEma, specMomentum, specDev, specBase,
      specExponentialAverage, sample, exC3b]
  have h3 : specWave2 exC3b 3 = none := by
    rw [specWave2, specSimple3 (specWave1 exC3b) 3 (by omega)]
    rw [show (3 : ℕ) - 2 = 1 from rfl, h30]
    rfl
  have h4 : wave2At exC3b 3 = some (705511000 / 2234349) := by
    rw [wave2At_def, rollingMean3 (wave1At exC3b) 3 (by omega)]
    norm_num [wave1At, engineWaves, TrendPulse.calculate_trend_waves,
      TrendPulse.exponential_average, momentumAt, basisAt, devAt, ewmAt, ewmState, ewmStep,
      sample, exC3b, smoothingFactor, theEngine, abs_of_nonneg, abs_of_neg]
  exact ⟨by rw [h1, h2]; simp, h1, h2, by rw [h3, h4]; simp, h3⟩

/-- C4 (amended): the engine's insufficient-data threshold is 50 rows, not
channel_length + average_length + margin = 23, and a short series makes
`generate_signals` raise ValueError (modelled as `Except.error`) rather than
return a non-exceptional skip outcome; with 50 or more rows it returns a
report. -/
theorem c4_insufficient_data (f : Frame) :
    (f.len < 50 → theEngine.generate_signals f = Except.error "Insufficient historical data") ∧
    (50 ≤ f.len → ∃ fr r, theEngine.generate_signals f = Except.ok (fr, r)) :=
  ⟨fun h => generate_signals_err theEngine f h,
   fun h => ⟨_, _, generate_signals_ok theEngine f h⟩⟩

/-- Witness for C4 at a 10-row and a 50-row frame. -/
theorem c4_insufficient_data_witness :
    theEngine.generate_signals (flatFrame 7 10) = Except.error "Insufficient historical data" ∧
    (∃ fr r, theEngine.generate_signals (flatFrame 7 50) = Except.ok (fr, r)) :=
  ⟨(c4_insufficient_data (flatFrame 7 10)).1 (by simp [flatFrame_len]),
   (c4_insufficient_data (flatFrame 7 50)).2 (by simp [flatFrame_len])⟩

/-- Counterexample for C4 as frozen: a 10-row frame (shorter than the claimed
23-sample minimum) raises ValueError instead of returning a definite skip
outcome without an exception. -/
theorem c4_counterexample :
    theEngine.generate_signals (flatFrame 7 10) = Except.error "Insufficient historical data" :=
  generate_signals_err theEngine (flatFrame 7 10) (by simp [flatFrame_len])

/-- C5: wherever the deviation is 0 the momentum sample is NaN and the
classifier series are both false at that index; for a constant price series of
50 or more rows, generate_signals returns a NONE report without raising. -/
theorem c5_zero_deviation_no_signal :
    (∀ (P : List ℚ) (i : ℕ), devAt P i = some 0 →
      momentumAt P i = none ∧ longAt P i = false ∧ shortAt P i = false) ∧
    (∀ (c : ℚ) (n : ℕ), 50 ≤ n →
      theEngine.generate_signals (flatFrame c n)
        = Except.ok (flatFrameAvg c n, ⟨"t", false, false⟩)) := by
  constructor
  · intro P i h
    have hz : specDev P i = 0 := by
      have hd := (h.symm.trans (devAt_eq P i))
      injection hd with hz
      exact hz.symm
    have hm : momentumAt P i = none := (momentum_none_iff P i).mpr hz
    exact ⟨hm, signalsAt_false_of_wave1_none P i (wave1At_none P i hm)⟩
  · exact fun c n h => flat_report c n h

/-- Witness for C5: index 0 of [1, 2] has zero deviation; a constant 50-row
frame yields a NONE report. -/
theorem c5_zero_deviation_no_signal_witness :
    (momentumAt exC3 0 = none ∧ longAt exC3 0 = false ∧ shortAt exC3 0 = false) ∧
    theEngine.generate_signals (flatFrame 7 50)
      = Except.ok (flatFrameAvg 7 50, ⟨"t", false, false⟩) :=
  ⟨c5_zero_deviation_no_signal.1 exC3 0
      (by norm_num [devAt, ewmAt, ewmState, ewmStep, basisAt, sample, exC3, smoothingFactor]),
   c5_zero_deviation_no_signal.2 7 50 (by norm_num)⟩

/-- C6: the scan loop of `execute_market_scan` attempts a dispatch for every
detected signal without consulting any deduplication state — the dedup store
exists only in the spec (modelled here from its words, with `record`
idempotent as specified): even with the alert key already recorded as sent,
the code's dispatch-decision function still emits the attempt. -/
theorem c6_dedup_never_consulted :
    is_duplicate (record [] "BTC_long_2024-01-01 00:00") "BTC_long_2024-01-01 00:00" = true ∧
    record (record [] "BTC_long_2024-01-01 00:00") "BTC_long_2024-01-01 00:00"
      = record [] "BTC_long_2024-01-01 00:00" ∧
    scanDispatchAttempts [(⟨"BTC", "Bitcoin"⟩, ⟨"2024-01-01 00:00", true, false⟩)]
      = [("BTC", "long")] := by
  refine ⟨?_, ?_, ?_⟩ <;> decide

/-- C7 (amended): for a strictly increasing price series, wave1 is positive
wherever it is defined, the oversold zone is never reached and BUY is never
emitted at any index — but SELL can be (see the C7 counterexample), so the
frozen claim's direction is reversed. -/
theorem c7_monotone_no_buy (P : List ℚ)
    (hmono : ∀ i, i < P.length - 1 → sample P i < sample P (i + 1)) :
    ∀ i, i < P.length → (∀ w, wave1At P i = some w → 0 < w) ∧ longAt P i = false := by
  intro i hi
  cases i with
  | zero =>
    refine ⟨?_, longAt_at_zero P⟩
    intro w hw
    rw [wave1At_none P 0 (momentumAt_at_zero_none P)] at hw
    exact absurd hw (by simp)
  | succ m =>
    obtain ⟨w, hw, hpos⟩ := wave1_pos_of_mono P P.length hmono (m + 1) (by omega) hi
    refine ⟨?_, longAt_false_of_pos P (m + 1) w hw hpos⟩
    intro w' hw'
    rw [hw] at hw'
    have hww : w = w' := by injection hw'
    rw [← hww]
    exact hpos

/-- Witness for C7 on the strictly increasing series [1, 2]. -/
theorem c7_monotone_no_buy_witness :
    (∀ w, wave1At exC3 1 = some w → 0 < w) ∧ longAt exC3 1 = false :=
  c7_monotone_no_buy exC3
    (by
      intro i hi
      rw [show exC3.length = 2 from rfl] at hi
      rw [show i = 0 by omega]
      norm_num [sample, exC3])
    1 (by norm_num [exC3])

/-- C8: the Oscillator Engine is a pure function of its arguments — its result
does not depend on the `TrendPulse` object it is invoked on, and in particular
two invocations on the same input yield identical waves. -/
theorem c8_engine_stateless :
    ∀ (tp tp' : TrendPulse) (price_source : ℕ → ℚ) (ch_len avg_len : ℚ) (smooth_len : ℕ),
      tp.calculate_trend_waves price_source ch_len avg_len smooth_len
        = tp'.calculate_trend_waves price_source ch_len avg_len smooth_len :=
  fun _ _ _ _ _ _ => rfl

/-- C9 (amended): `generate_signals` leaves the index and the high/low/close
columns of the passed frame unchanged, but it does write the derived
`avg_price` column onto it — the passed-in data is not immutable. -/
theorem c9_avg_price_added (tp : TrendPulse) (f fr : Frame) (r : SignalReport)
    (h : tp.generate_signals f = Except.ok (fr, r)) :
    fr.idx = f.idx ∧ fr.high = f.high ∧ fr.low = f.low ∧ fr.close = f.close ∧
      fr.avg_price = some (hlc3 f) := by
  by_cases hlen : f.len < 50
  · rw [generate_signals_err tp f hlen] at h
    exact absurd h (by simp)
  · rw [generate_signals_ok tp f (by omega)] at h
    have h2 : ({ f with avg_price := some (hlc3 f) } : Frame) = fr := by
      injection h with hp
      exact congrArg Prod.fst hp
    rw [← h2]
    exact ⟨rfl, rfl, rfl, rfl, rfl⟩

/-- Witness for C9 at a concrete 50-row frame. -/
theorem c9_avg_price_added_witness :
    (flatFrameAvg 7 50).idx = (flatFrame 7 50).idx ∧
    (flatFrameAvg 7 50).high = (flatFrame 7 50).high ∧
    (flatFrameAvg 7 50).low = (flatFrame 7 50).low ∧
    (flatFrameAvg 7 50).close = (flatFrame 7 50).close ∧
    (flatFrameAvg 7 50).avg_price = some (hlc3 (flatFrame 7 50)) :=
  c9_avg_price_added theEngine (flatFrame 7 50) (flatFrameAvg 7 50) ⟨"t", false, false⟩
    (flat_report 7 50 (by norm_num))

/-- Counterexample for C9 as frozen: the frame handed back by
`generate_signals` differs from the frame passed in — an `avg_price` field has
been written onto the caller's data. -/
theorem c9_counterexample :
    theEngine.generate_signals (flatFrame 7 50)
      = Except.ok (flatFrameAvg 7 50, ⟨"t", false, false⟩) ∧
    flatFrameAvg 7 50 ≠ flatFrame 7 50 := by
  refine ⟨flat_report 7 50 (by norm_num), ?_⟩
  intro hc
  have havg := congrArg Frame.avg_price hc
  simp [flatFrame, flatFrameAvg] at havg

/-- C10: a successful report never has both the long and the short signal set:
the verdict at a single instant is exactly one of BUY, SELL, NONE. -/
theorem c10_verdict_exclusive (tp : TrendPulse) (f fr : Frame) (r : SignalReport)
    (h : tp.generate_signals f = Except.ok (fr, r)) :
    ¬(r.long_signal = true ∧ r.short_signal = true) := by
  by_cases hlen : f.len < 50
  · rw [generate_signals_err tp f hlen] at h
    exact absurd h (by simp)
  · rw [generate_signals_ok tp f (by omega)] at h
    have h2 : (⟨f.idx.getD (f.len - 1) "", longAt (hlc3 f) (f.len - 1),
        shortAt (hlc3 f) (f.len - 1)⟩ : SignalReport) = r := by
      injection h with hp
      exact congrArg Prod.snd hp
    rw [← h2]
    exact long_short_exclusive (hlc3 f) (f.len - 1)

/-- Witness for C10 at a concrete 50-row frame. -/
theorem c10_verdict_exclusive_witness :
    ¬((⟨"t", false, false⟩ : SignalReport).long_signal = true ∧
      (⟨"t", false, false⟩ : SignalReport).short_signal = true) :=
  c10_verdict_exclusive theEngine (flatFrame 7 50) (flatFrameAvg 7 50) ⟨"t", false, false⟩
    (flat_report 7 50 (by norm_num))

set_option maxHeartbeats 2000000 in
/-- Counterexample for C1 as frozen: on `exC1` the claimed BUY conditions hold
at the last sample with a weak previous-sample cross — prev1 = prev2 = -115
(so prev1 ≤ prev2), cur1 = -65 > cur2 = -260/3, both at or below -60 — yet the
classifier does not emit BUY, because the code requires prev1 < prev2
strictly. -/
theorem c1_counterexample :
    (theEngine.generate_signals (seriesFrame exC1)).map (fun pr => pr.2.long_signal)
      = Except.ok false ∧
    (match wave1At exC1 48, wave2At exC1 48, wave1At exC1 49, wave2At exC1 49 with
      | some p1, some p2, some c1, some c2 => p1 ≤ p2 ∧ c2 < c1 ∧ c1 ≤ -60 ∧ c2 ≤ -60
      | _, _, _, _ => False) ∧
    wave1At exC1 48 = some ((-115 : ℚ)) ∧ wave2At exC1 48 = some ((-115 : ℚ)) ∧
    wave1At exC1 49 = some ((-65 : ℚ)) ∧ wave2At exC1 49 = some ((-260 / 3 : ℚ)) := by
  have hs0 : sample exC1 0 = 100 := rfl
  have hs1 : sample exC1 1 = 100 := rfl
  have hs2 : sample exC1 2 = 100 := rfl
  have hs3 : sample exC1 3 = 100 := rfl
  have hs4 : sample exC1 4 = 100 := rfl
  have hs5 : sample exC1 5 = 100 := rfl
  have hs6 : sample exC1 6 = 100 := rfl
  have hs7 : sample exC1 7 = 100 := rfl
  have hs8 : sample exC1 8 = 100 := rfl
  have hs9 : sample exC1 9 = 100 := rfl
  have hs10 : sample exC1 10 = 100 := rfl
  have hs11 : sample exC1 11 = 100 := rfl
  have hs12 : sample exC1 12 = 100 := rfl
  have hs13 : sample exC1 13 = 100 := rfl
  have hs14 : sample exC1 14 = 100 := rfl
  have hs15 : sample exC1 15 = 100 := rfl
  have hs16 : sample exC1 16 = 100 := rfl
  have hs17 : sample exC1 17 = 100 := rfl
  have hs18 : sample exC1 18 = 100 := rfl
  have hs19 : sample exC1 19 = 100 := rfl
  have hs20 : sample exC1 20 = 100 := rfl
  have hs21 : sample exC1 21 = 100 := rfl
  have hs22 : sample exC1 22 = 100 := rfl
  have hs23 : sample exC1 23 = 100 := rfl
  have hs24 : sample exC1 24 = 100 := rfl
  have hs25 : sample exC1 25 = 100 := rfl
  have hs26 : sample exC1 26 = 100 := rfl
  have hs27 : sample exC1 27 = 100 := rfl
  have hs28 : sample exC1 28 = 100 := rfl
  have hs29 : sample exC1 29 = 100 := rfl
  have hs30 : sample exC1 30 = 100 := rfl
  have hs31 : sample exC1 31 = 100 := rfl
  have hs32 : sample exC1 32 = 100 := rfl
  have hs33 : sample exC1 33 = 100 := rfl
  have hs34 : sample exC1 34 = 100 := rfl
  have hs35 : sample exC1 35 = 100 := rfl
  have hs36 : sample exC1 36 = 100 := rfl
  have hs37 : sample exC1 37 = 100 := rfl
  have hs38 : sample exC1 38 = 100 := rfl
  have hs39 : sample exC1 39 = 100 := rfl
  have hs40 : sample exC1 40 = 100 := rfl
  have hs41 : sample exC1 41 = 100 := rfl
  have hs42 : sample exC1 42 = 100 := rfl
  have hs43 : sample exC1 43 = 100 := rfl
  have hs44 : sample exC1 44 = 99 := rfl
  have hs45 : sample exC1 45 = (397 / 3 : ℚ) := rfl
  have hs46 : sample exC1 46 = (2579381 / 7275 : ℚ) := rfl
  have hs47 : sample exC1 47 = (312087877 / 123675 : ℚ) := rfl
  have hs48 : sample exC1 48 = (-5414747989 / 225525 : ℚ) := rfl
  have hs49 : sample exC1 49 = (4551217914919 / 141855225 : ℚ) := rfl
  have hb0 : ewmState (smoothingFactor 9) (fun j => some (sample exC1 j)) 0 = (some (100), 1) := by
    norm_num [ewmState, ewmStep, smoothingFactor, hs0]
  have hb1 : ewmState (smoothingFactor 9) (fun j => some (sample exC1 j)) 1 = (some (100), 1) := by
    rw [show (1 : ℕ) = 0 + 1 from rfl, ewmState_succ, hb0]
    norm_num [ewmStep, smoothingFactor, hs1]
  have hb2 : ewmState (smoothingFactor 9) (fun j => some (sample exC1 j)) 2 = (some (100), 1) := by
    rw [show (2 : ℕ) = 1 + 1 from rfl, ewmState_succ, hb1]
    norm_num [ewmStep, smoothingFactor, hs2]
  have hb3 : ewmState (smoothingFactor 9) (fun j => some (sample exC1 j)) 3 = (some (100), 1) := by
    rw [show (3 : ℕ) = 2 + 1 from rfl, ewmState_succ, hb2]
    norm_num [ewmStep, smoothingFactor, hs3]
  have hb4 : ewmState (smoothingFactor 9) (fun j => some (sample exC1 j)) 4 = (some (100), 1) := by
    rw [show (4 : ℕ) = 3 + 1 from rfl, ewmState_succ, hb3]
    norm_num [ewmStep, smoothingFactor, hs4]
  have hb5 : ewmState (smoothingFactor 9) (fun j => some (sample exC1 j)) 5 = (some (100), 1) := by
    rw [show (5 : ℕ) = 4 + 1 from rfl, ewmState_succ, hb4]
    norm_num [ewmStep, smoothingFactor, hs5]
  have hb6 : ewmState (smoothingFactor 9) (fun j => some (sample exC1 j)) 6 = (some (100), 1) := by
    rw [show (6 : ℕ) = 5 + 1 from rfl, ewmState_succ, hb5]
    norm_num [ewmStep, smoothingFactor, hs6]
  have hb7 : ewmState (smoothingFactor 9) (fun j => some (sample exC1 j)) 7 = (some (100), 1) := by
    rw [show (7 : ℕ) = 6 + 1 from rfl, ewmState_succ, hb6]
    norm_num [ewmStep, smoothingFactor, hs7]
  have hb8 : ewmState (smoothingFactor 9) (fun j => some (sample exC1 j)) 8 = (some (100), 1) := by
    rw [show (8 : ℕ) = 7 + 1 from rfl, ewmState_succ, hb7]
    norm_num [ewmStep, smoothingFactor, hs8]
  have hb9 : ewmState (smoothingFactor 9) (fun j => some (sample exC1 j)) 9 = (some (100), 1) := by
    rw [show (9 : ℕ) = 8 + 1 from rfl, ewmState_succ, hb8]
    norm_num [ewmStep, smoothingFactor, hs9]
  have hb10 : ewmState (smoothingFactor 9) (fun j => some (sample exC1 j)) 10 = (some (100), 1) := by
    rw [show (10 : ℕ) = 9 + 1 from rfl, ewmState_succ, hb9]
    norm_num [ewmStep, smoothingFactor, hs10]
  have hb11 : ewmState (smoothingFactor 9) (fun j => some (sample exC1 j)) 11 = (some (100), 1) := by
    rw [show (11 : ℕ) = 10 + 1 from rfl, ewmState_succ, hb10]
    norm_num [ewmStep, smoothingFactor, hs11]
  have hb12 : ewmState (smoothingFactor 9) (fun j => some (sample exC1 j)) 12 = (some (100), 1) := by
    rw [show (12 : ℕ) = 11 + 1 from rfl, ewmState_succ, hb11]
    norm_num [ewmStep, smoothingFactor, hs12]
  have hb13 : ewmState (smoothingFactor 9) (fun j => some (sample exC1 j)) 13 = (some (100), 1) := by
    rw [show (13 : ℕ) = 12 + 1 from rfl, ewmState_succ, hb12]
    norm_num [ewmStep, smoothingFactor, hs13]
  have hb14 : ewmState (smoothingFactor 9) (fun j => some (sample exC1 j)) 14 = (some (100), 1) := by
    rw [show (14 : ℕ) = 13 + 1 from rfl, ewmState_succ, hb13]
    norm_num [ewmStep, smoothingFactor, hs14]
  have hb15 : ewmState (smoothingFactor 9) (fun j => some (sample exC1 j)) 15 = (some (100), 1) := by
    rw [show (15 : ℕ) = 14 + 1 from rfl, ewmState_succ, hb14]
    norm_num [ewmStep, smoothingFactor, hs15]
  have hb16 : ewmState (smoothingFactor 9) (fun j => some (sample exC1 j)) 16 = (some (100), 1) := by
    rw [show (16 : ℕ) = 15 + 1 from rfl, ewmState_succ, hb15]
    norm_num [ewmStep, smoothingFactor, hs16]
  have hb17 : ewmState (smoothingFactor 9) (fun j => some (sample exC1 j)) 17 = (some (100), 1) := by
    rw [show (17 : ℕ) = 16 + 1 from rfl, ewmState_succ, hb16]
    norm_num [ewmStep, smoothingFactor, hs17]
  have hb18 : ewmState (smoothingFactor 9) (fun j => some (sample exC1 j)) 18 = (some (100), 1) := by
    rw [show (18 : ℕ) = 17 + 1 from rfl, ewmState_succ, hb17]
    norm_num [ewmStep, smoothingFactor, hs18]
  have hb19 : ewmState (smoothingFactor 9) (fun j => some (sample exC1 j)) 19 = (some (100), 1) := by
    rw [show (19 : ℕ) = 18 + 1 from rfl, ewmState_succ, hb18]
    norm_num [ewmStep, smoothingFactor, hs19]
  have hb20 : ewmState (smoothingFactor 9) (fun j => some (sample exC1 j)) 20 = (some (100), 1) := by
    rw [show (20 : ℕ) = 19 + 1 from rfl, ewmState_succ, hb19]
    norm_num [ewmStep, smoothingFactor, hs20]
  have hb21 : ewmState (smoothingFactor 9) (fun j => some (sample exC1 j)) 21 = (some (100), 1) := by
    rw [show (21 : ℕ) = 20 + 1 from rfl, ewmState_succ, hb20]
    norm_num [ewmStep, smoothingFactor, hs21]
  have hb22 : ewmState (smoothingFactor 9) (fun j => some (sample exC1 j)) 22 = (some (100), 1) := by
    rw [show (22 : ℕ) = 21 + 1 from rfl, ewmState_succ, hb21]
    norm_num [ewmStep, smoothingFactor, hs22]
  have hb23 : ewmState (smoothingFactor 9) (fun j => some (sample exC1 j)) 23 = (some (100), 1) := by
    rw [show (23 : ℕ) = 22 + 1 from rfl, ewmState_succ, hb22]
    norm_num [ewmStep, smoothingFactor, hs23]
  have hb24 : ewmState (smoothingFactor 9) (fun j => some (sample exC1 j)) 24 = (some (100), 1) := by
    rw [show (24 : ℕ) = 23 + 1 from rfl, ewmState_succ, hb23]
    norm_num [ewmStep, smoothingFactor, hs24]
  have hb25 : ewmState (smoothingFactor 9) (fun j => some (sample exC1 j)) 25 = (some (100), 1) := by
    rw [show (25 : ℕ) = 24 + 1 from rfl, ewmState_succ, hb24]
    norm_num [ewmStep, smoothingFactor, hs25]
  have hb26 : ewmState (smoothingFactor 9) (fun j => some (sample exC1 j)) 26 = (some (100), 1) := by
    rw [show (26 : ℕ) = 25 + 1 from rfl, ewmState_succ, hb25]
    norm_num [ewmStep, smoothingFactor, hs26]
  have hb27 : ewmState (smoothingFactor 9) (fun j => some (sample exC1 j)) 27 = (some (100), 1) := by
    rw [show (27 : ℕ) = 26 + 1 from rfl, ewmState_succ, hb26]
    norm_num [ewmStep, smoothingFactor, hs27]
  have hb28 : ewmState (smoothingFactor 9) (fun j => some (sample exC1 j)) 28 = (some (100), 1) := by
    rw [show (28 : ℕ) = 27 + 1 from rfl, ewmState_succ, hb27]
    norm_num [ewmStep, smoothingFactor, hs28]
  have hb29 : ewmState (smoothingFactor 9) (fun j => some (sample exC1 j)) 29 = (some (100), 1) := by
    rw [show (29 : ℕ) = 28 + 1 from rfl, ewmState_succ, hb28]
    norm_num [ewmStep, smoothingFactor, hs29]
  have hb30 : ewmState (smoothingFactor 9) (fun j => some (sample exC1 j)) 30 = (some (100), 1) := by
    rw [show (30 : ℕ) = 29 + 1 from rfl, ewmState_succ, hb29]
    norm_num [ewmStep, smoothingFactor, hs30]
  have hb31 : ewmState (smoothingFactor 9) (fun j => some (sample exC1 j)) 31 = (some (100), 1) := by
    rw [show (31 : ℕ) = 30 + 1 from rfl, ewmState_succ, hb30]
    norm_num [ewmStep, smoothingFactor, hs31]
  have hb32 : ewmState (smoothingFactor 9) (fun j => some (sample exC1 j)) 32 = (some (100), 1) := by
    rw [show (32 : ℕ) = 31 + 1 from rfl, ewmState_succ, hb31]
    norm_num [ewmStep, smoothingFactor, hs32]
  have hb33 : ewmState (smoothingFactor 9) (fun j => some (sample exC1 j)) 33 = (some (100), 1) := by
    rw [show (33 : ℕ) = 32 + 1 from rfl, ewmState_succ, hb32]
    norm_num [ewmStep, smoothingFactor, hs33]
  have hb34 : ewmState (smoothingFactor 9) (fun j => some (sample exC1 j)) 34 = (some (100), 1) := by
    rw [show (34 : ℕ) = 33 + 1 from rfl, ewmState_succ, hb33]
    norm_num [ewmStep, smoothingFactor, hs34]
  have hb35 : ewmState (smoothingFactor 9) (fun j => some (sample exC1 j)) 35 = (some (100), 1) := by
    rw [show (35 : ℕ) = 34 + 1 from rfl, ewmState_succ, hb34]
    norm_num [ewmStep, smoothingFactor, hs35]
  have hb36 : ewmState (smoothingFactor 9) (fun j => some (sample exC1 j)) 36 = (some (100), 1) := by
    rw [show (36 : ℕ) = 35 + 1 from rfl, ewmState_succ, hb35]
    norm_num [ewmStep, smoothingFactor, hs36]
  have hb37 : ewmState (smoothingFactor 9) (fun j => some (sample exC1 j)) 37 = (some (100), 1) := by
    rw [show (37 : ℕ) = 36 + 1 from rfl, ewmState_succ, hb36]
    norm_num [ewmStep, smoothingFactor, hs37]
  have hb38 : ewmState (smoothingFactor 9) (fun j => some (sample exC1 j)) 38 = (some (100), 1) := by
    rw [show (38 : ℕ) = 37 + 1 from rfl, ewmState_succ, hb37]
    norm_num [ewmStep, smoothingFactor, hs38]
  have hb39 : ewmState (smoothingFactor 9) (fun j => some (sample exC1 j)) 39 = (some (100), 1) := by
    rw [show (39 : ℕ) = 38 + 1 from rfl, ewmState_succ, hb38]
    norm_num [ewmStep, smoothingFactor, hs39]
  have hb40 : ewmState (smoothingFactor 9) (fun j => some (sample exC1 j)) 40 = (some (100), 1) := by
    rw [show (40 : ℕ) = 39 + 1 from rfl, ewmState_succ, hb39]
    norm_num [ewmStep, smoothingFactor, hs40]
  have hb41 : ewmState (smoothingFactor 9) (fun j => some (sample exC1 j)) 41 = (some (100), 1) := by
    rw [show (41 : ℕ) = 40 + 1 from rfl, ewmState_succ, hb40]
    norm_num [ewmStep, smoothingFactor, hs41]
  have hb42 : ewmState (smoothingFactor 9) (fun j => some (sample exC1 j)) 42 = (some (100), 1) := by
    rw [show (42 : ℕ) = 41 + 1 from rfl, ewmState_succ, hb41]
    norm_num [ewmStep, smoothingFactor, hs42]
  have hb43 : ewmState (smoothingFactor 9) (fun j => some (sample exC1 j)) 43 = (some (100), 1) := by
    rw [show (43 : ℕ) = 42 + 1 from rfl, ewmState_succ, hb42]
    norm_num [ewmStep, smoothingFactor, hs43]
  have hb44 : ewmState (smoothingFactor 9) (fun j => some (sample exC1 j)) 44 = (some ((499 / 5 : ℚ)), 1) := by
    rw [show (44 : ℕ) = 43 + 1 from rfl, ewmState_succ, hb43]
    norm_num [ewmStep, smoothingFactor, hs44]
  have hb45 : ewmState (smoothingFactor 9) (fun j => some (sample exC1 j)) 45 = (some ((7973 / 75 : ℚ)), 1) := by
    rw [show (45 : ℕ) = 44 + 1 from rfl, ewmState_succ, hb44]
    norm_num [ewmStep, smoothingFactor, hs45]
  have hb46 : ewmState (smoothingFactor 9) (fun j => some (sample exC1 j)) 46 = (some ((1134581 / 7275 : ℚ)), 1) := by
    rw [show (46 : ℕ) = 45 + 1 from rfl, ewmState_succ, hb45]
    norm_num [ewmStep, smoothingFactor, hs46]
  have hb47 : ewmState (smoothingFactor 9) (fun j => some (sample exC1 j)) 47 = (some ((77847877 / 123675 : ℚ)), 1) := by
    rw [show (47 : ℕ) = 46 + 1 from rfl, ewmState_succ, hb46]
    norm_num [ewmStep, smoothingFactor, hs47]
  have hb48 : ewmState (smoothingFactor 9) (fun j => some (sample exC1 j)) 48 = (some ((-16479515813 / 3833925 : ℚ)), 1) := by
    rw [show (48 : ℕ) = 47 + 1 from rfl, ewmState_succ, hb47]
    norm_num [ewmStep, smoothingFactor, hs48]
  have hb49 : ewmState (smoothingFactor 9) (fun j => some (sample exC1 j)) 49 = (some ((422449914919 / 141855225 : ℚ)), 1) := by
    rw [show (49 : ℕ) = 48 + 1 from rfl, ewmState_succ, hb48]
    norm_num [ewmStep, smoothingFactor, hs49]
  have hba0 : basisAt exC1 0 = some (100) := by
    show (ewmState (smoothingFactor 9) (fun j => some (sample exC1 j)) 0).1 = _
    rw [hb0]
  have hba1 : basisAt exC1 1 = some (100) := by
    show (ewmState (smoothingFactor 9) (fun j => some (sample exC1 j)) 1).1 = _
    rw [hb1]
  have hba2 : basisAt exC1 2 = some (100) := by
    show (ewmState (smoothingFactor 9) (fun j => some (sample exC1 j)) 2).1 = _
    rw [hb2]
  have hba3 : basisAt exC1 3 = some (100) := by
    show (ewmState (smoothingFactor 9) (fun j => some (sample exC1 j)) 3).1 = _
    rw [hb3]
  have hba4 : basisAt exC1 4 = some (100) := by
    show (ewmState (smoothingFactor 9) (fun j => some (sample exC1 j)) 4).1 = _
    rw [hb4]
  have hba5 : basisAt exC1 5 = some (100) := by
    show (ewmState (smoothingFactor 9) (fun j => some (sample exC1 j)) 5).1 = _
    rw [hb5]
  have hba6 : basisAt exC1 6 = some (100) := by
    show (ewmState (smoothingFactor 9) (fun j => some (sample exC1 j)) 6).1 = _
    rw [hb6]
  have hba7 : basisAt exC1 7 = some (100) := by
    show (ewmState (smoothingFactor 9) (fun j => some (sample exC1 j)) 7).1 = _
    rw [hb7]
  have hba8 : basisAt exC1 8 = some (100) := by
    show (ewmState (smoothingFactor 9) (fun j => some (sample exC1 j)) 8).1 = _
    rw [hb8]
  have hba9 : basisAt exC1 9 = some (100) := by
    show (ewmState (smoothingFactor 9) (fun j => some (sample exC1 j)) 9).1 = _
    rw [hb9]
  have hba10 : basisAt exC1 10 = some (100) := by
    show (ewmState (smoothingFactor 9) (fun j => some (sample exC1 j)) 10).1 = _
    rw [hb10]
  have hba11 : basisAt exC1 11 = some (100) := by
    show (ewmState (smoothingFactor 9) (fun j => some (sample exC1 j)) 11).1 = _
    rw [hb11]
  have hba12 : basisAt exC1 12 = some (100) := by
    show (ewmState (smoothingFactor 9) (fun j => some (sample exC1 j)) 12).1 = _
    rw [hb12]
  have hba13 : basisAt exC1 13 = some (100) := by
    show (ewmState (smoothingFactor 9) (fun j => some (sample exC1 j)) 13).1 = _
    rw [hb13]
  have hba14 : basisAt exC1 14 = some (100) := by
    show (ewmState (smoothingFactor 9) (fun j => some (sample exC1 j)) 14).1 = _
    rw [hb14]
  have hba15 : basisAt exC1 15 = some (100) := by
    show (ewmState (smoothingFactor 9) (fun j => some (sample exC1 j)) 15).1 = _
    rw [hb15]
  have hba16 : basisAt exC1 16 = some (100) := by
    show (ewmState (smoothingFactor 9) (fun j => some (sample exC1 j)) 16).1 = _
    rw [hb16]
  have hba17 : basisAt exC1 17 = some (100) := by
    show (ewmState (smoothingFactor 9) (fun j => some (sample exC1 j)) 17).1 = _
    rw [hb17]
  have hba18 : basisAt exC1 18 = some (100) := by
    show (ewmState (smoothingFactor 9) (fun j => some (sample exC1 j)) 18).1 = _
    rw [hb18]
  have hba19 : basisAt exC1 19 = some (100) := by
    show (ewmState (smoothingFactor 9) (fun j => some (sample exC1 j)) 19).1 = _
    rw [hb19]
  have hba20 : basisAt exC1 20 = some (100) := by
    show (ewmState (smoothingFactor 9) (fun j => some (sample exC1 j)) 20).1 = _
    rw [hb20]
  have hba21 : basisAt exC1 21 = some (100) := by
    show (ewmState (smoothingFactor 9) (fun j => some (sample exC1 j)) 21).1 = _
    rw [hb21]
  have hba22 : basisAt exC1 22 = some (100) := by
    show (ewmState (smoothingFactor 9) (fun j => some (sample exC1 j)) 22).1 = _
    rw [hb22]
  have hba23 : basisAt exC1 23 = some (100) := by
    show (ewmState (smoothingFactor 9) (fun j => some (sample exC1 j)) 23).1 = _
    rw [hb23]
  have hba24 : basisAt exC1 24 = some (100) := by
    show (ewmState (smoothingFactor 9) (fun j => some (sample exC1 j)) 24).1 = _
    rw [hb24]
  have hba25 : basisAt exC1 25 = some (100) := by
    show (ewmState (smoothingFactor 9) (fun j => some (sample exC1 j)) 25).1 = _
    rw [hb25]
  have hba26 : basisAt exC1 26 = some (100) := by
    show (ewmState (smoothingFactor 9) (fun j => some (sample exC1 j)) 26).1 = _
    rw [hb26]
  have hba27 : basisAt exC1 27 = some (100) := by
    show (ewmState (smoothingFactor 9) (fun j => some (sample exC1 j)) 27).1 = _
    rw [hb27]
  have hba28 : basisAt exC1 28 = some (100) := by
    show (ewmState (smoothingFactor 9) (fun j => some (sample exC1 j)) 28).1 = _
    rw [hb28]
  have hba29 : basisAt exC1 29 = some (100) := by
    show (ewmState (smoothingFactor 9) (fun j => some (sample exC1 j)) 29).1 = _
    rw [hb29]
  have hba30 : basisAt exC1 30 = some (100) := by
    show (ewmState (smoothingFactor 9) (fun j => some (sample exC1 j)) 30).1 = _
    rw [hb30]
  have hba31 : basisAt exC1 31 = some (100) := by
    show (ewmState (smoothingFactor 9) (fun j => some (sample exC1 j)) 31).1 = _
    rw [hb31]
  have hba32 : basisAt exC1 32 = some (100) := by
    show (ewmState (smoothingFactor 9) (fun j => some (sample exC1 j)) 32).1 = _
    rw [hb32]
  have hba33 : basisAt exC1 33 = some (100) := by
    show (ewmState (smoothingFactor 9) (fun j => some (sample exC1 j)) 33).1 = _
    rw [hb33]
  have hba34 : basisAt exC1 34 = some (100) := by
    show (ewmState (smoothingFactor 9) (fun j => some (sample exC1 j)) 34).1 = _
    rw [hb34]
  have hba35 : basisAt exC1 35 = some (100) := by
    show (ewmState (smoothingFactor 9) (fun j => some (sample exC1 j)) 35).1 = _
    rw [hb35]
  have hba36 : basisAt exC1 36 = some (100) := by
    show (ewmState (smoothingFactor 9) (fun j => some (sample exC1 j)) 36).1 = _
    rw [hb36]
  have hba37 : basisAt exC1 37 = some (100) := by
    show (ewmState (smoothingFactor 9) (fun j => some (sample exC1 j)) 37).1 = _
    rw [hb37]
  have hba38 : basisAt exC1 38 = some (100) := by
    show (ewmState (smoothingFactor 9) (fun j => some (sample exC1 j)) 38).1 = _
    rw [hb38]
  have hba39 : basisAt exC1 39 = some (100) := by
    show (ewmState (smoothingFactor 9) (fun j => some (sample exC1 j)) 39).1 = _
    rw [hb39]
  have hba40 : basisAt exC1 40 = some (100) := by
    show (ewmState (smoothingFactor 9) (fun j => some (sample exC1 j)) 40).1 = _
    rw [hb40]
  have hba41 : basisAt exC1 41 = some (100) := by
    show (ewmState (smoothingFactor 9) (fun j => some (sample exC1 j)) 41).1 = _
    rw [hb41]
  have hba42 : basisAt exC1 42 = some (100) := by
    show (ewmState (smoothingFactor 9) (fun j => some (sample exC1 j)) 42).1 = _
    rw [hb42]
  have hba43 : basisAt exC1 43 = some (100) := by
    show (ewmState (smoothingFactor 9) (fun j => some (sample exC1 j)) 43).1 = _
    rw [hb43]
  have hba44 : basisAt exC1 44 = some ((499 / 5 : ℚ)) := by
    show (ewmState (smoothingFactor 9) (fun j => some (sample exC1 j)) 44).1 = _
    rw [hb44]
  have hba45 : basisAt exC1 45 = some ((7973 / 75 : ℚ)) := by
    show (ewmState (smoothingFactor 9) (fun j => some (sample exC1 j)) 45).1 = _
    rw [hb45]
  have hba46 : basisAt exC1 46 = some ((1134581 / 7275 : ℚ)) := by
    show (ewmState (smoothingFactor 9) (fun j => some (sample exC1 j)) 46).1 = _
    rw [hb46]
  have hba47 : basisAt exC1 47 = some ((77847877 / 123675 : ℚ)) := by
    show (ewmState (smoothingFactor 9) (fun j => some (sample exC1 j)) 47).1 = _
    rw [hb47]
  have hba48 : basisAt exC1 48 = some ((-16479515813 / 3833925 : ℚ)) := by
    show (ewmState (smoothingFactor 9) (fun j => some (sample exC1 j)) 48).1 = _
    rw [hb48]
  have hba49 : basisAt exC1 49 = some ((422449914919 / 141855225 : ℚ)) := by
    show (ewmState (smoothingFactor 9) (fun j => some (sample exC1 j)) 49).1 = _
    rw [hb49]
  have hd0 : ewmState (smoothingFactor 9) (fun k => (basisAt exC1 k).map (fun b => |sample exC1 k - b|)) 0 = (some (0), 1) := by
    norm_num [ewmState, ewmStep, smoothingFactor, hs0, hba0, abs_of_nonneg, abs_of_neg]
  have hd1 : ewmState (smoothingFactor 9) (fun k => (basisAt exC1 k).map (fun b => |sample exC1 k - b|)) 1 = (some (0), 1) := by
    rw [show (1 : ℕ) = 0 + 1 from rfl, ewmState_succ, hd0]
    norm_num [ewmStep, smoothingFactor, hs1, hba1, abs_of_nonneg, abs_of_neg]
  have hd2 : ewmState (smoothingFactor 9) (fun k => (basisAt exC1 k).map (fun b => |sample exC1 k - b|)) 2 = (some (0), 1) := by
    rw [show (2 : ℕ) = 1 + 1 from rfl, ewmState_succ, hd1]
    norm_num [ewmStep, smoothingFactor, hs2, hba2, abs_of_nonneg, abs_of_neg]
  have hd3 : ewmState (smoothingFactor 9) (fun k => (basisAt exC1 k).map (fun b => |sample exC1 k - b|)) 3 = (some (0), 1) := by
    rw [show (3 : ℕ) = 2 + 1 from rfl, ewmState_succ, hd2]
    norm_num [ewmStep, smoothingFactor, hs3, hba3, abs_of_nonneg, abs_of_neg]
  have hd4 : ewmState (smoothingFactor 9) (fun k => (basisAt exC1 k).map (fun b => |sample exC1 k - b|)) 4 = (some (0), 1) := by
    rw [show (4 : ℕ) = 3 + 1 from rfl, ewmState_succ, hd3]
    norm_num [ewmStep, smoothingFactor, hs4, hba4, abs_of_nonneg, abs_of_neg]
  have hd5 : ewmState (smoothingFactor 9) (fun k => (basisAt exC1 k).map (fun b => |sample exC1 k - b|)) 5 = (some (0), 1) := by
    rw [show (5 : ℕ) = 4 + 1 from rfl, ewmState_succ, hd4]
    norm_num [ewmStep, smoothingFactor, hs5, hba5, abs_of_nonneg, abs_of_neg]
  have hd6 : ewmState (smoothingFactor 9) (fun k => (basisAt exC1 k).map (fun b => |sample exC1 k - b|)) 6 = (some (0), 1) := by
    rw [show (6 : ℕ) = 5 + 1 from rfl, ewmState_succ, hd5]
    norm_num [ewmStep, smoothingFactor, hs6, hba6, abs_of_nonneg, abs_of_neg]
  have hd7 : ewmState (smoothingFactor 9) (fun k => (basisAt exC1 k).map (fun b => |sample exC1 k - b|)) 7 = (some (0), 1) := by
    rw [show (7 : ℕ) = 6 + 1 from rfl, ewmState_succ, hd6]
    norm_num [ewmStep, smoothingFactor, hs7, hba7, abs_of_nonneg, abs_of_neg]
  have hd8 : ewmState (smoothingFactor 9) (fun k => (basisAt exC1 k).map (fun b => |sample exC1 k - b|)) 8 = (some (0), 1) := by
    rw [show (8 : ℕ) = 7 + 1 from rfl, ewmState_succ, hd7]
    norm_num [ewmStep, smoothingFactor, hs8, hba8, abs_of_nonneg, abs_of_neg]
  have hd9 : ewmState (smoothingFactor 9) (fun k => (basisAt exC1 k).map (fun b => |sample exC1 k - b|)) 9 = (some (0), 1) := by
    rw [show (9 : ℕ) = 8 + 1 from rfl, ewmState_succ, hd8]
    norm_num [ewmStep, smoothingFactor, hs9, hba9, abs_of_nonneg, abs_of_neg]
  have hd10 : ewmState (smoothingFactor 9) (fun k => (basisAt exC1 k).map (fun b => |sample exC1 k - b|)) 10 = (some (0), 1) := by
    rw [show (10 : ℕ) = 9 + 1 from rfl, ewmState_succ, hd9]
    norm_num [ewmStep, smoothingFactor, hs10, hba10, abs_of_nonneg, abs_of_neg]
  have hd11 : ewmState (smoothingFactor 9) (fun k => (basisAt exC1 k).map (fun b => |sample exC1 k - b|)) 11 = (some (0), 1) := by
    rw [show (11 : ℕ) = 10 + 1 from rfl, ewmState_succ, hd10]
    norm_num [ewmStep, smoothingFactor, hs11, hba11, abs_of_nonneg, abs_of_neg]
  have hd12 : ewmState (smoothingFactor 9) (fun k => (basisAt exC1 k).map (fun b => |sample exC1 k - b|)) 12 = (some (0), 1) := by
    rw [show (12 : ℕ) = 11 + 1 from rfl, ewmState_succ, hd11]
    norm_num [ewmStep, smoothingFactor, hs12, hba12, abs_of_nonneg, abs_of_neg]
  have hd13 : ewmState (smoothingFactor 9) (fun k => (basisAt exC1 k).map (fun b => |sample exC1 k - b|)) 13 = (some (0), 1) := by
    rw [show (13 : ℕ) = 12 + 1 from rfl, ewmState_succ, hd12]
    norm_num [ewmStep, smoothingFactor, hs13, hba13, abs_of_nonneg, abs_of_neg]
  have hd14 : ewmState (smoothingFactor 9) (fun k => (basisAt exC1 k).map (fun b => |sample exC1 k - b|)) 14 = (some (0), 1) := by
    rw [show (14 : ℕ) = 13 + 1 from rfl, ewmState_succ, hd13]
    norm_num [ewmStep, smoothingFactor, hs14, hba14, abs_of_nonneg, abs_of_neg]
  have hd15 : ewmState (smoothingFactor 9) (fun k => (basisAt exC1 k).map (fun b => |sample exC1 k - b|)) 15 = (some (0), 1) := by
    rw [show (15 : ℕ) = 14 + 1 from rfl, ewmState_succ, hd14]
    norm_num [ewmStep, smoothingFactor, hs15, hba15, abs_of_nonneg, abs_of_neg]
  have hd16 : ewmState (smoothingFactor 9) (fun k => (basisAt exC1 k).map (fun b => |sample exC1 k - b|)) 16 = (some (0), 1) := by
    rw [show (16 : ℕ) = 15 + 1 from rfl, ewmState_succ, hd15]
    norm_num [ewmStep, smoothingFactor, hs16, hba16, abs_of_nonneg, abs_of_neg]
  have hd17 : ewmState (smoothingFactor 9) (fun k => (basisAt exC1 k).map (fun b => |sample exC1 k - b|)) 17 = (some (0), 1) := by
    rw [show (17 : ℕ) = 16 + 1 from rfl, ewmState_succ, hd16]
    norm_num [ewmStep, smoothingFactor, hs17, hba17, abs_of_nonneg, abs_of_neg]
  have hd18 : ewmState (smoothingFactor 9) (fun k => (basisAt exC1 k).map (fun b => |sample exC1 k - b|)) 18 = (some (0), 1) := by
    rw [show (18 : ℕ) = 17 + 1 from rfl, ewmState_succ, hd17]
    norm_num [ewmStep, smoothingFactor, hs18, hba18, abs_of_nonneg, abs_of_neg]
  have hd19 : ewmState (smoothingFactor 9) (fun k => (basisAt exC1 k).map (fun b => |sample exC1 k - b|)) 19 = (some (0), 1) := by
    rw [show (19 : ℕ) = 18 + 1 from rfl, ewmState_succ, hd18]
    norm_num [ewmStep, smoothingFactor, hs19, hba19, abs_of_nonneg, abs_of_neg]
  have hd20 : ewmState (smoothingFactor 9) (fun k => (basisAt exC1 k).map (fun b => |sample exC1 k - b|)) 20 = (some (0), 1) := by
    rw [show (20 : ℕ) = 19 + 1 from rfl, ewmState_succ, hd19]
    norm_num [ewmStep, smoothingFactor, hs20, hba20, abs_of_nonneg, abs_of_neg]
  have hd21 : ewmState (smoothingFactor 9) (fun k => (basisAt exC1 k).map (fun b => |sample exC1 k - b|)) 21 = (some (0), 1) := by
    rw [show (21 : ℕ) = 20 + 1 from rfl, ewmState_succ, hd20]
    norm_num [ewmStep, smoothingFactor, hs21, hba21, abs_of_nonneg, abs_of_neg]
  have hd22 : ewmState (smoothingFactor 9) (fun k => (basisAt exC1 k).map (fun b => |sample exC1 k - b|)) 22 = (some (0), 1) := by
    rw [show (22 : ℕ) = 21 + 1 from rfl, ewmState_succ, hd21]
    norm_num [ewmStep, smoothingFactor, hs22, hba22, abs_of_nonneg, abs_of_neg]
  have hd23 : ewmState (smoothingFactor 9) (fun k => (basisAt exC1 k).map (fun b => |sample exC1 k - b|)) 23 = (some (0), 1) := by
    rw [show (23 : ℕ) = 22 + 1 from rfl, ewmState_succ, hd22]
    norm_num [ewmStep, smoothingFactor, hs23, hba23, abs_of_nonneg, abs_of_neg]
  have hd24 : ewmState (smoothingFactor 9) (fun k => (basisAt exC1 k).map (fun b => |sample exC1 k - b|)) 24 = (some (0), 1) := by
    rw [show (24 : ℕ) = 23 + 1 from rfl, ewmState_succ, hd23]
    norm_num [ewmStep, smoothingFactor, hs24, hba24, abs_of_nonneg, abs_of_neg]
  have hd25 : ewmState (smoothingFactor 9) (fun k => (basisAt exC1 k).map (fun b => |sample exC1 k - b|)) 25 = (some (0), 1) := by
    rw [show (25 : ℕ) = 24 + 1 from rfl, ewmState_succ, hd24]
    norm_num [ewmStep, smoothingFactor, hs25, hba25, abs_of_nonneg, abs_of_neg]
  have hd26 : ewmState (smoothingFactor 9) (fun k => (basisAt exC1 k).map (fun b => |sample exC1 k - b|)) 26 = (some (0), 1) := by
    rw [show (26 : ℕ) = 25 + 1 from rfl, ewmState_succ, hd25]
    norm_num [ewmStep, smoothingFactor, hs26, hba26, abs_of_nonneg, abs_of_neg]
  have hd27 : ewmState (smoothingFactor 9) (fun k => (basisAt exC1 k).map (fun b => |sample exC1 k - b|)) 27 = (some (0), 1) := by
    rw [show (27 : ℕ) = 26 + 1 from rfl, ewmState_succ, hd26]
    norm_num [ewmStep, smoothingFactor, hs27, hba27, abs_of_nonneg, abs_of_neg]
  have hd28 : ewmState (smoothingFactor 9) (fun k => (basisAt exC1 k).map (fun b => |sample exC1 k - b|)) 28 = (some (0), 1) := by
    rw [show (28 : ℕ) = 27 + 1 from rfl, ewmState_succ, hd27]
    norm_num [ewmStep, smoothingFactor, hs28, hba28, abs_of_nonneg, abs_of_neg]
  have hd29 : ewmState (smoothingFactor 9) (fun k => (basisAt exC1 k).map (fun b => |sample exC1 k - b|)) 29 = (some (0), 1) := by
    rw [show (29 : ℕ) = 28 + 1 from rfl, ewmState_succ, hd28]
    norm_num [ewmStep, smoothingFactor, hs29, hba29, abs_of_nonneg, abs_of_neg]
  have hd30 : ewmState (smoothingFactor 9) (fun k => (basisAt exC1 k).map (fun b => |sample exC1 k - b|)) 30 = (some (0), 1) := by
    rw [show (30 : ℕ) = 29 + 1 from rfl, ewmState_succ, hd29]
    norm_num [ewmStep, smoothingFactor, hs30, hba30, abs_of_nonneg, abs_of_neg]
  have hd31 : ewmState (smoothingFactor 9) (fun k => (basisAt exC1 k).map (fun b => |sample exC1 k - b|)) 31 = (some (0), 1) := by
    rw [show (31 : ℕ) = 30 + 1 from rfl, ewmState_succ, hd30]
    norm_num [ewmStep, smoothingFactor, hs31, hba31, abs_of_nonneg, abs_of_neg]
  have hd32 : ewmState (smoothingFactor 9) (fun k => (basisAt exC1 k).map (fun b => |sample exC1 k - b|)) 32 = (some (0), 1) := by
    rw [show (32 : ℕ) = 31 + 1 from rfl, ewmState_succ, hd31]
    norm_num [ewmStep, smoothingFactor, hs32, hba32, abs_of_nonneg, abs_of_neg]
  have hd33 : ewmState (smoothingFactor 9) (fun k => (basisAt exC1 k).map (fun b => |sample exC1 k - b|)) 33 = (some (0), 1) := by
    rw [show (33 : ℕ) = 32 + 1 from rfl, ewmState_succ, hd32]
    norm_num [ewmStep, smoothingFactor, hs33, hba33, abs_of_nonneg, abs_of_neg]
  have hd34 : ewmState (smoothingFactor 9) (fun k => (basisAt exC1 k).map (fun b => |sample exC1 k - b|)) 34 = (some (0), 1) := by
    rw [show (34 : ℕ) = 33 + 1 from rfl, ewmState_succ, hd33]
    norm_num [ewmStep, smoothingFactor, hs34, hba34, abs_of_nonneg, abs_of_neg]
  have hd35 : ewmState (smoothingFactor 9) (fun k => (basisAt exC1 k).map (fun b => |sample exC1 k - b|)) 35 = (some (0), 1) := by
    rw [show (35 : ℕ) = 34 + 1 from rfl, ewmState_succ, hd34]
    norm_num [ewmStep, smoothingFactor, hs35, hba35, abs_of_nonneg, abs_of_neg]
  have hd36 : ewmState (smoothingFactor 9) (fun k => (basisAt exC1 k).map (fun b => |sample exC1 k - b|)) 36 = (some (0), 1) := by
    rw [show (36 : ℕ) = 35 + 1 from rfl, ewmState_succ, hd35]
    norm_num [ewmStep, smoothingFactor, hs36, hba36, abs_of_nonneg, abs_of_neg]
  have hd37 : ewmState (smoothingFactor 9) (fun k => (basisAt exC1 k).map (fun b => |sample exC1 k - b|)) 37 = (some (0), 1) := by
    rw [show (37 : ℕ) = 36 + 1 from rfl, ewmState_succ, hd36]
    norm_num [ewmStep, smoothingFactor, hs37, hba37, abs_of_nonneg, abs_of_neg]
  have hd38 : ewmState (smoothingFactor 9) (fun k => (basisAt exC1 k).map (fun b => |sample exC1 k - b|)) 38 = (some (0), 1) := by
    rw [show (38 : ℕ) = 37 + 1 from rfl, ewmState_succ, hd37]
    norm_num [ewmStep, smoothingFactor, hs38, hba38, abs_of_nonneg, abs_of_neg]
  have hd39 : ewmState (smoothingFactor 9) (fun k => (basisAt exC1 k).map (fun b => |sample exC1 k - b|)) 39 = (some (0), 1) := by
    rw [show (39 : ℕ) = 38 + 1 from rfl, ewmState_succ, hd38]
    norm_num [ewmStep, smoothingFactor, hs39, hba39, abs_of_nonneg, abs_of_neg]
  have hd40 : ewmState (smoothingFactor 9) (fun k => (basisAt exC1 k).map (fun b => |sample exC1 k - b|)) 40 = (some (0), 1) := by
    rw [show (40 : ℕ) = 39 + 1 from rfl, ewmState_succ, hd39]
    norm_num [ewmStep, smoothingFactor, hs40, hba40, abs_of_nonneg, abs_of_neg]
  have hd41 : ewmState (smoothingFactor 9) (fun k => (basisAt exC1 k).map (fun b => |sample exC1 k - b|)) 41 = (some (0), 1) := by
    rw [show (41 : ℕ) = 40 + 1 from rfl, ewmState_succ, hd40]
    norm_num [ewmStep, smoothingFactor, hs41, hba41, abs_of_nonneg, abs_of_neg]
  have hd42 : ewmState (smoothingFactor 9) (fun k => (basisAt exC1 k).map (fun b => |sample exC1 k - b|)) 42 = (some (0), 1) := by
    rw [show (42 : ℕ) = 41 + 1 from rfl, ewmState_succ, hd41]
    norm_num [ewmStep, smoothingFactor, hs42, hba42, abs_of_nonneg, abs_of_neg]
  have hd43 : ewmState (smoothingFactor 9) (fun k => (basisAt exC1 k).map (fun b => |sample exC1 k - b|)) 43 = (some (0), 1) := by
    rw [show (43 : ℕ) = 42 + 1 from rfl, ewmState_succ, hd42]
    norm_num [ewmStep, smoothingFactor, hs43, hba43, abs_of_nonneg, abs_of_neg]
  have hd44 : ewmState (smoothingFactor 9) (fun k => (basisAt exC1 k).map (fun b => |sample exC1 k - b|)) 44 = (some ((4 / 25 : ℚ)), 1) := by
    rw [show (44 : ℕ) = 43 + 1 from rfl, ewmState_succ, hd43]
    norm_num [ewmStep, smoothingFactor, hs44, hba44, abs_of_nonneg, abs_of_neg]
  have hd45 : ewmState (smoothingFactor 9) (fun k => (basisAt exC1 k).map (fun b => |sample exC1 k - b|)) 45 = (some ((16 / 3 : ℚ)), 1) := by
    rw [show (45 : ℕ) = 44 + 1 from rfl, ewmState_succ, hd44]
    norm_num [ewmStep, smoothingFactor, hs45, hba45, abs_of_nonneg, abs_of_neg]
  have hd46 : ewmState (smoothingFactor 9) (fun k => (basisAt exC1 k).map (fun b => |sample exC1 k - b|)) 46 = (some ((12800 / 291 : ℚ)), 1) := by
    rw [show (46 : ℕ) = 45 + 1 from rfl, ewmState_succ, hd45]
    norm_num [ewmStep, smoothingFactor, hs46, hba46, abs_of_nonneg, abs_of_neg]
  have hd47 : ewmState (smoothingFactor 9) (fun k => (basisAt exC1 k).map (fun b => |sample exC1 k - b|)) 47 = (some ((2048000 / 4947 : ℚ)), 1) := by
    rw [show (47 : ℕ) = 46 + 1 from rfl, ewmState_succ, hd46]
    norm_num [ewmStep, smoothingFactor, hs47, hba47, abs_of_nonneg, abs_of_neg]
  have hd48 : ewmState (smoothingFactor 9) (fun k => (basisAt exC1 k).map (fun b => |sample exC1 k - b|)) 48 = (some ((655360000 / 153357 : ℚ)), 1) := by
    rw [show (48 : ℕ) = 47 + 1 from rfl, ewmState_succ, hd47]
    norm_num [ewmStep, smoothingFactor, hs48, hba48, abs_of_nonneg, abs_of_neg]
  have hd49 : ewmState (smoothingFactor 9) (fun k => (basisAt exC1 k).map (fun b => |sample exC1 k - b|)) 49 = (some ((52428800000 / 5674209 : ℚ)), 1) := by
    rw [show (49 : ℕ) = 48 + 1 from rfl, ewmState_succ, hd48]
    norm_num [ewmStep, smoothingFactor, hs49, hba49, abs_of_nonneg, abs_of_neg]
  have hda0 : devAt exC1 0 = some (0) := by
    show (ewmState (smoothingFactor 9) (fun k => (basisAt exC1 k).map (fun b => |sample exC1 k - b|)) 0).1 = _
    rw [hd0]
  have hda1 : devAt exC1 1 = some (0) := by
    show (ewmState (smoothingFactor 9) (fun k => (basisAt exC1 k).map (fun b => |sample exC1 k - b|)) 1).1 = _
    rw [hd1]
  have hda2 : devAt exC1 2 = some (0) := by
    show (ewmState (smoothingFactor 9) (fun k => (basisAt exC1 k).map (fun b => |sample exC1 k - b|)) 2).1 = _
    rw [hd2]
  have hda3 : devAt exC1 3 = some (0) := by
    show (ewmState (smoothingFactor 9) (fun k => (basisAt exC1 k).map (fun b => |sample exC1 k - b|)) 3).1 = _
    rw [hd3]
  have hda4 : devAt exC1 4 = some (0) := by
    show (ewmState (smoothingFactor 9) (fun k => (basisAt exC1 k).map (fun b => |sample exC1 k - b|)) 4).1 = _
    rw [hd4]
  have hda5 : devAt exC1 5 = some (0) := by
    show (ewmState (smoothingFactor 9) (fun k => (basisAt exC1 k).map (fun b => |sample exC1 k - b|)) 5).1 = _
    rw [hd5]
  have hda6 : devAt exC1 6 = some (0) := by
    show (ewmState (smoothingFactor 9) (fun k => (basisAt exC1 k).map (fun b => |sample exC1 k - b|)) 6).1 = _
    rw [hd6]
  have hda7 : devAt exC1 7 = some (0) := by
    show (ewmState (smoothingFactor 9) (fun k => (basisAt exC1 k).map (fun b => |sample exC1 k - b|)) 7).1 = _
    rw [hd7]
  have hda8 : devAt exC1 8 = some (0) := by
    show (ewmState (smoothingFactor 9) (fun k => (basisAt exC1 k).map (fun b => |sample exC1 k - b|)) 8).1 = _
    rw [hd8]
  have hda9 : devAt exC1 9 = some (0) := by
    show (ewmState (smoothingFactor 9) (fun k => (basisAt exC1 k).map (fun b => |sample exC1 k - b|)) 9).1 = _
    rw [hd9]
  have hda10 : devAt exC1 10 = some (0) := by
    show (ewmState (smoothingFactor 9) (fun k => (basisAt exC1 k).map (fun b => |sample exC1 k - b|)) 10).1 = _
    rw [hd10]
  have hda11 : devAt exC1 11 = some (0) := by
    show (ewmState (smoothingFactor 9) (fun k => (basisAt exC1 k).map (fun b => |sample exC1 k - b|)) 11).1 = _
    rw [hd11]
  have hda12 : devAt exC1 12 = some (0) := by
    show (ewmState (smoothingFactor 9) (fun k => (basisAt exC1 k).map (fun b => |sample exC1 k - b|)) 12).1 = _
    rw [hd12]
  have hda13 : devAt exC1 13 = some (0) := by
    show (ewmState (smoothingFactor 9) (fun k => (basisAt exC1 k).map (fun b => |sample exC1 k - b|)) 13).1 = _
    rw [hd13]
  have hda14 : devAt exC1 14 = some (0) := by
    show (ewmState (smoothingFactor 9) (fun k => (basisAt exC1 k).map (fun b => |sample exC1 k - b|)) 14).1 = _
    rw [hd14]
  have hda15 : devAt exC1 15 = some (0) := by
    show (ewmState (smoothingFactor 9) (fun k => (basisAt exC1 k).map (fun b => |sample exC1 k - b|)) 15).1 = _
    rw [hd15]
  have hda16 : devAt exC1 16 = some (0) := by
    show (ewmState (smoothingFactor 9) (fun k => (basisAt exC1 k).map (fun b => |sample exC1 k - b|)) 16).1 = _
    rw [hd16]
  have hda17 : devAt exC1 17 = some (0) := by
    show (ewmState (smoothingFactor 9) (fun k => (basisAt exC1 k).map (fun b => |sample exC1 k - b|)) 17).1 = _
    rw [hd17]
  have hda18 : devAt exC1 18 = some (0) := by
    show (ewmState (smoothingFactor 9) (fun k => (basisAt exC1 k).map (fun b => |sample exC1 k - b|)) 18).1 = _
    rw [hd18]
  have hda19 : devAt exC1 19 = some (0) := by
    show (ewmState (smoothingFactor 9) (fun k => (basisAt exC1 k).map (fun b => |sample exC1 k - b|)) 19).1 = _
    rw [hd19]
  have hda20 : devAt exC1 20 = some (0) := by
    show (ewmState (smoothingFactor 9) (fun k => (basisAt exC1 k).map (fun b => |sample exC1 k - b|)) 20).1 = _
    rw [hd20]
  have hda21 : devAt exC1 21 = some (0) := by
    show (ewmState (smoothingFactor 9) (fun k => (basisAt exC1 k).map (fun b => |sample exC1 k - b|)) 21).1 = _
    rw [hd21]
  have hda22 : devAt exC1 22 = some (0) := by
    show (ewmState (smoothingFactor 9) (fun k => (basisAt exC1 k).map (fun b => |sample exC1 k - b|)) 22).1 = _
    rw [hd22]
  have hda23 : devAt exC1 23 = some (0) := by
    show (ewmState (smoothingFactor 9) (fun k => (basisAt exC1 k).map (fun b => |sample exC1 k - b|)) 23).1 = _
    rw [hd23]
  have hda24 : devAt exC1 24 = some (0) := by
    show (ewmState (smoothingFactor 9) (fun k => (basisAt exC1 k).map (fun b => |sample exC1 k - b|)) 24).1 = _
    rw [hd24]
  have hda25 : devAt exC1 25 = some (0) := by
    show (ewmState (smoothingFactor 9) (fun k => (basisAt exC1 k).map (fun b => |sample exC1 k - b|)) 25).1 = _
    rw [hd25]
  have hda26 : devAt exC1 26 = some (0) := by
    show (ewmState (smoothingFactor 9) (fun k => (basisAt exC1 k).map (fun b => |sample exC1 k - b|)) 26).1 = _
    rw [hd26]
  have hda27 : devAt exC1 27 = some (0) := by
    show (ewmState (smoothingFactor 9) (fun k => (basisAt exC1 k).map (fun b => |sample exC1 k - b|)) 27).1 = _
    rw [hd27]
  have hda28 : devAt exC1 28 = some (0) := by
    show (ewmState (smoothingFactor 9) (fun k => (basisAt exC1 k).map (fun b => |sample exC1 k - b|)) 28).1 = _
    rw [hd28]
  have hda29 : devAt exC1 29 = some (0) := by
    show (ewmState (smoothingFactor 9) (fun k => (basisAt exC1 k).map (fun b => |sample exC1 k - b|)) 29).1 = _
    rw [hd29]
  have hda30 : devAt exC1 30 = some (0) := by
    show (ewmState (smoothingFactor 9) (fun k => (basisAt exC1 k).map (fun b => |sample exC1 k - b|)) 30).1 = _
    rw [hd30]
  have hda31 : devAt exC1 31 = some (0) := by
    show (ewmState (smoothingFactor 9) (fun k => (basisAt exC1 k).map (fun b => |sample exC1 k - b|)) 31).1 = _
    rw [hd31]
  have hda32 : devAt exC1 32 = some (0) := by
    show (ewmState (smoothingFactor 9) (fun k => (basisAt exC1 k).map (fun b => |sample exC1 k - b|)) 32).1 = _
    rw [hd32]
  have hda33 : devAt exC1 33 = some (0) := by
    show (ewmState (smoothingFactor 9) (fun k => (basisAt exC1 k).map (fun b => |sample exC1 k - b|)) 33).1 = _
    rw [hd33]
  have hda34 : devAt exC1 34 = some (0) := by
    show (ewmState (smoothingFactor 9) (fun k => (basisAt exC1 k).map (fun b => |sample exC1 k - b|)) 34).1 = _
    rw [hd34]
  have hda35 : devAt exC1 35 = some (0) := by
    show (ewmState (smoothingFactor 9) (fun k => (basisAt exC1 k).map (fun b => |sample exC1 k - b|)) 35).1 = _
    rw [hd35]
  have hda36 : devAt exC1 36 = some (0) := by
    show (ewmState (smoothingFactor 9) (fun k => (basisAt exC1 k).map (fun b => |sample exC1 k - b|)) 36).1 = _
    rw [hd36]
  have hda37 : devAt exC1 37 = some (0) := by
    show (ewmState (smoothingFactor 9) (fun k => (basisAt exC1 k).map (fun b => |sample exC1 k - b|)) 37).1 = _
    rw [hd37]
  have hda38 : devAt exC1 38 = some (0) := by
    show (ewmState (smoothingFactor 9) (fun k => (basisAt exC1 k).map (fun b => |sample exC1 k - b|)) 38).1 = _
    rw [hd38]
  have hda39 : devAt exC1 39 = some (0) := by
    show (ewmState (smoothingFactor 9) (fun k => (basisAt exC1 k).map (fun b => |sample exC1 k - b|)) 39).1 = _
    rw [hd39]
  have hda40 : devAt exC1 40 = some (0) := by
    show (ewmState (smoothingFactor 9) (fun k => (basisAt exC1 k).map (fun b => |sample exC1 k - b|)) 40).1 = _
    rw [hd40]
  have hda41 : devAt exC1 41 = some (0) := by
    show (ewmState (smoothingFactor 9) (fun k => (basisAt exC1 k).map (fun b => |sample exC1 k - b|)) 41).1 = _
    rw [hd41]
  have hda42 : devAt exC1 42 = some (0) := by
    show (ewmState (smoothingFactor 9) (fun k => (basisAt exC1 k).map (fun b => |sample exC1 k - b|)) 42).1 = _
    rw [hd42]
  have hda43 : devAt exC1 43 = some (0) := by
    show (ewmState (smoothingFactor 9) (fun k => (basisAt exC1 k).map (fun b => |sample exC1 k - b|)) 43).1 = _
    rw [hd43]
  have hda44 : devAt exC1 44 = some ((4 / 25 : ℚ)) := by
    show (ewmState (smoothingFactor 9) (fun k => (basisAt exC1 k).map (fun b => |sample exC1 k - b|)) 44).1 = _
    rw [hd44]
  have hda45 : devAt exC1 45 = some ((16 / 3 : ℚ)) := by
    show (ewmState (smoothingFactor 9) (fun k => (basisAt exC1 k).map (fun b => |sample exC1 k - b|)) 45).1 = _
    rw [hd45]
  have hda46 : devAt exC1 46 = some ((12800 / 291 : ℚ)) := by
    show (ewmState (smoothingFactor 9) (fun k => (basisAt exC1 k).map (fun b => |sample exC1 k - b|)) 46).1 = _
    rw [hd46]
  have hda47 : devAt exC1 47 = some ((2048000 / 4947 : ℚ)) := by
    show (ewmState (smoothingFactor 9) (fun k => (basisAt exC1 k).map (fun b => |sample exC1 k - b|)) 47).1 = _
    rw [hd47]
  have hda48 : devAt exC1 48 = some ((655360000 / 153357 : ℚ)) := by
    show (ewmState (smoothingFactor 9) (fun k => (basisAt exC1 k).map (fun b => |sample exC1 k - b|)) 48).1 = _
    rw [hd48]
  have hda49 : devAt exC1 49 = some ((52428800000 / 5674209 : ℚ)) := by
    show (ewmState (smoothingFactor 9) (fun k => (basisAt exC1 k).map (fun b => |sample exC1 k - b|)) 49).1 = _
    rw [hd49]
  have hm0 : momentumAt exC1 0 = none := by
    rw [momentumAt, hba0, hda0]
    norm_num [hs0]
  have hm1 : momentumAt exC1 1 = none := by
    rw [momentumAt, hba1, hda1]
    norm_num [hs1]
  have hm2 : momentumAt exC1 2 = none := by
    rw [momentumAt, hba2, hda2]
    norm_num [hs2]
  have hm3 : momentumAt exC1 3 = none := by
    rw [momentumAt, hba3, hda3]
    norm_num [hs3]
  have hm4 : momentumAt exC1 4 = none := by
    rw [momentumAt, hba4, hda4]
    norm_num [hs4]
  have hm5 : momentumAt exC1 5 = none := by
    rw [momentumAt, hba5, hda5]
    norm_num [hs5]
  have hm6 : momentumAt exC1 6 = none := by
    rw [momentumAt, hba6, hda6]
    norm_num [hs6]
  have hm7 : momentumAt exC1 7 = none := by
    rw [momentumAt, hba7, hda7]
    norm_num [hs7]
  have hm8 : momentumAt exC1 8 = none := by
    rw [momentumAt, hba8, hda8]
    norm_num [hs8]
  have hm9 : momentumAt exC1 9 = none := by
    rw [momentumAt, hba9, hda9]
    norm_num [hs9]
  have hm10 : momentumAt exC1 10 = none := by
    rw [momentumAt, hba10, hda10]
    norm_num [hs10]
  have hm11 : momentumAt exC1 11 = none := by
    rw [momentumAt, hba11, hda11]
    norm_num [hs11]
  have hm12 : momentumAt exC1 12 = none := by
    rw [momentumAt, hba12, hda12]
    norm_num [hs12]
  have hm13 : momentumAt exC1 13 = none := by
    rw [momentumAt, hba13, hda13]
    norm_num [hs13]
  have hm14 : momentumAt exC1 14 = none := by
    rw [momentumAt, hba14, hda14]
    norm_num [hs14]
  have hm15 : momentumAt exC1 15 = none := by
    rw [momentumAt, hba15, hda15]
    norm_num [hs15]
  have hm16 : momentumAt exC1 16 = none := by
    rw [momentumAt, hba16, hda16]
    norm_num [hs16]
  have hm17 : momentumAt exC1 17 = none := by
    rw [momentumAt, hba17, hda17]
    norm_num [hs17]
  have hm18 : momentumAt exC1 18 = none := by
    rw [momentumAt, hba18, hda18]
    norm_num [hs18]
  have hm19 : momentumAt exC1 19 = none := by
    rw [momentumAt, hba19, hda19]
    norm_num [hs19]
  have hm20 : momentumAt exC1 20 = none := by
    rw [momentumAt, hba20, hda20]
    norm_num [hs20]
  have hm21 : momentumAt exC1 21 = none := by
    rw [momentumAt, hba21, hda21]
    norm_num [hs21]
  have hm22 : momentumAt exC1 22 = none := by
    rw [momentumAt, hba22, hda22]
    norm_num [hs22]
  have hm23 : momentumAt exC1 23 = none := by
    rw [momentumAt, hba23, hda23]
    norm_num [hs23]
  have hm24 : momentumAt exC1 24 = none := by
    rw [momentumAt, hba24, hda24]
    norm_num [hs24]
  have hm25 : momentumAt exC1 25 = none := by
    rw [momentumAt, hba25, hda25]
    norm_num [hs25]
  have hm26 : momentumAt exC1 26 = none := by
    rw [momentumAt, hba26, hda26]
    norm_num [hs26]
  have hm27 : momentumAt exC1 27 = none := by
    rw [momentumAt, hba27, hda27]
    norm_num [hs27]
  have hm28 : momentumAt exC1 28 = none := by
    rw [momentumAt, hba28, hda28]
    norm_num [hs28]
  have hm29 : momentumAt exC1 29 = none := by
    rw [momentumAt, hba29, hda29]
    norm_num [hs29]
  have hm30 : momentumAt exC1 30 = none := by
    rw [momentumAt, hba30, hda30]
    norm_num [hs30]
  have hm31 : momentumAt exC1 31 = none := by
    rw [momentumAt, hba31, hda31]
    norm_num [hs31]
  have hm32 : momentumAt exC1 32 = none := by
    rw [momentumAt, hba32, hda32]
    norm_num [hs32]
  have hm33 : momentumAt exC1 33 = none := by
    rw [momentumAt, hba33, hda33]
    norm_num [hs33]
  have hm34 : momentumAt exC1 34 = none := by
    rw [momentumAt, hba34, hda34]
    norm_num [hs34]
  have hm35 : momentumAt exC1 35 = none := by
    rw [momentumAt, hba35, hda35]
    norm_num [hs35]
  have hm36 : momentumAt exC1 36 = none := by
    rw [momentumAt, hba36, hda36]
    norm_num [hs36]
  have hm37 : momentumAt exC1 37 = none := by
    rw [momentumAt, hba37, hda37]
    norm_num [hs37]
  have hm38 : momentumAt exC1 38 = none := by
    rw [momentumAt, hba38, hda38]
    norm_num [hs38]
  have hm39 : momentumAt exC1 39 = none := by
    rw [momentumAt, hba39, hda39]
    norm_num [hs39]
  have hm40 : momentumAt exC1 40 = none := by
    rw [momentumAt, hba40, hda40]
    norm_num [hs40]
  have hm41 : momentumAt exC1 41 = none := by
    rw [momentumAt, hba41, hda41]
    norm_num [hs41]
  have hm42 : momentumAt exC1 42 = none := by
    rw [momentumAt, hba42, hda42]
    norm_num [hs42]
  have hm43 : momentumAt exC1 43 = none := by
    rw [momentumAt, hba43, hda43]
    norm_num [hs43]
  have hm44 : momentumAt exC1 44 = some ((-1000 / 3 : ℚ)) := by
    rw [momentumAt, hba44, hda44]
    norm_num [hs44]
  have hm45 : momentumAt exC1 45 = some ((976 / 3 : ℚ)) := by
    rw [momentumAt, hba45, hda45]
    norm_num [hs45]
  have hm46 : momentumAt exC1 46 = some (301) := by
    rw [momentumAt, hba46, hda46]
    norm_num [hs46]
  have hm47 : momentumAt exC1 47 = some (305) := by
    rw [momentumAt, hba47, hda47]
    norm_num [hs47]
  have hm48 : momentumAt exC1 48 = some ((-615 / 2 : ℚ)) := by
    rw [momentumAt, hba48, hda48]
    norm_num [hs48]
  have hm49 : momentumAt exC1 49 = some (210) := by
    rw [momentumAt, hba49, hda49]
    norm_num [hs49]
  have hw0 : ewmState (smoothingFactor 12) (momentumAt exC1) 0 = (none, 1) := by
    norm_num [ewmState, ewmStep, smoothingFactor, hm0]
  have hw1 : ewmState (smoothingFactor 12) (momentumAt exC1) 1 = (none, 1) := by
    rw [show (1 : ℕ) = 0 + 1 from rfl, ewmState_succ, hw0]
    norm_num [ewmStep, smoothingFactor, hm1]
  have hw2 : ewmState (smoothingFactor 12) (momentumAt exC1) 2 = (none, 1) := by
    rw [show (2 : ℕ) = 1 + 1 from rfl, ewmState_succ, hw1]
    norm_num [ewmStep, smoothingFactor, hm2]
  have hw3 : ewmState (smoothingFactor 12) (momentumAt exC1) 3 = (none, 1) := by
    rw [show (3 : ℕ) = 2 + 1 from rfl, ewmState_succ, hw2]
    norm_num [ewmStep, smoothingFactor, hm3]
  have hw4 : ewmState (smoothingFactor 12) (momentumAt exC1) 4 = (none, 1) := by
    rw [show (4 : ℕ) = 3 + 1 from rfl, ewmState_succ, hw3]
    norm_num [ewmStep, smoothingFactor, hm4]
  have hw5 : ewmState (smoothingFactor 12) (momentumAt exC1) 5 = (none, 1) := by
    rw [show (5 : ℕ) = 4 + 1 from rfl, ewmState_succ, hw4]
    norm_num [ewmStep, smoothingFactor, hm5]
  have hw6 : ewmState (smoothingFactor 12) (momentumAt exC1) 6 = (none, 1) := by
    rw [show (6 : ℕ) = 5 + 1 from rfl, ewmState_succ, hw5]
    norm_num [ewmStep, smoothingFactor, hm6]
  have hw7 : ewmState (smoothingFactor 12) (momentumAt exC1) 7 = (none, 1) := by
    rw [show (7 : ℕ) = 6 + 1 from rfl, ewmState_succ, hw6]
    norm_num [ewmStep, smoothingFactor, hm7]
  have hw8 : ewmState (smoothingFactor 12) (momentumAt exC1) 8 = (none, 1) := by
    rw [show (8 : ℕ) = 7 + 1 from rfl, ewmState_succ, hw7]
    norm_num [ewmStep, smoothingFactor, hm8]
  have hw9 : ewmState (smoothingFactor 12) (momentumAt exC1) 9 = (none, 1) := by
    rw [show (9 : ℕ) = 8 + 1 from rfl, ewmState_succ, hw8]
    norm_num [ewmStep, smoothingFactor, hm9]
  have hw10 : ewmState (smoothingFactor 12) (momentumAt exC1) 10 = (none, 1) := by
    rw [show (10 : ℕ) = 9 + 1 from rfl, ewmState_succ, hw9]
    norm_num [ewmStep, smoothingFactor, hm10]
  have hw11 : ewmState (smoothingFactor 12) (momentumAt exC1) 11 = (none, 1) := by
    rw [show (11 : ℕ) = 10 + 1 from rfl, ewmState_succ, hw10]
    norm_num [ewmStep, smoothingFactor, hm11]
  have hw12 : ewmState (smoothingFactor 12) (momentumAt exC1) 12 = (none, 1) := by
    rw [show (12 : ℕ) = 11 + 1 from rfl, ewmState_succ, hw11]
    norm_num [ewmStep, smoothingFactor, hm12]
  have hw13 : ewmState (smoothingFactor 12) (momentumAt exC1) 13 = (none, 1) := by
    rw [show (13 : ℕ) = 12 + 1 from rfl, ewmState_succ, hw12]
    norm_num [ewmStep, smoothingFactor, hm13]
  have hw14 : ewmState (smoothingFactor 12) (momentumAt exC1) 14 = (none, 1) := by
    rw [show (14 : ℕ) = 13 + 1 from rfl, ewmState_succ, hw13]
    norm_num [ewmStep, smoothingFactor, hm14]
  have hw15 : ewmState (smoothingFactor 12) (momentumAt exC1) 15 = (none, 1) := by
    rw [show (15 : ℕ) = 14 + 1 from rfl, ewmState_succ, hw14]
    norm_num [ewmStep, smoothingFactor, hm15]
  have hw16 : ewmState (smoothingFactor 12) (momentumAt exC1) 16 = (none, 1) := by
    rw [show (16 : ℕ) = 15 + 1 from rfl, ewmState_succ, hw15]
    norm_num [ewmStep, smoothingFactor, hm16]
  have hw17 : ewmState (smoothingFactor 12) (momentumAt exC1) 17 = (none, 1) := by
    rw [show (17 : ℕ) = 16 + 1 from rfl, ewmState_succ, hw16]
    norm_num [ewmStep, smoothingFactor, hm17]
  have hw18 : ewmState (smoothingFactor 12) (momentumAt exC1) 18 = (none, 1) := by
    rw [show (18 : ℕ) = 17 + 1 from rfl, ewmState_succ, hw17]
    norm_num [ewmStep, smoothingFactor, hm18]
  have hw19 : ewmState (smoothingFactor 12) (momentumAt exC1) 19 = (none, 1) := by
    rw [show (19 : ℕ) = 18 + 1 from rfl, ewmState_succ, hw18]
    norm_num [ewmStep, smoothingFactor, hm19]
  have hw20 : ewmState (smoothingFactor 12) (momentumAt exC1) 20 = (none, 1) := by
    rw [show (20 : ℕ) = 19 + 1 from rfl, ewmState_succ, hw19]
    norm_num [ewmStep, smoothingFactor, hm20]
  have hw21 : ewmState (smoothingFactor 12) (momentumAt exC1) 21 = (none, 1) := by
    rw [show (21 : ℕ) = 20 + 1 from rfl, ewmState_succ, hw20]
    norm_num [ewmStep, smoothingFactor, hm21]
  have hw22 : ewmState (smoothingFactor 12) (momentumAt exC1) 22 = (none, 1) := by
    rw [show (22 : ℕ) = 21 + 1 from rfl, ewmState_succ, hw21]
    norm_num [ewmStep, smoothingFactor, hm22]
  have hw23 : ewmState (smoothingFactor 12) (momentumAt exC1) 23 = (none, 1) := by
    rw [show (23 : ℕ) = 22 + 1 from rfl, ewmState_succ, hw22]
    norm_num [ewmStep, smoothingFactor, hm23]
  have hw24 : ewmState (smoothingFactor 12) (momentumAt exC1) 24 = (none, 1) := by
    rw [show (24 : ℕ) = 23 + 1 from rfl, ewmState_succ, hw23]
    norm_num [ewmStep, smoothingFactor, hm24]
  have hw25 : ewmState (smoothingFactor 12) (momentumAt exC1) 25 = (none, 1) := by
    rw [show (25 : ℕ) = 24 + 1 from rfl, ewmState_succ, hw24]
    norm_num [ewmStep, smoothingFactor, hm25]
  have hw26 : ewmState (smoothingFactor 12) (momentumAt exC1) 26 = (none, 1) := by
    rw [show (26 : ℕ) = 25 + 1 from rfl, ewmState_succ, hw25]
    norm_num [ewmStep, smoothingFactor, hm26]
  have hw27 : ewmState (smoothingFactor 12) (momentumAt exC1) 27 = (none, 1) := by
    rw [show (27 : ℕ) = 26 + 1 from rfl, ewmState_succ, hw26]
    norm_num [ewmStep, smoothingFactor, hm27]
  have hw28 : ewmState (smoothingFactor 12) (momentumAt exC1) 28 = (none, 1) := by
    rw [show (28 : ℕ) = 27 + 1 from rfl, ewmState_succ, hw27]
    norm_num [ewmStep, smoothingFactor, hm28]
  have hw29 : ewmState (smoothingFactor 12) (momentumAt exC1) 29 = (none, 1) := by
    rw [show (29 : ℕ) = 28 + 1 from rfl, ewmState_succ, hw28]
    norm_num [ewmStep, smoothingFactor, hm29]
  have hw30 : ewmState (smoothingFactor 12) (momentumAt exC1) 30 = (none, 1) := by
    rw [show (30 : ℕ) = 29 + 1 from rfl, ewmState_succ, hw29]
    norm_num [ewmStep, smoothingFactor, hm30]
  have hw31 : ewmState (smoothingFactor 12) (momentumAt exC1) 31 = (none, 1) := by
    rw [show (31 : ℕ) = 30 + 1 from rfl, ewmState_succ, hw30]
    norm_num [ewmStep, smoothingFactor, hm31]
  have hw32 : ewmState (smoothingFactor 12) (momentumAt exC1) 32 = (none, 1) := by
    rw [show (32 : ℕ) = 31 + 1 from rfl, ewmState_succ, hw31]
    norm_num [ewmStep, smoothingFactor, hm32]
  have hw33 : ewmState (smoothingFactor 12) (momentumAt exC1) 33 = (none, 1) := by
    rw [show (33 : ℕ) = 32 + 1 from rfl, ewmState_succ, hw32]
    norm_num [ewmStep, smoothingFactor, hm33]
  have hw34 : ewmState (smoothingFactor 12) (momentumAt exC1) 34 = (none, 1) := by
    rw [show (34 : ℕ) = 33 + 1 from rfl, ewmState_succ, hw33]
    norm_num [ewmStep, smoothingFactor, hm34]
  have hw35 : ewmState (smoothingFactor 12) (momentumAt exC1) 35 = (none, 1) := by
    rw [show (35 : ℕ) = 34 + 1 from rfl, ewmState_succ, hw34]
    norm_num [ewmStep, smoothingFactor, hm35]
  have hw36 : ewmState (smoothingFactor 12) (momentumAt exC1) 36 = (none, 1) := by
    rw [show (36 : ℕ) = 35 + 1 from rfl, ewmState_succ, hw35]
    norm_num [ewmStep, smoothingFactor, hm36]
  have hw37 : ewmState (smoothingFactor 12) (momentumAt exC1) 37 = (none, 1) := by
    rw [show (37 : ℕ) = 36 + 1 from rfl, ewmState_succ, hw36]
    norm_num [ewmStep, smoothingFactor, hm37]
  have hw38 : ewmState (smoothingFactor 12) (momentumAt exC1) 38 = (none, 1) := by
    rw [show (38 : ℕ) = 37 + 1 from rfl, ewmState_succ, hw37]
    norm_num [ewmStep, smoothingFactor, hm38]
  have hw39 : ewmState (smoothingFactor 12) (momentumAt exC1) 39 = (none, 1) := by
    rw [show (39 : ℕ) = 38 + 1 from rfl, ewmState_succ, hw38]
    norm_num [ewmStep, smoothingFactor, hm39]
  have hw40 : ewmState (smoothingFactor 12) (momentumAt exC1) 40 = (none, 1) := by
    rw [show (40 : ℕ) = 39 + 1 from rfl, ewmState_succ, hw39]
    norm_num [ewmStep, smoothingFactor, hm40]
  have hw41 : ewmState (smoothingFactor 12) (momentumAt exC1) 41 = (none, 1) := by
    rw [show (41 : ℕ) = 40 + 1 from rfl, ewmState_succ, hw40]
    norm_num [ewmStep, smoothingFactor, hm41]
  have hw42 : ewmState (smoothingFactor 12) (momentumAt exC1) 42 = (none, 1) := by
    rw [show (42 : ℕ) = 41 + 1 from rfl, ewmState_succ, hw41]
    norm_num [ewmStep, smoothingFactor, hm42]
  have hw43 : ewmState (smoothingFactor 12) (momentumAt exC1) 43 = (none, 1) := by
    rw [show (43 : ℕ) = 42 + 1 from rfl, ewmState_succ, hw42]
    norm_num [ewmStep, smoothingFactor, hm43]
  have hw44 : ewmState (smoothingFactor 12) (momentumAt exC1) 44 = (some ((-1000 / 3 : ℚ)), 1) := by
    rw [show (44 : ℕ) = 43 + 1 from rfl, ewmState_succ, hw43]
    norm_num [ewmStep, smoothingFactor, hm44]
  have hw45 : ewmState (smoothingFactor 12) (momentumAt exC1) 45 = (some ((-232 : ℚ)), 1) := by
    rw [show (45 : ℕ) = 44 + 1 from rfl, ewmState_succ, hw44]
    norm_num [ewmStep, smoothingFactor, hm45]
  have hw46 : ewmState (smoothingFactor 12) (momentumAt exC1) 46 = (some ((-150 : ℚ)), 1) := by
    rw [show (46 : ℕ) = 45 + 1 from rfl, ewmState_succ, hw45]
    norm_num [ewmStep, smoothingFactor, hm46]
  have hw47 : ewmState (smoothingFactor 12) (momentumAt exC1) 47 = (some ((-80 : ℚ)), 1) := by
    rw [show (47 : ℕ) = 46 + 1 from rfl, ewmState_succ, hw46]
    norm_num [ewmStep, smoothingFactor, hm47]
  have hw48 : ewmState (smoothingFactor 12) (momentumAt exC1) 48 = (some ((-115 : ℚ)), 1) := by
    rw [show (48 : ℕ) = 47 + 1 from rfl, ewmState_succ, hw47]
    norm_num [ewmStep, smoothingFactor, hm48]
  have hw49 : ewmState (smoothingFactor 12) (momentumAt exC1) 49 = (some ((-65 : ℚ)), 1) := by
    rw [show (49 : ℕ) = 48 + 1 from rfl, ewmState_succ, hw48]
    norm_num [ewmStep, smoothingFactor, hm49]
  have hwa46 : wave1At exC1 46 = some ((-150 : ℚ)) := by
    show (ewmState (smoothingFactor 12) (momentumAt exC1) 46).1 = _
    rw [hw46]
  have hwa47 : wave1At exC1 47 = some ((-80 : ℚ)) := by
    show (ewmState (smoothingFactor 12) (momentumAt exC1) 47).1 = _
    rw [hw47]
  have hwa48 : wave1At exC1 48 = some ((-115 : ℚ)) := by
    show (ewmState (smoothingFactor 12) (momentumAt exC1) 48).1 = _
    rw [hw48]
  have hwa49 : wave1At exC1 49 = some ((-65 : ℚ)) := by
    show (ewmState (smoothingFactor 12) (momentumAt exC1) 49).1 = _
    rw [hw49]
  have hw2_48 : wave2At exC1 48 = some ((-115 : ℚ)) := by
    rw [wave2At_def, rollingMean3 (wave1At exC1) 48 (by omega)]
    norm_num [hwa46, hwa47, hwa48]
  have hw2_49 : wave2At exC1 49 = some ((-260 / 3 : ℚ)) := by
    rw [wave2At_def, rollingMean3 (wave1At exC1) 49 (by omega)]
    norm_num [hwa47, hwa48, hwa49]
  have hsig : longAt exC1 49 = false := by
    have h := long_iff_at_succ exC1 48
    norm_num [hwa48, hw2_48, hwa49, hw2_49] at h
    exact h
  refine ⟨?_, ?_, hwa48, hw2_48, hwa49, hw2_49⟩
  · rw [generate_signals_ok theEngine (seriesFrame exC1)
        (by simp [seriesFrame_len, show exC1.length = 50 from rfl])]
    rw [hlc3_series, seriesFrame_len, show exC1.length = 50 from rfl]
    norm_num [hsig, Except.map]
  · rw [hwa48, hw2_48, hwa49, hw2_49]
    norm_num

set_option maxHeartbeats 2000000 in
/-- Counterexample for C2 as frozen: on `exC2` the claimed SELL conditions
hold at the last sample with a weak previous-sample cross — prev1 = prev2 =
115 (so prev1 ≥ prev2), cur1 = 65 < cur2 = 260/3, both at or above 60 — yet
the classifier does not emit SELL, because the code requires prev1 > prev2
strictly. -/
theorem c2_counterexample :
    (theEngine.generate_signals (seriesFrame exC2)).map (fun pr => pr.2.short_signal)
      = Except.ok false ∧
    (match wave1At exC2 48, wave2At exC2 48, wave1At exC2 49, wave2At exC2 49 with
      | some p1, some p2, some c1, some c2 => p2 ≤ p1 ∧ c1 < c2 ∧ 60 ≤ c1 ∧ 60 ≤ c2
      | _, _, _, _ => False) ∧
    wave1At exC2 48 = some (115) ∧ wave2At exC2 48 = some (115) ∧
    wave1At exC2 49 = some (65) ∧ wave2At exC2 49 = some ((260 / 3 : ℚ)) := by
  have hs0 : sample exC2 0 = 100 := rfl
  have hs1 : sample exC2 1 = 100 := rfl
  have hs2 : sample exC2 2 = 100 := rfl
  have hs3 : sample exC2 3 = 100 := rfl
  have hs4 : sample exC2 4 = 100 := rfl
  have hs5 : sample exC2 5 = 100 := rfl
  have hs6 : sample exC2 6 = 100 := rfl
  have hs7 : sample exC2 7 = 100 := rfl
  have hs8 : sample exC2 8 = 100 := rfl
  have hs9 : sample exC2 9 = 100 := rfl
  have hs10 : sample exC2 10 = 100 := rfl
  have hs11 : sample exC2 11 = 100 := rfl
  have hs12 : sample exC2 12 = 100 := rfl
  have hs13 : sample exC2 13 = 100 := rfl
  have hs14 : sample exC2 14 = 100 := rfl
  have hs15 : sample exC2 15 = 100 := rfl
  have hs16 : sample exC2 16 = 100 := rfl
  have hs17 : sample exC2 17 = 100 := rfl
  have hs18 : sample exC2 18 = 100 := rfl
  have hs19 : sample exC2 19 = 100 := rfl
  have hs20 : sample exC2 20 = 100 := rfl
  have hs21 : sample exC2 21 = 100 := rfl
  have hs22 : sample exC2 22 = 100 := rfl
  have hs23 : sample exC2 23 = 100 := rfl
  have hs24 : sample exC2 24 = 100 := rfl
  have hs25 : sample exC2 25 = 100 := rfl
  have hs26 : sample exC2 26 = 100 := rfl
  have hs27 : sample exC2 27 = 100 := rfl
  have hs28 : sample exC2 28 = 100 := rfl
  have hs29 : sample exC2 29 = 100 := rfl
  have hs30 : sample exC2 30 = 100 := rfl
  have hs31 : sample exC2 31 = 100 := rfl
  have hs32 : sample exC2 32 = 100 := rfl
  have hs33 : sample exC2 33 = 100 := rfl
  have hs34 : sample exC2 34 = 100 := rfl
  have hs35 : sample exC2 35 = 100 := rfl
  have hs36 : sample exC2 36 = 100 := rfl
  have hs37 : sample exC2 37 = 100 := rfl
  have hs38 : sample exC2 38 = 100 := rfl
  have hs39 : sample exC2 39 = 100 := rfl
  have hs40 : sample exC2 40 = 100 := rfl
  have hs41 : sample exC2 41 = 100 := rfl
  have hs42 : sample exC2 42 = 100 := rfl
  have hs43 : sample exC2 43 = 100 := rfl
  have hs44 : sample exC2 44 = 101 := rfl
  have hs45 : sample exC2 45 = (203 / 3 : ℚ) := rfl
  have hs46 : sample exC2 46 = (-1124381 / 7275 : ℚ) := rfl
  have hs47 : sample exC2 47 = (-287352877 / 123675 : ℚ) := rfl
  have hs48 : sample exC2 48 = (5459852989 / 225525 : ℚ) := rfl
  have hs49 : sample exC2 49 = (-4522846869919 / 141855225 : ℚ) := rfl
  have hb0 : ewmState (smoothingFactor 9) (fun j => some (sample exC2 j)) 0 = (some (100), 1) := by
    norm_num [ewmState, ewmStep, smoothingFactor, hs0]
  have hb1 : ewmState (smoothingFactor 9) (fun j => some (sample exC2 j)) 1 = (some (100), 1) := by
    rw [show (1 : ℕ) = 0 + 1 from rfl, ewmState_succ, hb0]
    norm_num [ewmStep, smoothingFactor, hs1]
  have hb2 : ewmState (smoothingFactor 9) (fun j => some (sample exC2 j)) 2 = (some (100), 1) := by
    rw [show (2 : ℕ) = 1 + 1 from rfl, ewmState_succ, hb1]
    norm_num [ewmStep, smoothingFactor, hs2]
  have hb3 : ewmState (smoothingFactor 9) (fun j => some (sample exC2 j)) 3 = (some (100), 1) := by
    rw [show (3 : ℕ) = 2 + 1 from rfl, ewmState_succ, hb2]
    norm_num [ewmStep, smoothingFactor, hs3]
  have hb4 : ewmState (smoothingFactor 9) (fun j => some (sample exC2 j)) 4 = (some (100), 1) := by
    rw [show (4 : ℕ) = 3 + 1 from rfl, ewmState_succ, hb3]
    norm_num [ewmStep, smoothingFactor, hs4]
  have hb5 : ewmState (smoothingFactor 9) (fun j => some (sample exC2 j)) 5 = (some (100), 1) := by
    rw [show (5 : ℕ) = 4 + 1 from rfl, ewmState_succ, hb4]
    norm_num [ewmStep, smoothingFactor, hs5]
  have hb6 : ewmState (smoothingFactor 9) (fun j => some (sample exC2 j)) 6 = (some (100), 1) := by
    rw [show (6 : ℕ) = 5 + 1 from rfl, ewmState_succ, hb5]
    norm_num [ewmStep, smoothingFactor, hs6]
  have hb7 : ewmState (smoothingFactor 9) (fun j => some (sample exC2 j)) 7 = (some (100), 1) := by
    rw [show (7 : ℕ) = 6 + 1 from rfl, ewmState_succ, hb6]
    norm_num [ewmStep, smoothingFactor, hs7]
  have hb8 : ewmState (smoothingFactor 9) (fun j => some (sample exC2 j)) 8 = (some (100), 1) := by
    rw [show (8 : ℕ) = 7 + 1 from rfl, ewmState_succ, hb7]
    norm_num [ewmStep, smoothingFactor, hs8]
  have hb9 : ewmState (smoothingFactor 9) (fun j => some (sample exC2 j)) 9 = (some (100), 1) := by
    rw [show (9 : ℕ) = 8 + 1 from rfl, ewmState_succ, hb8]
    norm_num [ewmStep, smoothingFactor, hs9]
  have hb10 : ewmState (smoothingFactor 9) (fun j => some (sample exC2 j)) 10 = (some (100), 1) := by
    rw [show (10 : ℕ) = 9 + 1 from rfl, ewmState_succ, hb9]
    norm_num [ewmStep, smoothingFactor, hs10]
  have hb11 : ewmState (smoothingFactor 9) (fun j => some (sample exC2 j)) 11 = (some (100), 1) := by
    rw [show (11 : ℕ) = 10 + 1 from rfl, ewmState_succ, hb10]
    norm_num [ewmStep, smoothingFactor, hs11]
  have hb12 : ewmState (smoothingFactor 9) (fun j => some (sample exC2 j)) 12 = (some (100), 1) := by
    rw [show (12 : ℕ) = 11 + 1 from rfl, ewmState_succ, hb11]
    norm_num [ewmStep, smoothingFactor, hs12]
  have hb13 : ewmState (smoothingFactor 9) (fun j => some (sample exC2 j)) 13 = (some (100), 1) := by
    rw [show (13 : ℕ) = 12 + 1 from rfl, ewmState_succ, hb12]
    norm_num [ewmStep, smoothingFactor, hs13]
  have hb14 : ewmState (smoothingFactor 9) (fun j => some (sample exC2 j)) 14 = (some (100), 1) := by
    rw [show (14 : ℕ) = 13 + 1 from rfl, ewmState_succ, hb13]
    norm_num [ewmStep, smoothingFactor, hs14]
  have hb15 : ewmState (smoothingFactor 9) (fun j => some (sample exC2 j)) 15 = (some (100), 1) := by
    rw [show (15 : ℕ) = 14 + 1 from rfl, ewmState_succ, hb14]
    norm_num [ewmStep, smoothingFactor, hs15]
  have hb16 : ewmState (smoothingFactor 9) (fun j => some (sample exC2 j)) 16 = (some (100), 1) := by
    rw [show (16 : ℕ) = 15 + 1 from rfl, ewmState_succ, hb15]
    norm_num [ewmStep, smoothingFactor, hs16]
  have hb17 : ewmState (smoothingFactor 9) (fun j => some (sample exC2 j)) 17 = (some (100), 1) := by
    rw [show (17 : ℕ) = 16 + 1 from rfl, ewmState_succ, hb16]
    norm_num [ewmStep, smoothingFactor, hs17]
  have hb18 : ewmState (smoothingFactor 9) (fun j => some (sample exC2 j)) 18 = (some (100), 1) := by
    rw [show (18 : ℕ) = 17 + 1 from rfl, ewmState_succ, hb17]
    norm_num [ewmStep, smoothingFactor, hs18]
  have hb19 : ewmState (smoothingFactor 9) (fun j => some (sample exC2 j)) 19 = (some (100), 1) := by
    rw [show (19 : ℕ) = 18 + 1 from rfl, ewmState_succ, hb18]
    norm_num [ewmStep, smoothingFactor, hs19]
  have hb20 : ewmState (smoothingFactor 9) (fun j => some (sample exC2 j)) 20 = (some (100), 1) := by
    rw [show (20 : ℕ) = 19 + 1 from rfl, ewmState_succ, hb19]
    norm_num [ewmStep, smoothingFactor, hs20]
  have hb21 : ewmState (smoothingFactor 9) (fun j => some (sample exC2 j)) 21 = (some (100), 1) := by
    rw [show (21 : ℕ) = 20 + 1 from rfl, ewmState_succ, hb20]
    norm_num [ewmStep, smoothingFactor, hs21]
  have hb22 : ewmState (smoothingFactor 9) (fun j => some (sample exC2 j)) 22 = (some (100), 1) := by
    rw [show (22 : ℕ) = 21 + 1 from rfl, ewmState_succ, hb21]
    norm_num [ewmStep, smoothingFactor, hs22]
  have hb23 : ewmState (smoothingFactor 9) (fun j => some (sample exC2 j)) 23 = (some (100), 1) := by
    rw [show (23 : ℕ) = 22 + 1 from rfl, ewmState_succ, hb22]
    norm_num [ewmStep, smoothingFactor, hs23]
  have hb24 : ewmState (smoothingFactor 9) (fun j => some (sample exC2 j)) 24 = (some (100), 1) := by
    rw [show (24 : ℕ) = 23 + 1 from rfl, ewmState_succ, hb23]
    norm_num [ewmStep, smoothingFactor, hs24]
  have hb25 : ewmState (smoothingFactor 9) (fun j => some (sample exC2 j)) 25 = (some (100), 1) := by
    rw [show (25 : ℕ) = 24 + 1 from rfl, ewmState_succ, hb24]
    norm_num [ewmStep, smoothingFactor, hs25]
  have hb26 : ewmState (smoothingFactor 9) (fun j => some (sample exC2 j)) 26 = (some (100), 1) := by
    rw [show (26 : ℕ) = 25 + 1 from rfl, ewmState_succ, hb25]
    norm_num [ewmStep, smoothingFactor, hs26]
  have hb27 : ewmState (smoothingFactor 9) (fun j => some (sample exC2 j)) 27 = (some (100), 1) := by
    rw [show (27 : ℕ) = 26 + 1 from rfl, ewmState_succ, hb26]
    norm_num [ewmStep, smoothingFactor, hs27]
  have hb28 : ewmState (smoothingFactor 9) (fun j => some (sample exC2 j)) 28 = (some (100), 1) := by
    rw [show (28 : ℕ) = 27 + 1 from rfl, ewmState_succ, hb27]
    norm_num [ewmStep, smoothingFactor, hs28]
  have hb29 : ewmState (smoothingFactor 9) (fun j => some (sample exC2 j)) 29 = (some (100), 1) := by
    rw [show (29 : ℕ) = 28 + 1 from rfl, ewmState_succ, hb28]
    norm_num [ewmStep, smoothingFactor, hs29]
  have hb30 : ewmState (smoothingFactor 9) (fun j => some (sample exC2 j)) 30 = (some (100), 1) := by
    rw [show (30 : ℕ) = 29 + 1 from rfl, ewmState_succ, hb29]
    norm_num [ewmStep, smoothingFactor, hs30]
  have hb31 : ewmState (smoothingFactor 9) (fun j => some (sample exC2 j)) 31 = (some (100), 1) := by
    rw [show (31 : ℕ) = 30 + 1 from rfl, ewmState_succ, hb30]
    norm_num [ewmStep, smoothingFactor, hs31]
  have hb32 : ewmState (smoothingFactor 9) (fun j => some (sample exC2 j)) 32 = (some (100), 1) := by
    rw [show (32 : ℕ) = 31 + 1 from rfl, ewmState_succ, hb31]
    norm_num [ewmStep, smoothingFactor, hs32]
  have hb33 : ewmState (smoothingFactor 9) (fun j => some (sample exC2 j)) 33 = (some (100), 1) := by
    rw [show (33 : ℕ) = 32 + 1 from rfl, ewmState_succ, hb32]
    norm_num [ewmStep, smoothingFactor, hs33]
  have hb34 : ewmState (smoothingFactor 9) (fun j => some (sample exC2 j)) 34 = (some (100), 1) := by
    rw [show (34 : ℕ) = 33 + 1 from rfl, ewmState_succ, hb33]
    norm_num [ewmStep, smoothingFactor, hs34]
  have hb35 : ewmState (smoothingFactor 9) (fun j => some (sample exC2 j)) 35 = (some (100), 1) := by
    rw [show (35 : ℕ) = 34 + 1 from rfl, ewmState_succ, hb34]
    norm_num [ewmStep, smoothingFactor, hs35]
  have hb36 : ewmState (smoothingFactor 9) (fun j => some (sample exC2 j)) 36 = (some (100), 1) := by
    rw [show (36 : ℕ) = 35 + 1 from rfl, ewmState_succ, hb35]
    norm_num [ewmStep, smoothingFactor, hs36]
  have hb37 : ewmState (smoothingFactor 9) (fun j => some (sample exC2 j)) 37 = (some (100), 1) := by
    rw [show (37 : ℕ) = 36 + 1 from rfl, ewmState_succ, hb36]
    norm_num [ewmStep, smoothingFactor, hs37]
  have hb38 : ewmState (smoothingFactor 9) (fun j => some (sample exC2 j)) 38 = (some (100), 1) := by
    rw [show (38 : ℕ) = 37 + 1 from rfl, ewmState_succ, hb37]
    norm_num [ewmStep, smoothingFactor, hs38]
  have hb39 : ewmState (smoothingFactor 9) (fun j => some (sample exC2 j)) 39 = (some (100), 1) := by
    rw [show (39 : ℕ) = 38 + 1 from rfl, ewmState_succ, hb38]
    norm_num [ewmStep, smoothingFactor, hs39]
  have hb40 : ewmState (smoothingFactor 9) (fun j => some (sample exC2 j)) 40 = (some (100), 1) := by
    rw [show (40 : ℕ) = 39 + 1 from rfl, ewmState_succ, hb39]
    norm_num [ewmStep, smoothingFactor, hs40]
  have hb41 : ewmState (smoothingFactor 9) (fun j => some (sample exC2 j)) 41 = (some (100), 1) := by
    rw [show (41 : ℕ) = 40 + 1 from rfl, ewmState_succ, hb40]
    norm_num [ewmStep, smoothingFactor, hs41]
  have hb42 : ewmState (smoothingFactor 9) (fun j => some (sample exC2 j)) 42 = (some (100), 1) := by
    rw [show (42 : ℕ) = 41 + 1 from rfl, ewmState_succ, hb41]
    norm_num [ewmStep, smoothingFactor, hs42]
  have hb43 : ewmState (smoothingFactor 9) (fun j => some (sample exC2 j)) 43 = (some (100), 1) := by
    rw [show (43 : ℕ) = 42 + 1 from rfl, ewmState_succ, hb42]
    norm_num [ewmStep, smoothingFactor, hs43]
  have hb44 : ewmState (smoothingFactor 9) (fun j => some (sample exC2 j)) 44 = (some ((501 / 5 : ℚ)), 1) := by
    rw [show (44 : ℕ) = 43 + 1 from rfl, ewmState_succ, hb43]
    norm_num [ewmStep, smoothingFactor, hs44]
  have hb45 : ewmState (smoothingFactor 9) (fun j => some (sample exC2 j)) 45 = (some ((7027 / 75 : ℚ)), 1) := by
    rw [show (45 : ℕ) = 44 + 1 from rfl, ewmState_succ, hb44]
    norm_num [ewmStep, smoothingFactor, hs45]
  have hb46 : ewmState (smoothingFactor 9) (fun j => some (sample exC2 j)) 46 = (some ((320419 / 7275 : ℚ)), 1) := by
    rw [show (46 : ℕ) = 45 + 1 from rfl, ewmState_succ, hb45]
    norm_num [ewmStep, smoothingFactor, hs46]
  have hb47 : ewmState (smoothingFactor 9) (fun j => some (sample exC2 j)) 47 = (some ((-53112877 / 123675 : ℚ)), 1) := by
    rw [show (47 : ℕ) = 46 + 1 from rfl, ewmState_succ, hb46]
    norm_num [ewmStep, smoothingFactor, hs47]
  have hb48 : ewmState (smoothingFactor 9) (fun j => some (sample exC2 j)) 48 = (some ((17246300813 / 3833925 : ℚ)), 1) := by
    rw [show (48 : ℕ) = 47 + 1 from rfl, ewmState_succ, hb47]
    norm_num [ewmStep, smoothingFactor, hs48]
  have hb49 : ewmState (smoothingFactor 9) (fun j => some (sample exC2 j)) 49 = (some ((-394078869919 / 141855225 : ℚ)), 1) := by
    rw [show (49 : ℕ) = 48 + 1 from rfl, ewmState_succ, hb48]
    norm_num [ewmStep, smoothingFactor, hs49]
  have hba0 : basisAt exC2 0 = some (100) := by
    show (ewmState (smoothingFactor 9) (fun j => some (sample exC2 j)) 0).1 = _
    rw [hb0]
  have hba1 : basisAt exC2 1 = some (100) := by
    show (ewmState (smoothingFactor 9) (fun j => some (sample exC2 j)) 1).1 = _
    rw [hb1]
  have hba2 : basisAt exC2 2 = some (100) := by
    show (ewmState (smoothingFactor 9) (fun j => some (sample exC2 j)) 2).1 = _
    rw [hb2]
  have hba3 : basisAt exC2 3 = some (100) := by
    show (ewmState (smoothingFactor 9) (fun j => some (sample exC2 j)) 3).1 = _
    rw [hb3]
  have hba4 : basisAt exC2 4 = some (100) := by
    show (ewmState (smoothingFactor 9) (fun j => some (sample exC2 j)) 4).1 = _
    rw [hb4]
  have hba5 : basisAt exC2 5 = some (100) := by
    show (ewmState (smoothingFactor 9) (fun j => some (sample exC2 j)) 5).1 = _
    rw [hb5]
  have hba6 : basisAt exC2 6 = some (100) := by
    show (ewmState (smoothingFactor 9) (fun j => some (sample exC2 j)) 6).1 = _
    rw [hb6]
  have hba7 : basisAt exC2 7 = some (100) := by
    show (ewmState (smoothingFactor 9) (fun j => some (sample exC2 j)) 7).1 = _
    rw [hb7]
  have hba8 : basisAt exC2 8 = some (100) := by
    show (ewmState (smoothingFactor 9) (fun j => some (sample exC2 j)) 8).1 = _
    rw [hb8]
  have hba9 : basisAt exC2 9 = some (100) := by
    show (ewmState (smoothingFactor 9) (fun j => some (sample exC2 j)) 9).1 = _
    rw [hb9]
  have hba10 : basisAt exC2 10 = some (100) := by
    show (ewmState (smoothingFactor 9) (fun j => some (sample exC2 j)) 10).1 = _
    rw [hb10]
  have hba11 : basisAt exC2 11 = some (100) := by
    show (ewmState (smoothingFactor 9) (fun j => some (sample exC2 j)) 11).1 = _
    rw [hb11]
  have hba12 : basisAt exC2 12 = some (100) := by
    show (ewmState (smoothingFactor 9) (fun j => some (sample exC2 j)) 12).1 = _
    rw [hb12]
  have hba13 : basisAt exC2 13 = some (100) := by
    show (ewmState (smoothingFactor 9) (fun j => some (sample exC2 j)) 13).1 = _
    rw [hb13]
  have hba14 : basisAt exC2 14 = some (100) := by
    show (ewmState (smoothingFactor 9) (fun j => some (sample exC2 j)) 14).1 = _
    rw [hb14]
  have hba15 : basisAt exC2 15 = some (100) := by
    show (ewmState (smoothingFactor 9) (fun j => some (sample exC2 j)) 15).1 = _
    rw [hb15]
  have hba16 : basisAt exC2 16 = some (100) := by
    show (ewmState (smoothingFactor 9) (fun j => some (sample exC2 j)) 16).1 = _
    rw [hb16]
  have hba17 : basisAt exC2 17 = some (100) := by
    show (ewmState (smoothingFactor 9) (fun j => some (sample exC2 j)) 17).1 = _
    rw [hb17]
  have hba18 : basisAt exC2 18 = some (100) := by
    show (ewmState (smoothingFactor 9) (fun j => some (sample exC2 j)) 18).1 = _
    rw [hb18]
  have hba19 : basisAt exC2 19 = some (100) := by
    show (ewmState (smoothingFactor 9) (fun j => some (sample exC2 j)) 19).1 = _
    rw [hb19]
  have hba20 : basisAt exC2 20 = some (100) := by
    show (ewmState (smoothingFactor 9) (fun j => some (sample exC2 j)) 20).1 = _
    rw [hb20]
  have hba21 : basisAt exC2 21 = some (100) := by
    show (ewmState (smoothingFactor 9) (fun j => some (sample exC2 j)) 21).1 = _
    rw [hb21]
  have hba22 : basisAt exC2 22 = some (100) := by
    show (ewmState (smoothingFactor 9) (fun j => some (sample exC2 j)) 22).1 = _
    rw [hb22]
  have hba23 : basisAt exC2 23 = some (100) := by
    show (ewmState (smoothingFactor 9) (fun j => some (sample exC2 j)) 23).1 = _
    rw [hb23]
  have hba24 : basisAt exC2 24 = some (100) := by
    show (ewmState (smoothingFactor 9) (fun j => some (sample exC2 j)) 24).1 = _
    rw [hb24]
  have hba25 : basisAt exC2 25 = some (100) := by
    show (ewmState (smoothingFactor 9) (fun j => some (sample exC2 j)) 25).1 = _
    rw [hb25]
  have hba26 : basisAt exC2 26 = some (100) := by
    show (ewmState (smoothingFactor 9) (fun j => some (sample exC2 j)) 26).1 = _
    rw [hb26]
  have hba27 : basisAt exC2 27 = some (100) := by
    show (ewmState (smoothingFactor 9) (fun j => some (sample exC2 j)) 27).1 = _
    rw [hb27]
  have hba28 : basisAt exC2 28 = some (100) := by
    show (ewmState (smoothingFactor 9) (fun j => some (sample exC2 j)) 28).1 = _
    rw [hb28]
  have hba29 : basisAt exC2 29 = some (100) := by
    show (ewmState (smoothingFactor 9) (fun j => some (sample exC2 j)) 29).1 = _
    rw [hb29]
  have hba30 : basisAt exC2 30 = some (100) := by
    show (ewmState (smoothingFactor 9) (fun j => some (sample exC2 j)) 30).1 = _
    rw [hb30]
  have hba31 : basisAt exC2 31 = some (100) := by
    show (ewmState (smoothingFactor 9) (fun j => some (sample exC2 j)) 31).1 = _
    rw [hb31]
  have hba32 : basisAt exC2 32 = some (100) := by
    show (ewmState (smoothingFactor 9) (fun j => some (sample exC2 j)) 32).1 = _
    rw [hb32]
  have hba33 : basisAt exC2 33 = some (100) := by
    show (ewmState (smoothingFactor 9) (fun j => some (sample exC2 j)) 33).1 = _
    rw [hb33]
  have hba34 : basisAt exC2 34 = some (100) := by
    show (ewmState (smoothingFactor 9) (fun j => some (sample exC2 j)) 34).1 = _
    rw [hb34]
  have hba35 : basisAt exC2 35 = some (100) := by
    show (ewmState (smoothingFactor 9) (fun j => some (sample exC2 j)) 35).1 = _
    rw [hb35]
  have hba36 : basisAt exC2 36 = some (100) := by
    show (ewmState (smoothingFactor 9) (fun j => some (sample exC2 j)) 36).1 = _
    rw [hb36]
  have hba37 : basisAt exC2 37 = some (100) := by
    show (ewmState (smoothingFactor 9) (fun j => some (sample exC2 j)) 37).1 = _
    rw [hb37]
  have hba38 : basisAt exC2 38 = some (100) := by
    show (ewmState (smoothingFactor 9) (fun j => some (sample exC2 j)) 38).1 = _
    rw [hb38]
  have hba39 : basisAt exC2 39 = some (100) := by
    show (ewmState (smoothingFactor 9) (fun j => some (sample exC2 j)) 39).1 = _
    rw [hb39]
  have hba40 : basisAt exC2 40 = some (100) := by
    show (ewmState (smoothingFactor 9) (fun j => some (sample exC2 j)) 40).1 = _
    rw [hb40]
  have hba41 : basisAt exC2 41 = some (100) := by
    show (ewmState (smoothingFactor 9) (fun j => some (sample exC2 j)) 41).1 = _
    rw [hb41]
  have hba42 : basisAt exC2 42 = some (100) := by
    show (ewmState (smoothingFactor 9) (fun j => some (sample exC2 j)) 42).1 = _
    rw [hb42]
  have hba43 : basisAt exC2 43 = some (100) := by
    show (ewmState (smoothingFactor 9) (fun j => some (sample exC2 j)) 43).1 = _
    rw [hb43]
  have hba44 : basisAt exC2 44 = some ((501 / 5 : ℚ)) := by
    show (ewmState (smoothingFactor 9) (fun j => some (sample exC2 j)) 44).1 = _
    rw [hb44]
  have hba45 : basisAt exC2 45 = some ((7027 / 75 : ℚ)) := by
    show (ewmState (smoothingFactor 9) (fun j => some (sample exC2 j)) 45).1 = _
    rw [hb45]
  have hba46 : basisAt exC2 46 = some ((320419 / 7275 : ℚ)) := by
    show (ewmState (smoothingFactor 9) (fun j => some (sample exC2 j)) 46).1 = _
    rw [hb46]
  have hba47 : basisAt exC2 47 = some ((-53112877 / 123675 : ℚ)) := by
    show (ewmState (smoothingFactor 9) (fun j => some (sample exC2 j)) 47).1 = _
    rw [hb47]
  have hba48 : basisAt exC2 48 = some ((17246300813 / 3833925 : ℚ)) := by
    show (ewmState (smoothingFactor 9) (fun j => some (sample exC2 j)) 48).1 = _
    rw [hb48]
  have hba49 : basisAt exC2 49 = some ((-394078869919 / 141855225 : ℚ)) := by
    show (ewmState (smoothingFactor 9) (fun j => some (sample exC2 j)) 49).1 = _
    rw [hb49]
  have hd0 : ewmState (smoothingFactor 9) (fun k => (basisAt exC2 k).map (fun b => |sample exC2 k - b|)) 0 = (some (0), 1) := by
    norm_num [ewmState, ewmStep, smoothingFactor, hs0, hba0, abs_of_nonneg, abs_of_neg]
  have hd1 : ewmState (smoothingFactor 9) (fun k => (basisAt exC2 k).map (fun b => |sample exC2 k - b|)) 1 = (some (0), 1) := by
    rw [show (1 : ℕ) = 0 + 1 from rfl, ewmState_succ, hd0]
    norm_num [ewmStep, smoothingFactor, hs1, hba1, abs_of_nonneg, abs_of_neg]
  have hd2 : ewmState (smoothingFactor 9) (fun k => (basisAt exC2 k).map (fun b => |sample exC2 k - b|)) 2 = (some (0), 1) := by
    rw [show (2 : ℕ) = 1 + 1 from rfl, ewmState_succ, hd1]
    norm_num [ewmStep, smoothingFactor, hs2, hba2, abs_of_nonneg, abs_of_neg]
  have hd3 : ewmState (smoothingFactor 9) (fun k => (basisAt exC2 k).map (fun b => |sample exC2 k - b|)) 3 = (some (0), 1) := by
    rw [show (3 : ℕ) = 2 + 1 from rfl, ewmState_succ, hd2]
    norm_num [ewmStep, smoothingFactor, hs3, hba3, abs_of_nonneg, abs_of_neg]
  have hd4 : ewmState (smoothingFactor 9) (fun k => (basisAt exC2 k).map (fun b => |sample exC2 k - b|)) 4 = (some (0), 1) := by
    rw [show (4 : ℕ) = 3 + 1 from rfl, ewmState_succ, hd3]
    norm_num [ewmStep, smoothingFactor, hs4, hba4, abs_of_nonneg, abs_of_neg]
  have hd5 : ewmState (smoothingFactor 9) (fun k => (basisAt exC2 k).map (fun b => |sample exC2 k - b|)) 5 = (some (0), 1) := by
    rw [show (5 : ℕ) = 4 + 1 from rfl, ewmState_succ, hd4]
    norm_num [ewmStep, smoothingFactor, hs5, hba5, abs_of_nonneg, abs_of_neg]
  have hd6 : ewmState (smoothingFactor 9) (fun k => (basisAt exC2 k).map (fun b => |sample exC2 k - b|)) 6 = (some (0), 1) := by
    rw [show (6 : ℕ) = 5 + 1 from rfl, ewmState_succ, hd5]
    norm_num [ewmStep, smoothingFactor, hs6, hba6, abs_of_nonneg, abs_of_neg]
  have hd7 : ewmState (smoothingFactor 9) (fun k => (basisAt exC2 k).map (fun b => |sample exC2 k - b|)) 7 = (some (0), 1) := by
    rw [show (7 : ℕ) = 6 + 1 from rfl, ewmState_succ, hd6]
    norm_num [ewmStep, smoothingFactor, hs7, hba7, abs_of_nonneg, abs_of_neg]
  have hd8 : ewmState (smoothingFactor 9) (fun k => (basisAt exC2 k).map (fun b => |sample exC2 k - b|)) 8 = (some (0), 1) := by
    rw [show (8 : ℕ) = 7 + 1 from rfl, ewmState_succ, hd7]
    norm_num [ewmStep, smoothingFactor, hs8, hba8, abs_of_nonneg, abs_of_neg]
  have hd9 : ewmState (smoothingFactor 9) (fun k => (basisAt exC2 k).map (fun b => |sample exC2 k - b|)) 9 = (some (0), 1) := by
    rw [show (9 : ℕ) = 8 + 1 from rfl, ewmState_succ, hd8]
    norm_num [ewmStep, smoothingFactor, hs9, hba9, abs_of_nonneg, abs_of_neg]
  have hd10 : ewmState (smoothingFactor 9) (fun k => (basisAt exC2 k).map (fun b => |sample exC2 k - b|)) 10 = (some (0), 1) := by
    rw [show (10 : ℕ) = 9 + 1 from rfl, ewmState_succ, hd9]
    norm_num [ewmStep, smoothingFactor, hs10, hba10, abs_of_nonneg, abs_of_neg]
  have hd11 : ewmState (smoothingFactor 9) (fun k => (basisAt exC2 k).map (fun b => |sample exC2 k - b|)) 11 = (some (0), 1) := by
    rw [show (11 : ℕ) = 10 + 1 from rfl, ewmState_succ, hd10]
    norm_num [ewmStep, smoothingFactor, hs11, hba11, abs_of_nonneg, abs_of_neg]
  have hd12 : ewmState (smoothingFactor 9) (fun k => (basisAt exC2 k).map (fun b => |sample exC2 k - b|)) 12 = (some (0), 1) := by
    rw [show (12 : ℕ) = 11 + 1 from rfl, ewmState_succ, hd11]
    norm_num [ewmStep, smoothingFactor, hs12, hba12, abs_of_nonneg, abs_of_neg]
  have hd13 : ewmState (smoothingFactor 9) (fun k => (basisAt exC2 k).map (fun b => |sample exC2 k - b|)) 13 = (some (0), 1) := by
    rw [show (13 : ℕ) = 12 + 1 from rfl, ewmState_succ, hd12]
    norm_num [ewmStep, smoothingFactor, hs13, hba13, abs_of_nonneg, abs_of_neg]
  have hd14 : ewmState (smoothingFactor 9) (fun k => (basisAt exC2 k).map (fun b => |sample exC2 k - b|)) 14 = (some (0), 1) := by
    rw [show (14 : ℕ) = 13 + 1 from rfl, ewmState_succ, hd13]
    norm_num [ewmStep, smoothingFactor, hs14, hba14, abs_of_nonneg, abs_of_neg]
  have hd15 : ewmState (smoothingFactor 9) (fun k => (basisAt exC2 k).map (fun b => |sample exC2 k - b|)) 15 = (some (0), 1) := by
    rw [show (15 : ℕ) = 14 + 1 from rfl, ewmState_succ, hd14]
    norm_num [ewmStep, smoothingFactor, hs15, hba15, abs_of_nonneg, abs_of_neg]
  have hd16 : ewmState (smoothingFactor 9) (fun k => (basisAt exC2 k).map (fun b => |sample exC2 k - b|)) 16 = (some (0), 1) := by
    rw [show (16 : ℕ) = 15 + 1 from rfl, ewmState_succ, hd15]
    norm_num [ewmStep, smoothingFactor, hs16, hba16, abs_of_nonneg, abs_of_neg]
  have hd17 : ewmState (smoothingFactor 9) (fun k => (basisAt exC2 k).map (fun b => |sample exC2 k - b|)) 17 = (some (0), 1) := by
    rw [show (17 : ℕ) = 16 + 1 from rfl, ewmState_succ, hd16]
    norm_num [ewmStep, smoothingFactor, hs17, hba17, abs_of_nonneg, abs_of_neg]
  have hd18 : ewmState (smoothingFactor 9) (fun k => (basisAt exC2 k).map (fun b => |sample exC2 k - b|)) 18 = (some (0), 1) := by
    rw [show (18 : ℕ) = 17 + 1 from rfl, ewmState_succ, hd17]
    norm_num [ewmStep, smoothingFactor, hs18, hba18, abs_of_nonneg, abs_of_neg]
  have hd19 : ewmState (smoothingFactor 9) (fun k => (basisAt exC2 k).map (fun b => |sample exC2 k - b|)) 19 = (some (0), 1) := by
    rw [show (19 : ℕ) = 18 + 1 from rfl, ewmState_succ, hd18]
    norm_num [ewmStep, smoothingFactor, hs19, hba19, abs_of_nonneg, abs_of_neg]
  have hd20 : ewmState (smoothingFactor 9) (fun k => (basisAt exC2 k).map (fun b => |sample exC2 k - b|)) 20 = (some (0), 1) := by
    rw [show (20 : ℕ) = 19 + 1 from rfl, ewmState_succ, hd19]
    norm_num [ewmStep, smoothingFactor, hs20, hba20, abs_of_nonneg, abs_of_neg]
  have hd21 : ewmState (smoothingFactor 9) (fun k => (basisAt exC2 k).map (fun b => |sample exC2 k - b|)) 21 = (some (0), 1) := by
    rw [show (21 : ℕ) = 20 + 1 from rfl, ewmState_succ, hd20]
    norm_num [ewmStep, smoothingFactor, hs21, hba21, abs_of_nonneg, abs_of_neg]
  have hd22 : ewmState (smoothingFactor 9) (fun k => (basisAt exC2 k).map (fun b => |sample exC2 k - b|)) 22 = (some (0), 1) := by
    rw [show (22 : ℕ) = 21 + 1 from rfl, ewmState_succ, hd21]
    norm_num [ewmStep, smoothingFactor, hs22, hba22, abs_of_nonneg, abs_of_neg]
  have hd23 : ewmState (smoothingFactor 9) (fun k => (basisAt exC2 k).map (fun b => |sample exC2 k - b|)) 23 = (some (0), 1) := by
    rw [show (23 : ℕ) = 22 + 1 from rfl, ewmState_succ, hd22]
    norm_num [ewmStep, smoothingFactor, hs23, hba23, abs_of_nonneg, abs_of_neg]
  have hd24 : ewmState (smoothingFactor 9) (fun k => (basisAt exC2 k).map (fun b => |sample exC2 k - b|)) 24 = (some (0), 1) := by
    rw [show (24 : ℕ) = 23 + 1 from rfl, ewmState_succ, hd23]
    norm_num [ewmStep, smoothingFactor, hs24, hba24, abs_of_nonneg, abs_of_neg]
  have hd25 : ewmState (smoothingFactor 9) (fun k => (basisAt exC2 k).map (fun b => |sample exC2 k - b|)) 25 = (some (0), 1) := by
    rw [show (25 : ℕ) = 24 + 1 from rfl, ewmState_succ, hd24]
    norm_num [ewmStep, smoothingFactor, hs25, hba25, abs_of_nonneg, abs_of_neg]
  have hd26 : ewmState (smoothingFactor 9) (fun k => (basisAt exC2 k).map (fun b => |sample exC2 k - b|)) 26 = (some (0), 1) := by
    rw [show (26 : ℕ) = 25 + 1 from rfl, ewmState_succ, hd25]
    norm_num [ewmStep, smoothingFactor, hs26, hba26, abs_of_nonneg, abs_of_neg]
  have hd27 : ewmState (smoothingFactor 9) (fun k => (basisAt exC2 k).map (fun b => |sample exC2 k - b|)) 27 = (some (0), 1) := by
    rw [show (27 : ℕ) = 26 + 1 from rfl, ewmState_succ, hd26]
    norm_num [ewmStep, smoothingFactor, hs27, hba27, abs_of_nonneg, abs_of_neg]
  have hd28 : ewmState (smoothingFactor 9) (fun k => (basisAt exC2 k).map (fun b => |sample exC2 k - b|)) 28 = (some (0), 1) := by
    rw [show (28 : ℕ) = 27 + 1 from rfl, ewmState_succ, hd27]
    norm_num [ewmStep, smoothingFactor, hs28, hba28, abs_of_nonneg, abs_of_neg]
  have hd29 : ewmState (smoothingFactor 9) (fun k => (basisAt exC2 k).map (fun b => |sample exC2 k - b|)) 29 = (some (0), 1) := by
    rw [show (29 : ℕ) = 28 + 1 from rfl, ewmState_succ, hd28]
    norm_num [ewmStep, smoothingFactor, hs29, hba29, abs_of_nonneg, abs_of_neg]
  have hd30 : ewmState (smoothingFactor 9) (fun k => (basisAt exC2 k).map (fun b => |sample exC2 k - b|)) 30 = (some (0), 1) := by
    rw [show (30 : ℕ) = 29 + 1 from rfl, ewmState_succ, hd29]
    norm_num [ewmStep, smoothingFactor, hs30, hba30, abs_of_nonneg, abs_of_neg]
  have hd31 : ewmState (smoothingFactor 9) (fun k => (basisAt exC2 k).map (fun b => |sample exC2 k - b|)) 31 = (some (0), 1) := by
    rw [show (31 : ℕ) = 30 + 1 from rfl, ewmState_succ, hd30]
    norm_num [ewmStep, smoothingFactor, hs31, hba31, abs_of_nonneg, abs_of_neg]
  have hd32 : ewmState (smoothingFactor 9) (fun k => (basisAt exC2 k).map (fun b => |sample exC2 k - b|)) 32 = (some (0), 1) := by
    rw [show (32 : ℕ) = 31 + 1 from rfl, ewmState_succ, hd31]
    norm_num [ewmStep, smoothingFactor, hs32, hba32, abs_of_nonneg, abs_of_neg]
  have hd33 : ewmState (smoothingFactor 9) (fun k => (basisAt exC2 k).map (fun b => |sample exC2 k - b|)) 33 = (some (0), 1) := by
    rw [show (33 : ℕ) = 32 + 1 from rfl, ewmState_succ, hd32]
    norm_num [ewmStep, smoothingFactor, hs33, hba33, abs_of_nonneg, abs_of_neg]
  have hd34 : ewmState (smoothingFactor 9) (fun k => (basisAt exC2 k).map (fun b => |sample exC2 k - b|)) 34 = (some (0), 1) := by
    rw [show (34 : ℕ) = 33 + 1 from rfl, ewmState_succ, hd33]
    norm_num [ewmStep, smoothingFactor, hs34, hba34, abs_of_nonneg, abs_of_neg]
  have hd35 : ewmState (smoothingFactor 9) (fun k => (basisAt exC2 k).map (fun b => |sample exC2 k - b|)) 35 = (some (0), 1) := by
    rw [show (35 : ℕ) = 34 + 1 from rfl, ewmState_succ, hd34]
    norm_num [ewmStep, smoothingFactor, hs35, hba35, abs_of_nonneg, abs_of_neg]
  have hd36 : ewmState (smoothingFactor 9) (fun k => (basisAt exC2 k).map (fun b => |sample exC2 k - b|)) 36 = (some (0), 1) := by
    rw [show (36 : ℕ) = 35 + 1 from rfl, ewmState_succ, hd35]
    norm_num [ewmStep, smoothingFactor, hs36, hba36, abs_of_nonneg, abs_of_neg]
  have hd37 : ewmState (smoothingFactor 9) (fun k => (basisAt exC2 k).map (fun b => |sample exC2 k - b|)) 37 = (some (0), 1) := by
    rw [show (37 : ℕ) = 36 + 1 from rfl, ewmState_succ, hd36]
    norm_num [ewmStep, smoothingFactor, hs37, hba37, abs_of_nonneg, abs_of_neg]
  have hd38 : ewmState (smoothingFactor 9) (fun k => (basisAt exC2 k).map (fun b => |sample exC2 k - b|)) 38 = (some (0), 1) := by
    rw [show (38 : ℕ) = 37 + 1 from rfl, ewmState_succ, hd37]
    norm_num [ewmStep, smoothingFactor, hs38, hba38, abs_of_nonneg, abs_of_neg]
  have hd39 : ewmState (smoothingFactor 9) (fun k => (basisAt exC2 k).map (fun b => |sample exC2 k - b|)) 39 = (some (0), 1) := by
    rw [show (39 : ℕ) = 38 + 1 from rfl, ewmState_succ, hd38]
    norm_num [ewmStep, smoothingFactor, hs39, hba39, abs_of_nonneg, abs_of_neg]
  have hd40 : ewmState (smoothingFactor 9) (fun k => (basisAt exC2 k).map (fun b => |sample exC2 k - b|)) 40 = (some (0), 1) := by
    rw [show (40 : ℕ) = 39 + 1 from rfl, ewmState_succ, hd39]
    norm_num [ewmStep, smoothingFactor, hs40, hba40, abs_of_nonneg, abs_of_neg]
  have hd41 : ewmState (smoothingFactor 9) (fun k => (basisAt exC2 k).map (fun b => |sample exC2 k - b|)) 41 = (some (0), 1) := by
    rw [show (41 : ℕ) = 40 + 1 from rfl, ewmState_succ, hd40]
    norm_num [ewmStep, smoothingFactor, hs41, hba41, abs_of_nonneg, abs_of_neg]
  have hd42 : ewmState (smoothingFactor 9) (fun k => (basisAt exC2 k).map (fun b => |sample exC2 k - b|)) 42 = (some (0), 1) := by
    rw [show (42 : ℕ) = 41 + 1 from rfl, ewmState_succ, hd41]
    norm_num [ewmStep, smoothingFactor, hs42, hba42, abs_of_nonneg, abs_of_neg]
  have hd43 : ewmState (smoothingFactor 9) (fun k => (basisAt exC2 k).map (fun b => |sample exC2 k - b|)) 43 = (some (0), 1) := by
    rw [show (43 : ℕ) = 42 + 1 from rfl, ewmState_succ, hd42]
    norm_num [ewmStep, smoothingFactor, hs43, hba43, abs_of_nonneg, abs_of_neg]
  have hd44 : ewmState (smoothingFactor 9) (fun k => (basisAt exC2 k).map (fun b => |sample exC2 k - b|)) 44 = (some ((4 / 25 : ℚ)), 1) := by
    rw [show (44 : ℕ) = 43 + 1 from rfl, ewmState_succ, hd43]
    norm_num [ewmStep, smoothingFactor, hs44, hba44, abs_of_nonneg, abs_of_neg]
  have hd45 : ewmState (smoothingFactor 9) (fun k => (basisAt exC2 k).map (fun b => |sample exC2 k - b|)) 45 = (some ((16 / 3 : ℚ)), 1) := by
    rw [show (45 : ℕ) = 44 + 1 from rfl, ewmState_succ, hd44]
    norm_num [ewmStep, smoothingFactor, hs45, hba45, abs_of_nonneg, abs_of_neg]
  have hd46 : ewmState (smoothingFactor 9) (fun k => (basisAt exC2 k).map (fun b => |sample exC2 k - b|)) 46 = (some ((12800 / 291 : ℚ)), 1) := by
    rw [show (46 : ℕ) = 45 + 1 from rfl, ewmState_succ, hd45]
    norm_num [ewmStep, smoothingFactor, hs46, hba46, abs_of_nonneg, abs_of_neg]
  have hd47 : ewmState (smoothingFactor 9) (fun k => (basisAt exC2 k).map (fun b => |sample exC2 k - b|)) 47 = (some ((2048000 / 4947 : ℚ)), 1) := by
    rw [show (47 : ℕ) = 46 + 1 from rfl, ewmState_succ, hd46]
    norm_num [ewmStep, smoothingFactor, hs47, hba47, abs_of_nonneg, abs_of_neg]
  have hd48 : ewmState (smoothingFactor 9) (fun k => (basisAt exC2 k).map (fun b => |sample exC2 k - b|)) 48 = (some ((655360000 / 153357 : ℚ)), 1) := by
    rw [show (48 : ℕ) = 47 + 1 from rfl, ewmState_succ, hd47]
    norm_num [ewmStep, smoothingFactor, hs48, hba48, abs_of_nonneg, abs_of_neg]
  have hd49 : ewmState (smoothingFactor 9) (fun k => (basisAt exC2 k).map (fun b => |sample exC2 k - b|)) 49 = (some ((52428800000 / 5674209 : ℚ)), 1) := by
    rw [show (49 : ℕ) = 48 + 1 from rfl, ewmState_succ, hd48]
    norm_num [ewmStep, smoothingFactor, hs49, hba49, abs_of_nonneg, abs_of_neg]
  have hda0 : devAt exC2 0 = some (0) := by
    show (ewmState (smoothingFactor 9) (fun k => (basisAt exC2 k).map (fun b => |sample exC2 k - b|)) 0).1 = _
    rw [hd0]
  have hda1 : devAt exC2 1 = some (0) := by
    show (ewmState (smoothingFactor 9) (fun k => (basisAt exC2 k).map (fun b => |sample exC2 k - b|)) 1).1 = _
    rw [hd1]
  have hda2 : devAt exC2 2 = some (0) := by
    show (ewmState (smoothingFactor 9) (fun k => (basisAt exC2 k).map (fun b => |sample exC2 k - b|)) 2).1 = _
    rw [hd2]
  have hda3 : devAt exC2 3 = some (0) := by
    show (ewmState (smoothingFactor 9) (fun k => (basisAt exC2 k).map (fun b => |sample exC2 k - b|)) 3).1 = _
    rw [hd3]
  have hda4 : devAt exC2 4 = some (0) := by
    show (ewmState (smoothingFactor 9) (fun k => (basisAt exC2 k).map (fun b => |sample exC2 k - b|)) 4).1 = _
    rw [hd4]
  have hda5 : devAt exC2 5 = some (0) := by
    show (ewmState (smoothingFactor 9) (fun k => (basisAt exC2 k).map (fun b => |sample exC2 k - b|)) 5).1 = _
    rw [hd5]
  have hda6 : devAt exC2 6 = some (0) := by
    show (ewmState (smoothingFactor 9) (fun k => (basisAt exC2 k).map (fun b => |sample exC2 k - b|)) 6).1 = _
    rw [hd6]
  have hda7 : devAt exC2 7 = some (0) := by
    show (ewmState (smoothingFactor 9) (fun k => (basisAt exC2 k).map (fun b => |sample exC2 k - b|)) 7).1 = _
    rw [hd7]
  have hda8 : devAt exC2 8 = some (0) := by
    show (ewmState (smoothingFactor 9) (fun k => (basisAt exC2 k).map (fun b => |sample exC2 k - b|)) 8).1 = _
    rw [hd8]
  have hda9 : devAt exC2 9 = some (0) := by
    show (ewmState (smoothingFactor 9) (fun k => (basisAt exC2 k).map (fun b => |sample exC2 k - b|)) 9).1 = _
    rw [hd9]
  have hda10 : devAt exC2 10 = some (0) := by
    show (ewmState (smoothingFactor 9) (fun k => (basisAt exC2 k).map (fun b => |sample exC2 k - b|)) 10).1 = _
    rw [hd10]
  have hda11 : devAt exC2 11 = some (0) := by
    show (ewmState (smoothingFactor 9) (fun k => (basisAt exC2 k).map (fun b => |sample exC2 k - b|)) 11).1 = _
    rw [hd11]
  have hda12 : devAt exC2 12 = some (0) := by
    show (ewmState (smoothingFactor 9) (fun k => (basisAt exC2 k).map (fun b => |sample exC2 k - b|)) 12).1 = _
    rw [hd12]
  have hda13 : devAt exC2 13 = some (0) := by
    show (ewmState (smoothingFactor 9) (fun k => (basisAt exC2 k).map (fun b => |sample exC2 k - b|)) 13).1 = _
    rw [hd13]
  have hda14 : devAt exC2 14 = some (0) := by
    show (ewmState (smoothingFactor 9) (fun k => (basisAt exC2 k).map (fun b => |sample exC2 k - b|)) 14).1 = _
    rw [hd14]
  have hda15 : devAt exC2 15 = some (0) := by
    show (ewmState (smoothingFactor 9) (fun k => (basisAt exC2 k).map (fun b => |sample exC2 k - b|)) 15).1 = _
    rw [hd15]
  have hda16 : devAt exC2 16 = some (0) := by
    show (ewmState (smoothingFactor 9) (fun k => (basisAt exC2 k).map (fun b => |sample exC2 k - b|)) 16).1 = _
    rw [hd16]
  have hda17 : devAt exC2 17 = some (0) := by
    show (ewmState (smoothingFactor 9) (fun k => (basisAt exC2 k).map (fun b => |sample exC2 k - b|)) 17).1 = _
    rw [hd17]
  have hda18 : devAt exC2 18 = some (0) := by
    show (ewmState (smoothingFactor 9) (fun k => (basisAt exC2 k).map (fun b => |sample exC2 k - b|)) 18).1 = _
    rw [hd18]
  have hda19 : devAt exC2 19 = some (0) := by
    show (ewmState (smoothingFactor 9) (fun k => (basisAt exC2 k).map (fun b => |sample exC2 k - b|)) 19).1 = _
    rw [hd19]
  have hda20 : devAt exC2 20 = some (0) := by
    show (ewmState (smoothingFactor 9) (fun k => (basisAt exC2 k).map (fun b => |sample exC2 k - b|)) 20).1 = _
    rw [hd20]
  have hda21 : devAt exC2 21 = some (0) := by
    show (ewmState (smoothingFactor 9) (fun k => (basisAt exC2 k).map (fun b => |sample exC2 k - b|)) 21).1 = _
    rw [hd21]
  have hda22 : devAt exC2 22 = some (0) := by
    show (ewmState (smoothingFactor 9) (fun k => (basisAt exC2 k).map (fun b => |sample exC2 k - b|)) 22).1 = _
    rw [hd22]
  have hda23 : devAt exC2 23 = some (0) := by
    show (ewmState (smoothingFactor 9) (fun k => (basisAt exC2 k).map (fun b => |sample exC2 k - b|)) 23).1 = _
    rw [hd23]
  have hda24 : devAt exC2 24 = some (0) := by
    show (ewmState (smoothingFactor 9) (fun k => (basisAt exC2 k).map (fun b => |sample exC2 k - b|)) 24).1 = _
    rw [hd24]
  have hda25 : devAt exC2 25 = some (0) := by
    show (ewmState (smoothingFactor 9) (fun k => (basisAt exC2 k).map (fun b => |sample exC2 k - b|)) 25).1 = _
    rw [hd25]
  have hda26 : devAt exC2 26 = some (0) := by
    show (ewmState (smoothingFactor 9) (fun k => (basisAt exC2 k).map (fun b => |sample exC2 k - b|)) 26).1 = _
    rw [hd26]
  have hda27 : devAt exC2 27 = some (0) := by
    show (ewmState (smoothingFactor 9) (fun k => (basisAt exC2 k).map (fun b => |sample exC2 k - b|)) 27).1 = _
    rw [hd27]
  have hda28 : devAt exC2 28 = some (0) := by
    show (ewmState (smoothingFactor 9) (fun k => (basisAt exC2 k).map (fun b => |sample exC2 k - b|)) 28).1 = _
    rw [hd28]
  have hda29 : devAt exC2 29 = some (0) := by
    show (ewmState (smoothingFactor 9) (fun k => (basisAt exC2 k).map (fun b => |sample exC2 k - b|)) 29).1 = _
    rw [hd29]
  have hda30 : devAt exC2 30 = some (0) := by
    show (ewmState (smoothingFactor 9) (fun k => (basisAt exC2 k).map (fun b => |sample exC2 k - b|)) 30).1 = _
    rw [hd30]
  have hda31 : devAt exC2 31 = some (0) := by
    show (ewmState (smoothingFactor 9) (fun k => (basisAt exC2 k).map (fun b => |sample exC2 k - b|)) 31).1 = _
    rw [hd31]
  have hda32 : devAt exC2 32 = some (0) := by
    show (ewmState (smoothingFactor 9) (fun k => (basisAt exC2 k).map (fun b => |sample exC2 k - b|)) 32).1 = _
    rw [hd32]
  have hda33 : devAt exC2 33 = some (0) := by
    show (ewmState (smoothingFactor 9) (fun k => (basisAt exC2 k).map (fun b => |sample exC2 k - b|)) 33).1 = _
    rw [hd33]
  have hda34 : devAt exC2 34 = some (0) := by
    show (ewmState (smoothingFactor 9) (fun k => (basisAt exC2 k).map (fun b => |sample exC2 k - b|)) 34).1 = _
    rw [hd34]
  have hda35 : devAt exC2 35 = some (0) := by
    show (ewmState (smoothingFactor 9) (fun k => (basisAt exC2 k).map (fun b => |sample exC2 k - b|)) 35).1 = _
    rw [hd35]
  have hda36 : devAt exC2 36 = some (0) := by
    show (ewmState (smoothingFactor 9) (fun k => (basisAt exC2 k).map (fun b => |sample exC2 k - b|)) 36).1 = _
    rw [hd36]
  have hda37 : devAt exC2 37 = some (0) := by
    show (ewmState (smoothingFactor 9) (fun k => (basisAt exC2 k).map (fun b => |sample exC2 k - b|)) 37).1 = _
    rw [hd37]
  have hda38 : devAt exC2 38 = some (0) := by
    show (ewmState (smoothingFactor 9) (fun k => (basisAt exC2 k).map (fun b => |sample exC2 k - b|)) 38).1 = _
    rw [hd38]
  have hda39 : devAt exC2 39 = some (0) := by
    show (ewmState (smoothingFactor 9) (fun k => (basisAt exC2 k).map (fun b => |sample exC2 k - b|)) 39).1 = _
    rw [hd39]
  have hda40 : devAt exC2 40 = some (0) := by
    show (ewmState (smoothingFactor 9) (fun k => (basisAt exC2 k).map (fun b => |sample exC2 k - b|)) 40).1 = _
    rw [hd40]
  have hda41 : devAt exC2 41 = some (0) := by
    show (ewmState (smoothingFactor 9) (fun k => (basisAt exC2 k).map (fun b => |sample exC2 k - b|)) 41).1 = _
    rw [hd41]
  have hda42 : devAt exC2 42 = some (0) := by
    show (ewmState (smoothingFactor 9) (fun k => (basisAt exC2 k).map (fun b => |sample exC2 k - b|)) 42).1 = _
    rw [hd42]
  have hda43 : devAt exC2 43 = some (0) := by
    show (ewmState (smoothingFactor 9) (fun k => (basisAt exC2 k).map (fun b => |sample exC2 k - b|)) 43).1 = _
    rw [hd43]
  have hda44 : devAt exC2 44 = some ((4 / 25 : ℚ)) := by
    show (ewmState (smoothingFactor 9) (fun k => (basisAt exC2 k).map (fun b => |sample exC2 k - b|)) 44).1 = _
    rw [hd44]
  have hda45 : devAt exC2 45 = some ((16 / 3 : ℚ)) := by
    show (ewmState (smoothingFactor 9) (fun k => (basisAt exC2 k).map (fun b => |sample exC2 k - b|)) 45).1 = _
    rw [hd45]
  have hda46 : devAt exC2 46 = some ((12800 / 291 : ℚ)) := by
    show (ewmState (smoothingFactor 9) (fun k => (basisAt exC2 k).map (fun b => |sample exC2 k - b|)) 46).1 = _
    rw [hd46]
  have hda47 : devAt exC2 47 = some ((2048000 / 4947 : ℚ)) := by
    show (ewmState (smoothingFactor 9) (fun k => (basisAt exC2 k).map (fun b => |sample exC2 k - b|)) 47).1 = _
    rw [hd47]
  have hda48 : devAt exC2 48 = some ((655360000 / 153357 : ℚ)) := by
    show (ewmState (smoothingFactor 9) (fun k => (basisAt exC2 k).map (fun b => |sample exC2 k - b|)) 48).1 = _
    rw [hd48]
  have hda49 : devAt exC2 49 = some ((52428800000 / 5674209 : ℚ)) := by
    show (ewmState (smoothingFactor 9) (fun k => (basisAt exC2 k).map (fun b => |sample exC2 k - b|)) 49).1 = _
    rw [hd49]
  have hm0 : momentumAt exC2 0 = none := by
    rw [momentumAt, hba0, hda0]
    norm_num [hs0]
  have hm1 : momentumAt exC2 1 = none := by
    rw [momentumAt, hba1, hda1]
    norm_num [hs1]
  have hm2 : momentumAt exC2 2 = none := by
    rw [momentumAt, hba2, hda2]
    norm_num [hs2]
  have hm3 : momentumAt exC2 3 = none := by
    rw [momentumAt, hba3, hda3]
    norm_num [hs3]
  have hm4 : momentumAt exC2 4 = none := by
    rw [momentumAt, hba4, hda4]
    norm_num [hs4]
  have hm5 : momentumAt exC2 5 = none := by
    rw [momentumAt, hba5, hda5]
    norm_num [hs5]
  have hm6 : momentumAt exC2 6 = none := by
    rw [momentumAt, hba6, hda6]
    norm_num [hs6]
  have hm7 : momentumAt exC2 7 = none := by
    rw [momentumAt, hba7, hda7]
    norm_num [hs7]
  have hm8 : momentumAt exC2 8 = none := by
    rw [momentumAt, hba8, hda8]
    norm_num [hs8]
  have hm9 : momentumAt exC2 9 = none := by
    rw [momentumAt, hba9, hda9]
    norm_num [hs9]
  have hm10 : momentumAt exC2 10 = none := by
    rw [momentumAt, hba10, hda10]
    norm_num [hs10]
  have hm11 : momentumAt exC2 11 = none := by
    rw [momentumAt, hba11, hda11]
    norm_num [hs11]
  have hm12 : momentumAt exC2 12 = none := by
    rw [momentumAt, hba12, hda12]
    norm_num [hs12]
  have hm13 : momentumAt exC2 13 = none := by
    rw [momentumAt, hba13, hda13]
    norm_num [hs13]
  have hm14 : momentumAt exC2 14 = none := by
    rw [momentumAt, hba14, hda14]
    norm_num [hs14]
  have hm15 : momentumAt exC2 15 = none := by
    rw [momentumAt, hba15, hda15]
    norm_num [hs15]
  have hm16 : momentumAt exC2 16 = none := by
    rw [momentumAt, hba16, hda16]
    norm_num [hs16]
  have hm17 : momentumAt exC2 17 = none := by
    rw [momentumAt, hba17, hda17]
    norm_num [hs17]
  have hm18 : momentumAt exC2 18 = none := by
    rw [momentumAt, hba18, hda18]
    norm_num [hs18]
  have hm19 : momentumAt exC2 19 = none := by
    rw [momentumAt, hba19, hda19]
    norm_num [hs19]
  have hm20 : momentumAt exC2 20 = none := by
    rw [momentumAt, hba20, hda20]
    norm_num [hs20]
  have hm21 : momentumAt exC2 21 = none := by
    rw [momentumAt, hba21, hda21]
    norm_num [hs21]
  have hm22 : momentumAt exC2 22 = none := by
    rw [momentumAt, hba22, hda22]
    norm_num [hs22]
  have hm23 : momentumAt exC2 23 = none := by
    rw [momentumAt, hba23, hda23]
    norm_num [hs23]
  have hm24 : momentumAt exC2 24 = none := by
    rw [momentumAt, hba24, hda24]
    norm_num [hs24]
  have hm25 : momentumAt exC2 25 = none := by
    rw [momentumAt, hba25, hda25]
    norm_num [hs25]
  have hm26 : momentumAt exC2 26 = none := by
    rw [momentumAt, hba26, hda26]
    norm_num [hs26]
  have hm27 : momentumAt exC2 27 = none := by
    rw [momentumAt, hba27, hda27]
    norm_num [hs27]
  have hm28 : momentumAt exC2 28 = none := by
    rw [momentumAt, hba28, hda28]
    norm_num [hs28]
  have hm29 : momentumAt exC2 29 = none := by
    rw [momentumAt, hba29, hda29]
    norm_num [hs29]
  have hm30 : momentumAt exC2 30 = none := by
    rw [momentumAt, hba30, hda30]
    norm_num [hs30]
  have hm31 : momentumAt exC2 31 = none := by
    rw [momentumAt, hba31, hda31]
    norm_num [hs31]
  have hm32 : momentumAt exC2 32 = none := by
    rw [momentumAt, hba32, hda32]
    norm_num [hs32]
  have hm33 : momentumAt exC2 33 = none := by
    rw [momentumAt, hba33, hda33]
    norm_num [hs33]
  have hm34 : momentumAt exC2 34 = none := by
    rw [momentumAt, hba34, hda34]
    norm_num [hs34]
  have hm35 : momentumAt exC2 35 = none := by
    rw [momentumAt, hba35, hda35]
    norm_num [hs35]
  have hm36 : momentumAt exC2 36 = none := by
    rw [momentumAt, hba36, hda36]
    norm_num [hs36]
  have hm37 : momentumAt exC2 37 = none := by
    rw [momentumAt, hba37, hda37]
    norm_num [hs37]
  have hm38 : momentumAt exC2 38 = none := by
    rw [momentumAt, hba38, hda38]
    norm_num [hs38]
  have hm39 : momentumAt exC2 39 = none := by
    rw [momentumAt, hba39, hda39]
    norm_num [hs39]
  have hm40 : momentumAt exC2 40 = none := by
    rw [momentumAt, hba40, hda40]
    norm_num [hs40]
  have hm41 : momentumAt exC2 41 = none := by
    rw [momentumAt, hba41, hda41]
    norm_num [hs41]
  have hm42 : momentumAt exC2 42 = none := by
    rw [momentumAt, hba42, hda42]
    norm_num [hs42]
  have hm43 : momentumAt exC2 43 = none := by
    rw [momentumAt, hba43, hda43]
    norm_num [hs43]
  have hm44 : momentumAt exC2 44 = some ((1000 / 3 : ℚ)) := by
    rw [momentumAt, hba44, hda44]
    norm_num [hs44]
  have hm45 : momentumAt exC2 45 = some ((-976 / 3 : ℚ)) := by
    rw [momentumAt, hba45, hda45]
    norm_num [hs45]
  have hm46 : momentumAt exC2 46 = some ((-301 : ℚ)) := by
    rw [momentumAt, hba46, hda46]
    norm_num [hs46]
  have hm47 : momentumAt exC2 47 = some ((-305 : ℚ)) := by
    rw [momentumAt, hba47, hda47]
    norm_num [hs47]
  have hm48 : momentumAt exC2 48 = some ((615 / 2 : ℚ)) := by
    rw [momentumAt, hba48, hda48]
    norm_num [hs48]
  have hm49 : momentumAt exC2 49 = some ((-210 : ℚ)) := by
    rw [momentumAt, hba49, hda49]
    norm_num [hs49]
  have hw0 : ewmState (smoothingFactor 12) (momentumAt exC2) 0 = (none, 1) := by
    norm_num [ewmState, ewmStep, smoothingFactor, hm0]
  have hw1 : ewmState (smoothingFactor 12) (momentumAt exC2) 1 = (none, 1) := by
    rw [show (1 : ℕ) = 0 + 1 from rfl, ewmState_succ, hw0]
    norm_num [ewmStep, smoothingFactor, hm1]
  have hw2 : ewmState (smoothingFactor 12) (momentumAt exC2) 2 = (none, 1) := by
    rw [show (2 : ℕ) = 1 + 1 from rfl, ewmState_succ, hw1]
    norm_num [ewmStep, smoothingFactor, hm2]
  have hw3 : ewmState (smoothingFactor 12) (momentumAt exC2) 3 = (none, 1) := by
    rw [show (3 : ℕ) = 2 + 1 from rfl, ewmState_succ, hw2]
    norm_num [ewmStep, smoothingFactor, hm3]
  have hw4 : ewmState (smoothingFactor 12) (momentumAt exC2) 4 = (none, 1) := by
    rw [show (4 : ℕ) = 3 + 1 from rfl, ewmState_succ, hw3]
    norm_num [ewmStep, smoothingFactor, hm4]
  have hw5 : ewmState (smoothingFactor 12) (momentumAt exC2) 5 = (none, 1) := by
    rw [show (5 : ℕ) = 4 + 1 from rfl, ewmState_succ, hw4]
    norm_num [ewmStep, smoothingFactor, hm5]
  have hw6 : ewmState (smoothingFactor 12) (momentumAt exC2) 6 = (none, 1) := by
    rw [show (6 : ℕ) = 5 + 1 from rfl, ewmState_succ, hw5]
    norm_num [ewmStep, smoothingFactor, hm6]
  have hw7 : ewmState (smoothingFactor 12) (momentumAt exC2) 7 = (none, 1) := by
    rw [show (7 : ℕ) = 6 + 1 from rfl, ewmState_succ, hw6]
    norm_num [ewmStep, smoothingFactor, hm7]
  have hw8 : ewmState (smoothingFactor 12) (momentumAt exC2) 8 = (none, 1) := by
    rw [show (8 : ℕ) = 7 + 1 from rfl, ewmState_succ, hw7]
    norm_num [ewmStep, smoothingFactor, hm8]
  have hw9 : ewmState (smoothingFactor 12) (momentumAt exC2) 9 = (none, 1) := by
    rw [show (9 : ℕ) = 8 + 1 from rfl, ewmState_succ, hw8]
    norm_num [ewmStep, smoothingFactor, hm9]
  have hw10 : ewmState (smoothingFactor 12) (momentumAt exC2) 10 = (none, 1) := by
    rw [show (10 : ℕ) = 9 + 1 from rfl, ewmState_succ, hw9]
    norm_num [ewmStep, smoothingFactor, hm10]
  have hw11 : ewmState (smoothingFactor 12) (momentumAt exC2) 11 = (none, 1) := by
    rw [show (11 : ℕ) = 10 + 1 from rfl, ewmState_succ, hw10]
    norm_num [ewmStep, smoothingFactor, hm11]
  have hw12 : ewmState (smoothingFactor 12) (momentumAt exC2) 12 = (none, 1) := by
    rw [show (12 : ℕ) = 11 + 1 from rfl, ewmState_succ, hw11]
    norm_num [ewmStep, smoothingFactor, hm12]
  have hw13 : ewmState (smoothingFactor 12) (momentumAt exC2) 13 = (none, 1) := by
    rw [show (13 : ℕ) = 12 + 1 from rfl, ewmState_succ, hw12]
    norm_num [ewmStep, smoothingFactor, hm13]
  have hw14 : ewmState (smoothingFactor 12) (momentumAt exC2) 14 = (none, 1) := by
    rw [show (14 : ℕ) = 13 + 1 from rfl, ewmState_succ, hw13]
    norm_num [ewmStep, smoothingFactor, hm14]
  have hw15 : ewmState (smoothingFactor 12) (momentumAt exC2) 15 = (none, 1) := by
    rw [show (15 : ℕ) = 14 + 1 from rfl, ewmState_succ, hw14]
    norm_num [ewmStep, smoothingFactor, hm15]
  have hw16 : ewmState (smoothingFactor 12) (momentumAt exC2) 16 = (none, 1) := by
    rw [show (16 : ℕ) = 15 + 1 from rfl, ewmState_succ, hw15]
    norm_num [ewmStep, smoothingFactor, hm16]
  have hw17 : ewmState (smoothingFactor 12) (momentumAt exC2) 17 = (none, 1) := by
    rw [show (17 : ℕ) = 16 + 1 from rfl, ewmState_succ, hw16]
    norm_num [ewmStep, smoothingFactor, hm17]
  have hw18 : ewmState (smoothingFactor 12) (momentumAt exC2) 18 = (none, 1) := by
    rw [show (18 : ℕ) = 17 + 1 from rfl, ewmState_succ, hw17]
    norm_num [ewmStep, smoothingFactor, hm18]
  have hw19 : ewmState (smoothingFactor 12) (momentumAt exC2) 19 = (none, 1) := by
    rw [show (19 : ℕ) = 18 + 1 from rfl, ewmState_succ, hw18]
    norm_num [ewmStep, smoothingFactor, hm19]
  have hw20 : ewmState (smoothingFactor 12) (momentumAt exC2) 20 = (none, 1) := by
    rw [show (20 : ℕ) = 19 + 1 from rfl, ewmState_succ, hw19]
    norm_num [ewmStep, smoothingFactor, hm20]
  have hw21 : ewmState (smoothingFactor 12) (momentumAt exC2) 21 = (none, 1) := by
    rw [show (21 : ℕ) = 20 + 1 from rfl, ewmState_succ, hw20]
    norm_num [ewmStep, smoothingFactor, hm21]
  have hw22 : ewmState (smoothingFactor 12) (momentumAt exC2) 22 = (none, 1) := by
    rw [show (22 : ℕ) = 21 + 1 from rfl, ewmState_succ, hw21]
    norm_num [ewmStep, smoothingFactor, hm22]
  have hw23 : ewmState (smoothingFactor 12) (momentumAt exC2) 23 = (none, 1) := by
    rw [show (23 : ℕ) = 22 + 1 from rfl, ewmState_succ, hw22]
    norm_num [ewmStep, smoothingFactor, hm23]
  have hw24 : ewmState (smoothingFactor 12) (momentumAt exC2) 24 = (none, 1) := by
    rw [show (24 : ℕ) = 23 + 1 from rfl, ewmState_succ, hw23]
    norm_num [ewmStep, smoothingFactor, hm24]
  have hw25 : ewmState (smoothingFactor 12) (momentumAt exC2) 25 = (none, 1) := by
    rw [show (25 : ℕ) = 24 + 1 from rfl, ewmState_succ, hw24]
    norm_num [ewmStep, smoothingFactor, hm25]
  have hw26 : ewmState (smoothingFactor 12) (momentumAt exC2) 26 = (none, 1) := by
    rw [show (26 : ℕ) = 25 + 1 from rfl, ewmState_succ, hw25]
    norm_num [ewmStep, smoothingFactor, hm26]
  have hw27 : ewmState (smoothingFactor 12) (momentumAt exC2) 27 = (none, 1) := by
    rw [show (27 : ℕ) = 26 + 1 from rfl, ewmState_succ, hw26]
    norm_num [ewmStep, smoothingFactor, hm27]
  have hw28 : ewmState (smoothingFactor 12) (momentumAt exC2) 28 = (none, 1) := by
    rw [show (28 : ℕ) = 27 + 1 from rfl, ewmState_succ, hw27]
    norm_num [ewmStep, smoothingFactor, hm28]
  have hw29 : ewmState (smoothingFactor 12) (momentumAt exC2) 29 = (none, 1) := by
    rw [show (29 : ℕ) = 28 + 1 from rfl, ewmState_succ, hw28]
    norm_num [ewmStep, smoothingFactor, hm29]
  have hw30 : ewmState (smoothingFactor 12) (momentumAt exC2) 30 = (none, 1) := by
    rw [show (30 : ℕ) = 29 + 1 from rfl, ewmState_succ, hw29]
    norm_num [ewmStep, smoothingFactor, hm30]
  have hw31 : ewmState (smoothingFactor 12) (momentumAt exC2) 31 = (none, 1) := by
    rw [show (31 : ℕ) = 30 + 1 from rfl, ewmState_succ, hw30]
    norm_num [ewmStep, smoothingFactor, hm31]
  have hw32 : ewmState (smoothingFactor 12) (momentumAt exC2) 32 = (none, 1) := by
    rw [show (32 : ℕ) = 31 + 1 from rfl, ewmState_succ, hw31]
    norm_num [ewmStep, smoothingFactor, hm32]
  have hw33 : ewmState (smoothingFactor 12) (momentumAt exC2) 33 = (none, 1) := by
    rw [show (33 : ℕ) = 32 + 1 from rfl, ewmState_succ, hw32]
    norm_num [ewmStep, smoothingFactor, hm33]
  have hw34 : ewmState (smoothingFactor 12) (momentumAt exC2) 34 = (none, 1) := by
    rw [show (34 : ℕ) = 33 + 1 from rfl, ewmState_succ, hw33]
    norm_num [ewmStep, smoothingFactor, hm34]
  have hw35 : ewmState (smoothingFactor 12) (momentumAt exC2) 35 = (none, 1) := by
    rw [show (35 : ℕ) = 34 + 1 from rfl, ewmState_succ, hw34]
    norm_num [ewmStep, smoothingFactor, hm35]
  have hw36 : ewmState (smoothingFactor 12) (momentumAt exC2) 36 = (none, 1) := by
    rw [show (36 : ℕ) = 35 + 1 from rfl, ewmState_succ, hw35]
    norm_num [ewmStep, smoothingFactor, hm36]
  have hw37 : ewmState (smoothingFactor 12) (momentumAt exC2) 37 = (none, 1) := by
    rw [show (37 : ℕ) = 36 + 1 from rfl, ewmState_succ, hw36]
    norm_num [ewmStep, smoothingFactor, hm37]
  have hw38 : ewmState (smoothingFactor 12) (momentumAt exC2) 38 = (none, 1) := by
    rw [show (38 : ℕ) = 37 + 1 from rfl, ewmState_succ, hw37]
    norm_num [ewmStep, smoothingFactor, hm38]
  have hw39 : ewmState (smoothingFactor 12) (momentumAt exC2) 39 = (none, 1) := by
    rw [show (39 : ℕ) = 38 + 1 from rfl, ewmState_succ, hw38]
    norm_num [ewmStep, smoothingFactor, hm39]
  have hw40 : ewmState (smoothingFactor 12) (momentumAt exC2) 40 = (none, 1) := by
    rw [show (40 : ℕ) = 39 + 1 from rfl, ewmState_succ, hw39]
    norm_num [ewmStep, smoothingFactor, hm40]
  have hw41 : ewmState (smoothingFactor 12) (momentumAt exC2) 41 = (none, 1) := by
    rw [show (41 : ℕ) = 40 + 1 from rfl, ewmState_succ, hw40]
    norm_num [ewmStep, smoothingFactor, hm41]
  have hw42 : ewmState (smoothingFactor 12) (momentumAt exC2) 42 = (none, 1) := by
    rw [show (42 : ℕ) = 41 + 1 from rfl, ewmState_succ, hw41]
    norm_num [ewmStep, smoothingFactor, hm42]
  have hw43 : ewmState (smoothingFactor 12) (momentumAt exC2) 43 = (none, 1) := by
    rw [show (43 : ℕ) = 42 + 1 from rfl, ewmState_succ, hw42]
    norm_num [ewmStep, smoothingFactor, hm43]
  have hw44 : ewmState (smoothingFactor 12) (momentumAt exC2) 44 = (some ((1000 / 3 : ℚ)), 1) := by
    rw [show (44 : ℕ) = 43 + 1 from rfl, ewmState_succ, hw43]
    norm_num [ewmStep, smoothingFactor, hm44]
  have hw45 : ewmState (smoothingFactor 12) (momentumAt exC2) 45 = (some (232), 1) := by
    rw [show (45 : ℕ) = 44 + 1 from rfl, ewmState_succ, hw44]
    norm_num [ewmStep, smoothingFactor, hm45]
  have hw46 : ewmState (smoothingFactor 12) (momentumAt exC2) 46 = (some (150), 1) := by
    rw [show (46 : ℕ) = 45 + 1 from rfl, ewmState_succ, hw45]
    norm_num [ewmStep, smoothingFactor, hm46]
  have hw47 : ewmState (smoothingFactor 12) (momentumAt exC2) 47 = (some (80), 1) := by
    rw [show (47 : ℕ) = 46 + 1 from rfl, ewmState_succ, hw46]
    norm_num [ewmStep, smoothingFactor, hm47]
  have hw48 : ewmState (smoothingFactor 12) (momentumAt exC2) 48 = (some (115), 1) := by
    rw [show (48 : ℕ) = 47 + 1 from rfl, ewmState_succ, hw47]
    norm_num [ewmStep, smoothingFactor, hm48]
  have hw49 : ewmState (smoothingFactor 12) (momentumAt exC2) 49 = (some (65), 1) := by
    rw [show (49 : ℕ) = 48 + 1 from rfl, ewmState_succ, hw48]
    norm_num [ewmStep, smoothingFactor, hm49]
  have hwa46 : wave1At exC2 46 = some (150) := by
    show (ewmState (smoothingFactor 12) (momentumAt exC2) 46).1 = _
    rw [hw46]
  have hwa47 : wave1At exC2 47 = some (80) := by
    show (ewmState (smoothingFactor 12) (momentumAt exC2) 47).1 = _
    rw [hw47]
  have hwa48 : wave1At exC2 48 = some (115) := by
    show (ewmState (smoothingFactor 12) (momentumAt exC2) 48).1 = _
    rw [hw48]
  have hwa49 : wave1At exC2 49 = some (65) := by
    show (ewmState (smoothingFactor 12) (momentumAt exC2) 49).1 = _
    rw [hw49]
  have hw2_48 : wave2At exC2 48 = some (115) := by
    rw [wave2At_def, rollingMean3 (wave1At exC2) 48 (by omega)]
    norm_num [hwa46, hwa47, hwa48]
  have hw2_49 : wave2At exC2 49 = some ((260 / 3 : ℚ)) := by
    rw [wave2At_def, rollingMean3 (wave1At exC2) 49 (by omega)]
    norm_num [hwa47, hwa48, hwa49]
  have hsig : shortAt exC2 49 = false := by
    have h := short_iff_at_succ exC2 48
    norm_num [hwa48, hw2_48, hwa49, hw2_49] at h
    exact h
  refine ⟨?_, ?_, hwa48, hw2_48, hwa49, hw2_49⟩
  · rw [generate_signals_ok theEngine (seriesFrame exC2)
        (by simp [seriesFrame_len, show exC2.length = 50 from rfl])]
    rw [hlc3_series, seriesFrame_len, show exC2.length = 50 from rfl]
    norm_num [hsig, Except.map]
  · rw [hwa48, hw2_48, hwa49, hw2_49]
    norm_num

set_option maxHeartbeats 4000000 in
/-- Counterexample for C7 as frozen: `exC7` is strictly increasing throughout,
yet at the last sample wave1 has turned down inside the overbought zone
(prev1 > prev2, cur1 < cur2, both waves ≥ 60), a bearish cross fires and the
classifier emits SELL. -/
theorem c7_counterexample :
    (∀ i, i < 49 → sample exC7 i < sample exC7 (i + 1)) ∧
    (theEngine.generate_signals (seriesFrame exC7)).map (fun pr => pr.2.short_signal)
      = Except.ok true := by
  have hs0 : sample exC7 0 = 100 := rfl
  have hs1 : sample exC7 1 = 101 := rfl
  have hs2 : sample exC7 2 = (537 / 5 : ℚ) := rfl
  have hs3 : sample exC7 3 = (3981 / 25 : ℚ) := rfl
  have hs4 : sample exC7 4 = (14349 / 25 : ℚ) := rfl
  have hs5 : sample exC7 5 = (97293 / 25 : ℚ) := rfl
  have hs6 : sample exC7 6 = (152169 / 5 : ℚ) := rfl
  have hs7 : sample exC7 7 = (6069261 / 25 : ℚ) := rfl
  have hs8 : sample exC7 8 = (48536589 / 25 : ℚ) := rfl
  have hs9 : sample exC7 9 = (388275213 / 25 : ℚ) := rfl
  have hs10 : sample exC7 10 = (621236841 / 5 : ℚ) := rfl
  have hs11 : sample exC7 11 = (24849456141 / 25 : ℚ) := rfl
  have hs12 : sample exC7 12 = (198795631629 / 25 : ℚ) := rfl
  have hs13 : sample exC7 13 = (1590365035533 / 25 : ℚ) := rfl
  have hs14 : sample exC7 14 = (2544584053353 / 5 : ℚ) := rfl
  have hs15 : sample exC7 15 = (101783362116621 / 25 : ℚ) := rfl
  have hs16 : sample exC7 16 = (814266896915469 / 25 : ℚ) := rfl
  have hs17 : sample exC7 17 = (6514135175306253 / 25 : ℚ) := rfl
  have hs18 : sample exC7 18 = 2084523256097301 := rfl
  have hs19 : sample exC7 19 = (416904651219442701 / 25 : ℚ) := rfl
  have hs20 : sample exC7 20 = (3335237209755524109 / 25 : ℚ) := rfl
  have hs21 : sample exC7 21 = (26681897678044175373 / 25 : ℚ) := rfl
  have hs22 : sample exC7 22 = (42691036284870677097 / 5 : ℚ) := rfl
  have hs23 : sample exC7 23 = (1707641451394827066381 / 25 : ℚ) := rfl
  have hs24 : sample exC7 24 = (13661131611158616513549 / 25 : ℚ) := rfl
  have hs25 : sample exC7 25 = (109289052889268932090893 / 25 : ℚ) := rfl
  have hs26 : sample exC7 26 = (174862484622830291341929 / 5 : ℚ) := rfl
  have hs27 : sample exC7 27 = (6994499384913211653659661 / 25 : ℚ) := rfl
  have hs28 : sample exC7 28 = (55955995079305693229259789 / 25 : ℚ) := rfl
  have hs29 : sample exC7 29 = (447647960634445545834060813 / 25 : ℚ) := rfl
  have hs30 : sample exC7 30 = (716236737015112873334493801 / 5 : ℚ) := rfl
  have hs31 : sample exC7 31 = (28649469480604514933379734541 / 25 : ℚ) := rfl
  have hs32 : sample exC7 32 = (229195755844836119467037858829 / 25 : ℚ) := rfl
  have hs33 : sample exC7 33 = (1833566046758688955736302853133 / 25 : ℚ) := rfl
  have hs34 : sample exC7 34 = (2933705674813902329178084561513 / 5 : ℚ) := rfl
  have hs35 : sample exC7 35 = (117348226992556093167123382443021 / 25 : ℚ) := rfl
  have hs36 : sample exC7 36 = (938785815940448745336987059526669 / 25 : ℚ) := rfl
  have hs37 : sample exC7 37 = (7510286527523589962695896476195853 / 25 : ℚ) := rfl
  have hs38 : sample exC7 38 = 2403291688807548788062686872381973 := rfl
  have hs39 : sample exC7 39 = (480658337761509757612537374476377101 / 25 : ℚ) := rfl
  have hs40 : sample exC7 40 = (3845266702092078060900298995810999309 / 25 : ℚ) := rfl
  have hs41 : sample exC7 41 = (30762133616736624487202391966487976973 / 25 : ℚ) := rfl
  have hs42 : sample exC7 42 = (49219413786778599179523827146380759657 / 5 : ℚ) := rfl
  have hs43 : sample exC7 43 = (1968776551471143967180953085855230368781 / 25 : ℚ) := rfl
  have hs44 : sample exC7 44 = (15750212411769151737447624686841842932749 / 25 : ℚ) := rfl
  have hs45 : sample exC7 45 = (126001699294153213899580997494734743444493 / 25 : ℚ) := rfl
  have hs46 : sample exC7 46 = (201602718870645142239329595991575589507689 / 5 : ℚ) := rfl
  have hs47 : sample exC7 47 = (21130951644589842686566768765042922900200461 / 25 : ℚ) := rfl
  have hs48 : sample exC7 48 = (422544365218141059234209697672713430007847949 / 25 : ℚ) := rfl
  have hs49 : sample exC7 49 = (22084532504847994209358797754083075438567087741 / 1225 : ℚ) := rfl
  have hb0 : ewmState (smoothingFactor 9) (fun j => some (sample exC7 j)) 0 = (some (100), 1) := by
    norm_num [ewmState, ewmStep, smoothingFactor, hs0]
  have hb1 : ewmState (smoothingFactor 9) (fun j => some (sample exC7 j)) 1 = (some ((501 / 5 : ℚ)), 1) := by
    rw [show (1 : ℕ) = 0 + 1 from rfl, ewmState_succ, hb0]
    norm_num [ewmStep, smoothingFactor, hs1]
  have hb2 : ewmState (smoothingFactor 9) (fun j => some (sample exC7 j)) 2 = (some ((2541 / 25 : ℚ)), 1) := by
    rw [show (2 : ℕ) = 1 + 1 from rfl, ewmState_succ, hb1]
    norm_num [ewmStep, smoothingFactor, hs2]
  have hb3 : ewmState (smoothingFactor 9) (fun j => some (sample exC7 j)) 3 = (some ((2829 / 25 : ℚ)), 1) := by
    rw [show (3 : ℕ) = 2 + 1 from rfl, ewmState_succ, hb2]
    norm_num [ewmStep, smoothingFactor, hs3]
  have hb4 : ewmState (smoothingFactor 9) (fun j => some (sample exC7 j)) 4 = (some ((5133 / 25 : ℚ)), 1) := by
    rw [show (4 : ℕ) = 3 + 1 from rfl, ewmState_succ, hb3]
    norm_num [ewmStep, smoothingFactor, hs4]
  have hb5 : ewmState (smoothingFactor 9) (fun j => some (sample exC7 j)) 5 = (some ((4713 / 5 : ℚ)), 1) := by
    rw [show (5 : ℕ) = 4 + 1 from rfl, ewmState_succ, hb4]
    norm_num [ewmStep, smoothingFactor, hs5]
  have hb6 : ewmState (smoothingFactor 9) (fun j => some (sample exC7 j)) 6 = (some ((171021 / 25 : ℚ)), 1) := by
    rw [show (6 : ℕ) = 5 + 1 from rfl, ewmState_succ, hb5]
    norm_num [ewmStep, smoothingFactor, hs6]
  have hb7 : ewmState (smoothingFactor 9) (fun j => some (sample exC7 j)) 7 = (some ((1350669 / 25 : ℚ)), 1) := by
    rw [show (7 : ℕ) = 6 + 1 from rfl, ewmState_succ, hb6]
    norm_num [ewmStep, smoothingFactor, hs7]
  have hb8 : ewmState (smoothingFactor 9) (fun j => some (sample exC7 j)) 8 = (some ((10787853 / 25 : ℚ)), 1) := by
    rw [show (8 : ℕ) = 7 + 1 from rfl, ewmState_succ, hb7]
    norm_num [ewmStep, smoothingFactor, hs8]
  have hb9 : ewmState (smoothingFactor 9) (fun j => some (sample exC7 j)) 9 = (some (3451413), 1) := by
    rw [show (9 : ℕ) = 8 + 1 from rfl, ewmState_succ, hb8]
    norm_num [ewmStep, smoothingFactor, hs9]
  have hb10 : ewmState (smoothingFactor 9) (fun j => some (sample exC7 j)) 10 = (some ((690265101 / 25 : ℚ)), 1) := by
    rw [show (10 : ℕ) = 9 + 1 from rfl, ewmState_succ, hb9]
    norm_num [ewmStep, smoothingFactor, hs10]
  have hb11 : ewmState (smoothingFactor 9) (fun j => some (sample exC7 j)) 11 = (some ((5522103309 / 25 : ℚ)), 1) := by
    rw [show (11 : ℕ) = 10 + 1 from rfl, ewmState_succ, hb10]
    norm_num [ewmStep, smoothingFactor, hs11]
  have hb12 : ewmState (smoothingFactor 9) (fun j => some (sample exC7 j)) 12 = (some ((44176808973 / 25 : ℚ)), 1) := by
    rw [show (12 : ℕ) = 11 + 1 from rfl, ewmState_succ, hb11]
    norm_num [ewmStep, smoothingFactor, hs12]
  have hb13 : ewmState (smoothingFactor 9) (fun j => some (sample exC7 j)) 13 = (some ((70682890857 / 5 : ℚ)), 1) := by
    rw [show (13 : ℕ) = 12 + 1 from rfl, ewmState_succ, hb12]
    norm_num [ewmStep, smoothingFactor, hs13]
  have hb14 : ewmState (smoothingFactor 9) (fun j => some (sample exC7 j)) 14 = (some ((2827315616781 / 25 : ℚ)), 1) := by
    rw [show (14 : ℕ) = 13 + 1 from rfl, ewmState_succ, hb13]
    norm_num [ewmStep, smoothingFactor, hs14]
  have hb15 : ewmState (smoothingFactor 9) (fun j => some (sample exC7 j)) 15 = (some ((22618524916749 / 25 : ℚ)), 1) := by
    rw [show (15 : ℕ) = 14 + 1 from rfl, ewmState_succ, hb14]
    norm_num [ewmStep, smoothingFactor, hs15]
  have hb16 : ewmState (smoothingFactor 9) (fun j => some (sample exC7 j)) 16 = (some ((180948199316493 / 25 : ℚ)), 1) := by
    rw [show (16 : ℕ) = 15 + 1 from rfl, ewmState_succ, hb15]
    norm_num [ewmStep, smoothingFactor, hs16]
  have hb17 : ewmState (smoothingFactor 9) (fun j => some (sample exC7 j)) 17 = (some ((289517118902889 / 5 : ℚ)), 1) := by
    rw [show (17 : ℕ) = 16 + 1 from rfl, ewmState_succ, hb16]
    norm_num [ewmStep, smoothingFactor, hs17]
  have hb18 : ewmState (smoothingFactor 9) (fun j => some (sample exC7 j)) 18 = (some ((11580684756098061 / 25 : ℚ)), 1) := by
    rw [show (18 : ℕ) = 17 + 1 from rfl, ewmState_succ, hb17]
    norm_num [ewmStep, smoothingFactor, hs18]
  have hb19 : ewmState (smoothingFactor 9) (fun j => some (sample exC7 j)) 19 = (some ((92645478048766989 / 25 : ℚ)), 1) := by
    rw [show (19 : ℕ) = 18 + 1 from rfl, ewmState_succ, hb18]
    norm_num [ewmStep, smoothingFactor, hs19]
  have hb20 : ewmState (smoothingFactor 9) (fun j => some (sample exC7 j)) 20 = (some ((741163824390118413 / 25 : ℚ)), 1) := by
    rw [show (20 : ℕ) = 19 + 1 from rfl, ewmState_succ, hb19]
    norm_num [ewmStep, smoothingFactor, hs20]
  have hb21 : ewmState (smoothingFactor 9) (fun j => some (sample exC7 j)) 21 = (some ((1185862119024185961 / 5 : ℚ)), 1) := by
    rw [show (21 : ℕ) = 20 + 1 from rfl, ewmState_succ, hb20]
    norm_num [ewmStep, smoothingFactor, hs21]
  have hb22 : ewmState (smoothingFactor 9) (fun j => some (sample exC7 j)) 22 = (some ((47434484760967420941 / 25 : ℚ)), 1) := by
    rw [show (22 : ℕ) = 21 + 1 from rfl, ewmState_succ, hb21]
    norm_num [ewmStep, smoothingFactor, hs22]
  have hb23 : ewmState (smoothingFactor 9) (fun j => some (sample exC7 j)) 23 = (some ((379475878087739350029 / 25 : ℚ)), 1) := by
    rw [show (23 : ℕ) = 22 + 1 from rfl, ewmState_succ, hb22]
    norm_num [ewmStep, smoothingFactor, hs23]
  have hb24 : ewmState (smoothingFactor 9) (fun j => some (sample exC7 j)) 24 = (some ((3035807024701914782733 / 25 : ℚ)), 1) := by
    rw [show (24 : ℕ) = 23 + 1 from rfl, ewmState_succ, hb23]
    norm_num [ewmStep, smoothingFactor, hs24]
  have hb25 : ewmState (smoothingFactor 9) (fun j => some (sample exC7 j)) 25 = (some ((4857291239523063648873 / 5 : ℚ)), 1) := by
    rw [show (25 : ℕ) = 24 + 1 from rfl, ewmState_succ, hb24]
    norm_num [ewmStep, smoothingFactor, hs25]
  have hb26 : ewmState (smoothingFactor 9) (fun j => some (sample exC7 j)) 26 = (some ((194291649580922545937421 / 25 : ℚ)), 1) := by
    rw [show (26 : ℕ) = 25 + 1 from rfl, ewmState_succ, hb25]
    norm_num [ewmStep, smoothingFactor, hs26]
  have hb27 : ewmState (smoothingFactor 9) (fun j => some (sample exC7 j)) 27 = (some ((1554333196647380367481869 / 25 : ℚ)), 1) := by
    rw [show (27 : ℕ) = 26 + 1 from rfl, ewmState_succ, hb26]
    norm_num [ewmStep, smoothingFactor, hs27]
  have hb28 : ewmState (smoothingFactor 9) (fun j => some (sample exC7 j)) 28 = (some ((12434665573179042939837453 / 25 : ℚ)), 1) := by
    rw [show (28 : ℕ) = 27 + 1 from rfl, ewmState_succ, hb27]
    norm_num [ewmStep, smoothingFactor, hs28]
  have hb29 : ewmState (smoothingFactor 9) (fun j => some (sample exC7 j)) 29 = (some (3979092983417293740747285), 1) := by
    rw [show (29 : ℕ) = 28 + 1 from rfl, ewmState_succ, hb28]
    norm_num [ewmStep, smoothingFactor, hs29]
  have hb30 : ewmState (smoothingFactor 9) (fun j => some (sample exC7 j)) 30 = (some ((795818596683458748149439501 / 25 : ℚ)), 1) := by
    rw [show (30 : ℕ) = 29 + 1 from rfl, ewmState_succ, hb29]
    norm_num [ewmStep, smoothingFactor, hs30]
  have hb31 : ewmState (smoothingFactor 9) (fun j => some (sample exC7 j)) 31 = (some ((6366548773467669985195498509 / 25 : ℚ)), 1) := by
    rw [show (31 : ℕ) = 30 + 1 from rfl, ewmState_succ, hb30]
    norm_num [ewmStep, smoothingFactor, hs31]
  have hb32 : ewmState (smoothingFactor 9) (fun j => some (sample exC7 j)) 32 = (some ((50932390187741359881563970573 / 25 : ℚ)), 1) := by
    rw [show (32 : ℕ) = 31 + 1 from rfl, ewmState_succ, hb31]
    norm_num [ewmStep, smoothingFactor, hs32]
  have hb33 : ewmState (smoothingFactor 9) (fun j => some (sample exC7 j)) 33 = (some ((81491824300386175810502349417 / 5 : ℚ)), 1) := by
    rw [show (33 : ℕ) = 32 + 1 from rfl, ewmState_succ, hb32]
    norm_num [ewmStep, smoothingFactor, hs33]
  have hb34 : ewmState (smoothingFactor 9) (fun j => some (sample exC7 j)) 34 = (some ((3259672972015447032420093959181 / 25 : ℚ)), 1) := by
    rw [show (34 : ℕ) = 33 + 1 from rfl, ewmState_succ, hb33]
    norm_num [ewmStep, smoothingFactor, hs34]
  have hb35 : ewmState (smoothingFactor 9) (fun j => some (sample exC7 j)) 35 = (some ((26077383776123576259360751655949 / 25 : ℚ)), 1) := by
    rw [show (35 : ℕ) = 34 + 1 from rfl, ewmState_succ, hb34]
    norm_num [ewmStep, smoothingFactor, hs35]
  have hb36 : ewmState (smoothingFactor 9) (fun j => some (sample exC7 j)) 36 = (some ((208619070208988610074886013230093 / 25 : ℚ)), 1) := by
    rw [show (36 : ℕ) = 35 + 1 from rfl, ewmState_succ, hb35]
    norm_num [ewmStep, smoothingFactor, hs36]
  have hb37 : ewmState (smoothingFactor 9) (fun j => some (sample exC7 j)) 37 = (some ((333790512334381776119817621164649 / 5 : ℚ)), 1) := by
    rw [show (37 : ℕ) = 36 + 1 from rfl, ewmState_succ, hb36]
    norm_num [ewmStep, smoothingFactor, hs37]
  have hb38 : ewmState (smoothingFactor 9) (fun j => some (sample exC7 j)) 38 = (some ((13351620493375271044792704846568461 / 25 : ℚ)), 1) := by
    rw [show (38 : ℕ) = 37 + 1 from rfl, ewmState_succ, hb37]
    norm_num [ewmStep, smoothingFactor, hs38]
  have hb39 : ewmState (smoothingFactor 9) (fun j => some (sample exC7 j)) 39 = (some ((106812963947002168358341638772530189 / 25 : ℚ)), 1) := by
    rw [show (39 : ℕ) = 38 + 1 from rfl, ewmState_succ, hb38]
    norm_num [ewmStep, smoothingFactor, hs39]
  have hb40 : ewmState (smoothingFactor 9) (fun j => some (sample exC7 j)) 40 = (some ((854503711576017346866733110180224013 / 25 : ℚ)), 1) := by
    rw [show (40 : ℕ) = 39 + 1 from rfl, ewmState_succ, hb39]
    norm_num [ewmStep, smoothingFactor, hs40]
  have hb41 : ewmState (smoothingFactor 9) (fun j => some (sample exC7 j)) 41 = (some ((1367205938521627754986772976288354921 / 5 : ℚ)), 1) := by
    rw [show (41 : ℕ) = 40 + 1 from rfl, ewmState_succ, hb40]
    norm_num [ewmStep, smoothingFactor, hs41]
  have hb42 : ewmState (smoothingFactor 9) (fun j => some (sample exC7 j)) 42 = (some ((54688237540865110199470919051534179341 / 25 : ℚ)), 1) := by
    rw [show (42 : ℕ) = 41 + 1 from rfl, ewmState_succ, hb41]
    norm_num [ewmStep, smoothingFactor, hs42]
  have hb43 : ewmState (smoothingFactor 9) (fun j => some (sample exC7 j)) 43 = (some ((437505900326920881595767352412273417229 / 25 : ℚ)), 1) := by
    rw [show (43 : ℕ) = 42 + 1 from rfl, ewmState_succ, hb42]
    norm_num [ewmStep, smoothingFactor, hs43]
  have hb44 : ewmState (smoothingFactor 9) (fun j => some (sample exC7 j)) 44 = (some ((3500047202615367052766138819298187320333 / 25 : ℚ)), 1) := by
    rw [show (44 : ℕ) = 43 + 1 from rfl, ewmState_succ, hb43]
    norm_num [ewmStep, smoothingFactor, hs44]
  have hb45 : ewmState (smoothingFactor 9) (fun j => some (sample exC7 j)) 45 = (some ((5600075524184587284425822110877099709033 / 5 : ℚ)), 1) := by
    rw [show (45 : ℕ) = 44 + 1 from rfl, ewmState_succ, hb44]
    norm_num [ewmStep, smoothingFactor, hs45]
  have hb46 : ewmState (smoothingFactor 9) (fun j => some (sample exC7 j)) 46 = (some ((224003020967383491377032884435083988343821 / 25 : ℚ)), 1) := by
    rw [show (46 : ℕ) = 45 + 1 from rfl, ewmState_succ, hb45]
    norm_num [ewmStep, smoothingFactor, hs46]
  have hb47 : ewmState (smoothingFactor 9) (fun j => some (sample exC7 j)) 47 = (some ((4405392745691875330414980060556651770715149 / 25 : ℚ)), 1) := by
    rw [show (47 : ℕ) = 46 + 1 from rfl, ewmState_succ, hb46]
    norm_num [ewmStep, smoothingFactor, hs47]
  have hb48 : ewmState (smoothingFactor 9) (fun j => some (sample exC7 j)) 48 = (some ((88033187240181712111173923582988007418141709 / 25 : ℚ)), 1) := by
    rw [show (48 : ℕ) = 47 + 1 from rfl, ewmState_succ, hb47]
    norm_num [ewmStep, smoothingFactor, hs48]
  have hb49 : ewmState (smoothingFactor 9) (fun j => some (sample exC7 j)) 49 = (some ((7867807440784721956629777355269744978504572541 / 1225 : ℚ)), 1) := by
    rw [show (49 : ℕ) = 48 + 1 from rfl, ewmState_succ, hb48]
    norm_num [ewmStep, smoothingFactor, hs49]
  have hba0 : basisAt exC7 0 = some (100) := by
    show (ewmState (smoothingFactor 9) (fun j => some (sample exC7 j)) 0).1 = _
    rw [hb0]
  have hba1 : basisAt exC7 1 = some ((501 / 5 : ℚ)) := by
    show (ewmState (smoothingFactor 9) (fun j => some (sample exC7 j)) 1).1 = _
    rw [hb1]
  have hba2 : basisAt exC7 2 = some ((2541 / 25 : ℚ)) := by
    show (ewmState (smoothingFactor 9) (fun j => some (sample exC7 j)) 2).1 = _
    rw [hb2]
  have hba3 : basisAt exC7 3 = some ((2829 / 25 : ℚ)) := by
    show (ewmState (smoothingFactor 9) (fun j => some (sample exC7 j)) 3).1 = _
    rw [hb3]
  have hba4 : basisAt exC7 4 = some ((5133 / 25 : ℚ)) := by
    show (ewmState (smoothingFactor 9) (fun j => some (sample exC7 j)) 4).1 = _
    rw [hb4]
  have hba5 : basisAt exC7 5 = some ((4713 / 5 : ℚ)) := by
    show (ewmState (smoothingFactor 9) (fun j => some (sample exC7 j)) 5).1 = _
    rw [hb5]
  have hba6 : basisAt exC7 6 = some ((171021 / 25 : ℚ)) := by
    show (ewmState (smoothingFactor 9) (fun j => some (sample exC7 j)) 6).1 = _
    rw [hb6]
  have hba7 : basisAt exC7 7 = some ((1350669 / 25 : ℚ)) := by
    show (ewmState (smoothingFactor 9) (fun j => some (sample exC7 j)) 7).1 = _
    rw [hb7]
  have hba8 : basisAt exC7 8 = some ((10787853 / 25 : ℚ)) := by
    show (ewmState (smoothingFactor 9) (fun j => some (sample exC7 j)) 8).1 = _
    rw [hb8]
  have hba9 : basisAt exC7 9 = some (3451413) := by
    show (ewmState (smoothingFactor 9) (fun j => some (sample exC7 j)) 9).1 = _
    rw [hb9]
  have hba10 : basisAt exC7 10 = some ((690265101 / 25 : ℚ)) := by
    show (ewmState (smoothingFactor 9) (fun j => some (sample exC7 j)) 10).1 = _
    rw [hb10]
  have hba11 : basisAt exC7 11 = some ((5522103309 / 25 : ℚ)) := by
    show (ewmState (smoothingFactor 9) (fun j => some (sample exC7 j)) 11).1 = _
    rw [hb11]
  have hba12 : basisAt exC7 12 = some ((44176808973 / 25 : ℚ)) := by
    show (ewmState (smoothingFactor 9) (fun j => some (sample exC7 j)) 12).1 = _
    rw [hb12]
  have hba13 : basisAt exC7 13 = some ((70682890857 / 5 : ℚ)) := by
    show (ewmState (smoothingFactor 9) (fun j => some (sample exC7 j)) 13).1 = _
    rw [hb13]
  have hba14 : basisAt exC7 14 = some ((2827315616781 / 25 : ℚ)) := by
    show (ewmState (smoothingFactor 9) (fun j => some (sample exC7 j)) 14).1 = _
    rw [hb14]
  have hba15 : basisAt exC7 15 = some ((22618524916749 / 25 : ℚ)) := by
    show (ewmState (smoothingFactor 9) (fun j => some (sample exC7 j)) 15).1 = _
    rw [hb15]
  have hba16 : basisAt exC7 16 = some ((180948199316493 / 25 : ℚ)) := by
    show (ewmState (smoothingFactor 9) (fun j => some (sample exC7 j)) 16).1 = _
    rw [hb16]
  have hba17 : basisAt exC7 17 = some ((289517118902889 / 5 : ℚ)) := by
    show (ewmState (smoothingFactor 9) (fun j => some (sample exC7 j)) 17).1 = _
    rw [hb17]
  have hba18 : basisAt exC7 18 = some ((11580684756098061 / 25 : ℚ)) := by
    show (ewmState (smoothingFactor 9) (fun j => some (sample exC7 j)) 18).1 = _
    rw [hb18]
  have hba19 : basisAt exC7 19 = some ((92645478048766989 / 25 : ℚ)) := by
    show (ewmState (smoothingFactor 9) (fun j => some (sample exC7 j)) 19).1 = _
    rw [hb19]
  have hba20 : basisAt exC7 20 = some ((741163824390118413 / 25 : ℚ)) := by
    show (ewmState (smoothingFactor 9) (fun j => some (sample exC7 j)) 20).1 = _
    rw [hb20]
  have hba21 : basisAt exC7 21 = some ((1185862119024185961 / 5 : ℚ)) := by
    show (ewmState (smoothingFactor 9) (fun j => some (sample exC7 j)) 21).1 = _
    rw [hb21]
  have hba22 : basisAt exC7 22 = some ((47434484760967420941 / 25 : ℚ)) := by
    show (ewmState (smoothingFactor 9) (fun j => some (sample exC7 j)) 22).1 = _
    rw [hb22]
  have hba23 : basisAt exC7 23 = some ((379475878087739350029 / 25 : ℚ)) := by
    show (ewmState (smoothingFactor 9) (fun j => some (sample exC7 j)) 23).1 = _
    rw [hb23]
  have hba24 : basisAt exC7 24 = some ((3035807024701914782733 / 25 : ℚ)) := by
    show (ewmState (smoothingFactor 9) (fun j => some (sample exC7 j)) 24).1 = _
    rw [hb24]
  have hba25 : basisAt exC7 25 = some ((4857291239523063648873 / 5 : ℚ)) := by
    show (ewmState (smoothingFactor 9) (fun j => some (sample exC7 j)) 25).1 = _
    rw [hb25]
  have hba26 : basisAt exC7 26 = some ((194291649580922545937421 / 25 : ℚ)) := by
    show (ewmState (smoothingFactor 9) (fun j => some (sample exC7 j)) 26).1 = _
    rw [hb26]
  have hba27 : basisAt exC7 27 = some ((1554333196647380367481869 / 25 : ℚ)) := by
    show (ewmState (smoothingFactor 9) (fun j => some (sample exC7 j)) 27).1 = _
    rw [hb27]
  have hba28 : basisAt exC7 28 = some ((12434665573179042939837453 / 25 : ℚ)) := by
    show (ewmState (smoothingFactor 9) (fun j => some (sample exC7 j)) 28).1 = _
    rw [hb28]
  have hba29 : basisAt exC7 29 = some (3979092983417293740747285) := by
    show (ewmState (smoothingFactor 9) (fun j => some (sample exC7 j)) 29).1 = _
    rw [hb29]
  have hba30 : basisAt exC7 30 = some ((795818596683458748149439501 / 25 : ℚ)) := by
    show (ewmState (smoothingFactor 9) (fun j => some (sample exC7 j)) 30).1 = _
    rw [hb30]
  have hba31 : basisAt exC7 31 = some ((6366548773467669985195498509 / 25 : ℚ)) := by
    show (ewmState (smoothingFactor 9) (fun j => some (sample exC7 j)) 31).1 = _
    rw [hb31]
  have hba32 : basisAt exC7 32 = some ((50932390187741359881563970573 / 25 : ℚ)) := by
    show (ewmState (smoothingFactor 9) (fun j => some (sample exC7 j)) 32).1 = _
    rw [hb32]
  have hba33 : basisAt exC7 33 = some ((81491824300386175810502349417 / 5 : ℚ)) := by
    show (ewmState (smoothingFactor 9) (fun j => some (sample exC7 j)) 33).1 = _
    rw [hb33]
  have hba34 : basisAt exC7 34 = some ((3259672972015447032420093959181 / 25 : ℚ)) := by
    show (ewmState (smoothingFactor 9) (fun j => some (sample exC7 j)) 34).1 = _
    rw [hb34]
  have hba35 : basisAt exC7 35 = some ((26077383776123576259360751655949 / 25 : ℚ)) := by
    show (ewmState (smoothingFactor 9) (fun j => some (sample exC7 j)) 35).1 = _
    rw [hb35]
  have hba36 : basisAt exC7 36 = some ((208619070208988610074886013230093 / 25 : ℚ)) := by
    show (ewmState (smoothingFactor 9) (fun j => some (sample exC7 j)) 36).1 = _
    rw [hb36]
  have hba37 : basisAt exC7 37 = some ((333790512334381776119817621164649 / 5 : ℚ)) := by
    show (ewmState (smoothingFactor 9) (fun j => some (sample exC7 j)) 37).1 = _
    rw [hb37]
  have hba38 : basisAt exC7 38 = some ((13351620493375271044792704846568461 / 25 : ℚ)) := by
    show (ewmState (smoothingFactor 9) (fun j => some (sample exC7 j)) 38).1 = _
    rw [hb38]
  have hba39 : basisAt exC7 39 = some ((106812963947002168358341638772530189 / 25 : ℚ)) := by
    show (ewmState (smoothingFactor 9) (fun j => some (sample exC7 j)) 39).1 = _
    rw [hb39]
  have hba40 : basisAt exC7 40 = some ((854503711576017346866733110180224013 / 25 : ℚ)) := by
    show (ewmState (smoothingFactor 9) (fun j => some (sample exC7 j)) 40).1 = _
    rw [hb40]
  have hba41 : basisAt exC7 41 = some ((1367205938521627754986772976288354921 / 5 : ℚ)) := by
    show (ewmState (smoothingFactor 9) (fun j => some (sample exC7 j)) 41).1 = _
    rw [hb41]
  have hba42 : basisAt exC7 42 = some ((54688237540865110199470919051534179341 / 25 : ℚ)) := by
    show (ewmState (smoothingFactor 9) (fun j => some (sample exC7 j)) 42).1 = _
    rw [hb42]
  have hba43 : basisAt exC7 43 = some ((437505900326920881595767352412273417229 / 25 : ℚ)) := by
    show (ewmState (smoothingFactor 9) (fun j => some (sample exC7 j)) 43).1 = _
    rw [hb43]
  have hba44 : basisAt exC7 44 = some ((3500047202615367052766138819298187320333 / 25 : ℚ)) := by
    show (ewmState (smoothingFactor 9) (fun j => some (sample exC7 j)) 44).1 = _
    rw [hb44]
  have hba45 : basisAt exC7 45 = some ((5600075524184587284425822110877099709033 / 5 : ℚ)) := by
    show (ewmState (smoothingFactor 9) (fun j => some (sample exC7 j)) 45).1 = _
    rw [hb45]
  have hba46 : basisAt exC7 46 = some ((224003020967383491377032884435083988343821 / 25 : ℚ)) := by
    show (ewmState (smoothingFactor 9) (fun j => some (sample exC7 j)) 46).1 = _
    rw [hb46]
  have hba47 : basisAt exC7 47 = some ((4405392745691875330414980060556651770715149 / 25 : ℚ)) := by
    show (ewmState (smoothingFactor 9) (fun j => some (sample exC7 j)) 47).1 = _
    rw [hb47]
  have hba48 : basisAt exC7 48 = some ((88033187240181712111173923582988007418141709 / 25 : ℚ)) := by
    show (ewmState (smoothingFactor 9) (fun j => some (sample exC7 j)) 48).1 = _
    rw [hb48]
  have hba49 : basisAt exC7 49 = some ((7867807440784721956629777355269744978504572541 / 1225 : ℚ)) := by
    show (ewmState (smoothingFactor 9) (fun j => some (sample exC7 j)) 49).1 = _
    rw [hb49]
  have hd0 : ewmState (smoothingFactor 9) (fun k => (basisAt exC7 k).map (fun b => |sample exC7 k - b|)) 0 = (some (0), 1) := by
    norm_num [ewmState, ewmStep, smoothingFactor, hs0, hba0, abs_of_nonneg, abs_of_neg]
  have hd1 : ewmState (smoothingFactor 9) (fun k => (basisAt exC7 k).map (fun b => |sample exC7 k - b|)) 1 = (some ((4 / 25 : ℚ)), 1) := by
    rw [show (1 : ℕ) = 0 + 1 from rfl, ewmState_succ, hd0]
    norm_num [ewmStep, smoothingFactor, hs1, hba1, abs_of_nonneg, abs_of_neg]
  have hd2 : ewmState (smoothingFactor 9) (fun k => (basisAt exC7 k).map (fun b => |sample exC7 k - b|)) 2 = (some ((32 / 25 : ℚ)), 1) := by
    rw [show (2 : ℕ) = 1 + 1 from rfl, ewmState_succ, hd1]
    norm_num [ewmStep, smoothingFactor, hs2, hba2, abs_of_nonneg, abs_of_neg]
  have hd3 : ewmState (smoothingFactor 9) (fun k => (basisAt exC7 k).map (fun b => |sample exC7 k - b|)) 3 = (some ((256 / 25 : ℚ)), 1) := by
    rw [show (3 : ℕ) = 2 + 1 from rfl, ewmState_succ, hd2]
    norm_num [ewmStep, smoothingFactor, hs3, hba3, abs_of_nonneg, abs_of_neg]
  have hd4 : ewmState (smoothingFactor 9) (fun k => (basisAt exC7 k).map (fun b => |sample exC7 k - b|)) 4 = (some ((2048 / 25 : ℚ)), 1) := by
    rw [show (4 : ℕ) = 3 + 1 from rfl, ewmState_succ, hd3]
    norm_num [ewmStep, smoothingFactor, hs4, hba4, abs_of_nonneg, abs_of_neg]
  have hd5 : ewmState (smoothingFactor 9) (fun k => (basisAt exC7 k).map (fun b => |sample exC7 k - b|)) 5 = (some ((16384 / 25 : ℚ)), 1) := by
    rw [show (5 : ℕ) = 4 + 1 from rfl, ewmState_succ, hd4]
    norm_num [ewmStep, smoothingFactor, hs5, hba5, abs_of_nonneg, abs_of_neg]
  have hd6 : ewmState (smoothingFactor 9) (fun k => (basisAt exC7 k).map (fun b => |sample exC7 k - b|)) 6 = (some ((131072 / 25 : ℚ)), 1) := by
    rw [show (6 : ℕ) = 5 + 1 from rfl, ewmState_succ, hd5]
    norm_num [ewmStep, smoothingFactor, hs6, hba6, abs_of_nonneg, abs_of_neg]
  have hd7 : ewmState (smoothingFactor 9) (fun k => (basisAt exC7 k).map (fun b => |sample exC7 k - b|)) 7 = (some ((1048576 / 25 : ℚ)), 1) := by
    rw [show (7 : ℕ) = 6 + 1 from rfl, ewmState_succ, hd6]
    norm_num [ewmStep, smoothingFactor, hs7, hba7, abs_of_nonneg, abs_of_neg]
  have hd8 : ewmState (smoothingFactor 9) (fun k => (basisAt exC7 k).map (fun b => |sample exC7 k - b|)) 8 = (some ((8388608 / 25 : ℚ)), 1) := by
    rw [show (8 : ℕ) = 7 + 1 from rfl, ewmState_succ, hd7]
    norm_num [ewmStep, smoothingFactor, hs8, hba8, abs_of_nonneg, abs_of_neg]
  have hd9 : ewmState (smoothingFactor 9) (fun k => (basisAt exC7 k).map (fun b => |sample exC7 k - b|)) 9 = (some ((67108864 / 25 : ℚ)), 1) := by
    rw [show (9 : ℕ) = 8 + 1 from rfl, ewmState_succ, hd8]
    norm_num [ewmStep, smoothingFactor, hs9, hba9, abs_of_nonneg, abs_of_neg]
  have hd10 : ewmState (smoothingFactor 9) (fun k => (basisAt exC7 k).map (fun b => |sample exC7 k - b|)) 10 = (some ((536870912 / 25 : ℚ)), 1) := by
    rw [show (10 : ℕ) = 9 + 1 from rfl, ewmState_succ, hd9]
    norm_num [ewmStep, smoothingFactor, hs10, hba10, abs_of_nonneg, abs_of_neg]
  have hd11 : ewmState (smoothingFactor 9) (fun k => (basisAt exC7 k).map (fun b => |sample exC7 k - b|)) 11 = (some ((4294967296 / 25 : ℚ)), 1) := by
    rw [show (11 : ℕ) = 10 + 1 from rfl, ewmState_succ, hd10]
    norm_num [ewmStep, smoothingFactor, hs11, hba11, abs_of_nonneg, abs_of_neg]
  have hd12 : ewmState (smoothingFactor 9) (fun k => (basisAt exC7 k).map (fun b => |sample exC7 k - b|)) 12 = (some ((34359738368 / 25 : ℚ)), 1) := by
    rw [show (12 : ℕ) = 11 + 1 from rfl, ewmState_succ, hd11]
    norm_num [ewmStep, smoothingFactor, hs12, hba12, abs_of_nonneg, abs_of_neg]
  have hd13 : ewmState (smoothingFactor 9) (fun k => (basisAt exC7 k).map (fun b => |sample exC7 k - b|)) 13 = (some ((274877906944 / 25 : ℚ)), 1) := by
    rw [show (13 : ℕ) = 12 + 1 from rfl, ewmState_succ, hd12]
    norm_num [ewmStep, smoothingFactor, hs13, hba13, abs_of_nonneg, abs_of_neg]
  have hd14 : ewmState (smoothingFactor 9) (fun k => (basisAt exC7 k).map (fun b => |sample exC7 k - b|)) 14 = (some ((2199023255552 / 25 : ℚ)), 1) := by
    rw [show (14 : ℕ) = 13 + 1 from rfl, ewmState_succ, hd13]
    norm_num [ewmStep, smoothingFactor, hs14, hba14, abs_of_nonneg, abs_of_neg]
  have hd15 : ewmState (smoothingFactor 9) (fun k => (basisAt exC7 k).map (fun b => |sample exC7 k - b|)) 15 = (some ((17592186044416 / 25 : ℚ)), 1) := by
    rw [show (15 : ℕ) = 14 + 1 from rfl, ewmState_succ, hd14]
    norm_num [ewmStep, smoothingFactor, hs15, hba15, abs_of_nonneg, abs_of_neg]
  have hd16 : ewmState (smoothingFactor 9) (fun k => (basisAt exC7 k).map (fun b => |sample exC7 k - b|)) 16 = (some ((140737488355328 / 25 : ℚ)), 1) := by
    rw [show (16 : ℕ) = 15 + 1 from rfl, ewmState_succ, hd15]
    norm_num [ewmStep, smoothingFactor, hs16, hba16, abs_of_nonneg, abs_of_neg]
  have hd17 : ewmState (smoothingFactor 9) (fun k => (basisAt exC7 k).map (fun b => |sample exC7 k - b|)) 17 = (some ((1125899906842624 / 25 : ℚ)), 1) := by
    rw [show (17 : ℕ) = 16 + 1 from rfl, ewmState_succ, hd16]
    norm_num [ewmStep, smoothingFactor, hs17, hba17, abs_of_nonneg, abs_of_neg]
  have hd18 : ewmState (smoothingFactor 9) (fun k => (basisAt exC7 k).map (fun b => |sample exC7 k - b|)) 18 = (some ((9007199254740992 / 25 : ℚ)), 1) := by
    rw [show (18 : ℕ) = 17 + 1 from rfl, ewmState_succ, hd17]
    norm_num [ewmStep, smoothingFactor, hs18, hba18, abs_of_nonneg, abs_of_neg]
  have hd19 : ewmState (smoothingFactor 9) (fun k => (basisAt exC7 k).map (fun b => |sample exC7 k - b|)) 19 = (some ((72057594037927936 / 25 : ℚ)), 1) := by
    rw [show (19 : ℕ) = 18 + 1 from rfl, ewmState_succ, hd18]
    norm_num [ewmStep, smoothingFactor, hs19, hba19, abs_of_nonneg, abs_of_neg]
  have hd20 : ewmState (smoothingFactor 9) (fun k => (basisAt exC7 k).map (fun b => |sample exC7 k - b|)) 20 = (some ((576460752303423488 / 25 : ℚ)), 1) := by
    rw [show (20 : ℕ) = 19 + 1 from rfl, ewmState_succ, hd19]
    norm_num [ewmStep, smoothingFactor, hs20, hba20, abs_of_nonneg, abs_of_neg]
  have hd21 : ewmState (smoothingFactor 9) (fun k => (basisAt exC7 k).map (fun b => |sample exC7 k - b|)) 21 = (some ((4611686018427387904 / 25 : ℚ)), 1) := by
    rw [show (21 : ℕ) = 20 + 1 from rfl, ewmState_succ, hd20]
    norm_num [ewmStep, smoothingFactor, hs21, hba21, abs_of_nonneg, abs_of_neg]
  have hd22 : ewmState (smoothingFactor 9) (fun k => (basisAt exC7 k).map (fun b => |sample exC7 k - b|)) 22 = (some ((36893488147419103232 / 25 : ℚ)), 1) := by
    rw [show (22 : ℕ) = 21 + 1 from rfl, ewmState_succ, hd21]
    norm_num [ewmStep, smoothingFactor, hs22, hba22, abs_of_nonneg, abs_of_neg]
  have hd23 : ewmState (smoothingFactor 9) (fun k => (basisAt exC7 k).map (fun b => |sample exC7 k - b|)) 23 = (some ((295147905179352825856 / 25 : ℚ)), 1) := by
    rw [show (23 : ℕ) = 22 + 1 from rfl, ewmState_succ, hd22]
    norm_num [ewmStep, smoothingFactor, hs23, hba23, abs_of_nonneg, abs_of_neg]
  have hd24 : ewmState (smoothingFactor 9) (fun k => (basisAt exC7 k).map (fun b => |sample exC7 k - b|)) 24 = (some ((2361183241434822606848 / 25 : ℚ)), 1) := by
    rw [show (24 : ℕ) = 23 + 1 from rfl, ewmState_succ, hd23]
    norm_num [ewmStep, smoothingFactor, hs24, hba24, abs_of_nonneg, abs_of_neg]
  have hd25 : ewmState (smoothingFactor 9) (fun k => (basisAt exC7 k).map (fun b => |sample exC7 k - b|)) 25 = (some ((18889465931478580854784 / 25 : ℚ)), 1) := by
    rw [show (25 : ℕ) = 24 + 1 from rfl, ewmState_succ, hd24]
    norm_num [ewmStep, smoothingFactor, hs25, hba25, abs_of_nonneg, abs_of_neg]
  have hd26 : ewmState (smoothingFactor 9) (fun k => (basisAt exC7 k).map (fun b => |sample exC7 k - b|)) 26 = (some ((151115727451828646838272 / 25 : ℚ)), 1) := by
    rw [show (26 : ℕ) = 25 + 1 from rfl, ewmState_succ, hd25]
    norm_num [ewmStep, smoothingFactor, hs26, hba26, abs_of_nonneg, abs_of_neg]
  have hd27 : ewmState (smoothingFactor 9) (fun k => (basisAt exC7 k).map (fun b => |sample exC7 k - b|)) 27 = (some ((1208925819614629174706176 / 25 : ℚ)), 1) := by
    rw [show (27 : ℕ) = 26 + 1 from rfl, ewmState_succ, hd26]
    norm_num [ewmStep, smoothingFactor, hs27, hba27, abs_of_nonneg, abs_of_neg]
  have hd28 : ewmState (smoothingFactor 9) (fun k => (basisAt exC7 k).map (fun b => |sample exC7 k - b|)) 28 = (some ((9671406556917033397649408 / 25 : ℚ)), 1) := by
    rw [show (28 : ℕ) = 27 + 1 from rfl, ewmState_succ, hd27]
    norm_num [ewmStep, smoothingFactor, hs28, hba28, abs_of_nonneg, abs_of_neg]
  have hd29 : ewmState (smoothingFactor 9) (fun k => (basisAt exC7 k).map (fun b => |sample exC7 k - b|)) 29 = (some ((77371252455336267181195264 / 25 : ℚ)), 1) := by
    rw [show (29 : ℕ) = 28 + 1 from rfl, ewmState_succ, hd28]
    norm_num [ewmStep, smoothingFactor, hs29, hba29, abs_of_nonneg, abs_of_neg]
  have hd30 : ewmState (smoothingFactor 9) (fun k => (basisAt exC7 k).map (fun b => |sample exC7 k - b|)) 30 = (some ((618970019642690137449562112 / 25 : ℚ)), 1) := by
    rw [show (30 : ℕ) = 29 + 1 from rfl, ewmState_succ, hd29]
    norm_num [ewmStep, smoothingFactor, hs30, hba30, abs_of_nonneg, abs_of_neg]
  have hd31 : ewmState (smoothingFactor 9) (fun k => (basisAt exC7 k).map (fun b => |sample exC7 k - b|)) 31 = (some ((4951760157141521099596496896 / 25 : ℚ)), 1) := by
    rw [show (31 : ℕ) = 30 + 1 from rfl, ewmState_succ, hd30]
    norm_num [ewmStep, smoothingFactor, hs31, hba31, abs_of_nonneg, abs_of_neg]
  have hd32 : ewmState (smoothingFactor 9) (fun k => (basisAt exC7 k).map (fun b => |sample exC7 k - b|)) 32 = (some ((39614081257132168796771975168 / 25 : ℚ)), 1) := by
    rw [show (32 : ℕ) = 31 + 1 from rfl, ewmState_succ, hd31]
    norm_num [ewmStep, smoothingFactor, hs32, hba32, abs_of_nonneg, abs_of_neg]
  have hd33 : ewmState (smoothingFactor 9) (fun k => (basisAt exC7 k).map (fun b => |sample exC7 k - b|)) 33 = (some ((316912650057057350374175801344 / 25 : ℚ)), 1) := by
    rw [show (33 : ℕ) = 32 + 1 from rfl, ewmState_succ, hd32]
    norm_num [ewmStep, smoothingFactor, hs33, hba33, abs_of_nonneg, abs_of_neg]
  have hd34 : ewmState (smoothingFactor 9) (fun k => (basisAt exC7 k).map (fun b => |sample exC7 k - b|)) 34 = (some ((2535301200456458802993406410752 / 25 : ℚ)), 1) := by
    rw [show (34 : ℕ) = 33 + 1 from rfl, ewmState_succ, hd33]
    norm_num [ewmStep, smoothingFactor, hs34, hba34, abs_of_nonneg, abs_of_neg]
  have hd35 : ewmState (smoothingFactor 9) (fun k => (basisAt exC7 k).map (fun b => |sample exC7 k - b|)) 35 = (some ((20282409603651670423947251286016 / 25 : ℚ)), 1) := by
    rw [show (35 : ℕ) = 34 + 1 from rfl, ewmState_succ, hd34]
    norm_num [ewmStep, smoothingFactor, hs35, hba35, abs_of_nonneg, abs_of_neg]
  have hd36 : ewmState (smoothingFactor 9) (fun k => (basisAt exC7 k).map (fun b => |sample exC7 k - b|)) 36 = (some ((162259276829213363391578010288128 / 25 : ℚ)), 1) := by
    rw [show (36 : ℕ) = 35 + 1 from rfl, ewmState_succ, hd35]
    norm_num [ewmStep, smoothingFactor, hs36, hba36, abs_of_nonneg, abs_of_neg]
  have hd37 : ewmState (smoothingFactor 9) (fun k => (basisAt exC7 k).map (fun b => |sample exC7 k - b|)) 37 = (some ((1298074214633706907132624082305024 / 25 : ℚ)), 1) := by
    rw [show (37 : ℕ) = 36 + 1 from rfl, ewmState_succ, hd36]
    norm_num [ewmStep, smoothingFactor, hs37, hba37, abs_of_nonneg, abs_of_neg]
  have hd38 : ewmState (smoothingFactor 9) (fun k => (basisAt exC7 k).map (fun b => |sample exC7 k - b|)) 38 = (some ((10384593717069655257060992658440192 / 25 : ℚ)), 1) := by
    rw [show (38 : ℕ) = 37 + 1 from rfl, ewmState_succ, hd37]
    norm_num [ewmStep, smoothingFactor, hs38, hba38, abs_of_nonneg, abs_of_neg]
  have hd39 : ewmState (smoothingFactor 9) (fun k => (basisAt exC7 k).map (fun b => |sample exC7 k - b|)) 39 = (some ((83076749736557242056487941267521536 / 25 : ℚ)), 1) := by
    rw [show (39 : ℕ) = 38 + 1 from rfl, ewmState_succ, hd38]
    norm_num [ewmStep, smoothingFactor, hs39, hba39, abs_of_nonneg, abs_of_neg]
  have hd40 : ewmState (smoothingFactor 9) (fun k => (basisAt exC7 k).map (fun b => |sample exC7 k - b|)) 40 = (some ((664613997892457936451903530140172288 / 25 : ℚ)), 1) := by
    rw [show (40 : ℕ) = 39 + 1 from rfl, ewmState_succ, hd39]
    norm_num [ewmStep, smoothingFactor, hs40, hba40, abs_of_nonneg, abs_of_neg]
  have hd41 : ewmState (smoothingFactor 9) (fun k => (basisAt exC7 k).map (fun b => |sample exC7 k - b|)) 41 = (some ((5316911983139663491615228241121378304 / 25 : ℚ)), 1) := by
    rw [show (41 : ℕ) = 40 + 1 from rfl, ewmState_succ, hd40]
    norm_num [ewmStep, smoothingFactor, hs41, hba41, abs_of_nonneg, abs_of_neg]
  have hd42 : ewmState (smoothingFactor 9) (fun k => (basisAt exC7 k).map (fun b => |sample exC7 k - b|)) 42 = (some ((42535295865117307932921825928971026432 / 25 : ℚ)), 1) := by
    rw [show (42 : ℕ) = 41 + 1 from rfl, ewmState_succ, hd41]
    norm_num [ewmStep, smoothingFactor, hs42, hba42, abs_of_nonneg, abs_of_neg]
  have hd43 : ewmState (smoothingFactor 9) (fun k => (basisAt exC7 k).map (fun b => |sample exC7 k - b|)) 43 = (some ((340282366920938463463374607431768211456 / 25 : ℚ)), 1) := by
    rw [show (43 : ℕ) = 42 + 1 from rfl, ewmState_succ, hd42]
    norm_num [ewmStep, smoothingFactor, hs43, hba43, abs_of_nonneg, abs_of_neg]
  have hd44 : ewmState (smoothingFactor 9) (fun k => (basisAt exC7 k).map (fun b => |sample exC7 k - b|)) 44 = (some ((2722258935367507707706996859454145691648 / 25 : ℚ)), 1) := by
    rw [show (44 : ℕ) = 43 + 1 from rfl, ewmState_succ, hd43]
    norm_num [ewmStep, smoothingFactor, hs44, hba44, abs_of_nonneg, abs_of_neg]
  have hd45 : ewmState (smoothingFactor 9) (fun k => (basisAt exC7 k).map (fun b => |sample exC7 k - b|)) 45 = (some ((21778071482940061661655974875633165533184 / 25 : ℚ)), 1) := by
    rw [show (45 : ℕ) = 44 + 1 from rfl, ewmState_succ, hd44]
    norm_num [ewmStep, smoothingFactor, hs45, hba45, abs_of_nonneg, abs_of_neg]
  have hd46 : ewmState (smoothingFactor 9) (fun k => (basisAt exC7 k).map (fun b => |sample exC7 k - b|)) 46 = (some ((174224571863520493293247799005065324265472 / 25 : ℚ)), 1) := by
    rw [show (46 : ℕ) = 45 + 1 from rfl, ewmState_succ, hd45]
    norm_num [ewmStep, smoothingFactor, hs46, hba46, abs_of_nonneg, abs_of_neg]
  have hd47 : ewmState (smoothingFactor 9) (fun k => (basisAt exC7 k).map (fun b => |sample exC7 k - b|)) 47 = (some ((696898287454081973172991196020261297061888 / 5 : ℚ)), 1) := by
    rw [show (47 : ℕ) = 46 + 1 from rfl, ewmState_succ, hd46]
    norm_num [ewmStep, smoothingFactor, hs47, hba47, abs_of_nonneg, abs_of_neg]
  have hd48 : ewmState (smoothingFactor 9) (fun k => (basisAt exC7 k).map (fun b => |sample exC7 k - b|)) 48 = (some (2787593149816327892691964784081045188247552), 1) := by
    rw [show (48 : ℕ) = 47 + 1 from rfl, ewmState_succ, hd47]
    norm_num [ewmStep, smoothingFactor, hs48, hba48, abs_of_nonneg, abs_of_neg]
  have hd49 : ewmState (smoothingFactor 9) (fun k => (basisAt exC7 k).map (fun b => |sample exC7 k - b|)) 49 = (some ((223007451985306231415357182726483615059804160 / 49 : ℚ)), 1) := by
    rw [show (49 : ℕ) = 48 + 1 from rfl, ewmState_succ, hd48]
    norm_num [ewmStep, smoothingFactor, hs49, hba49, abs_of_nonneg, abs_of_neg]
  have hda0 : devAt exC7 0 = some (0) := by
    show (ewmState (smoothingFactor 9) (fun k => (basisAt exC7 k).map (fun b => |sample exC7 k - b|)) 0).1 = _
    rw [hd0]
  have hda1 : devAt exC7 1 = some ((4 / 25 : ℚ)) := by
    show (ewmState (smoothingFactor 9) (fun k => (basisAt exC7 k).map (fun b => |sample exC7 k - b|)) 1).1 = _
    rw [hd1]
  have hda2 : devAt exC7 2 = some ((32 / 25 : ℚ)) := by
    show (ewmState (smoothingFactor 9) (fun k => (basisAt exC7 k).map (fun b => |sample exC7 k - b|)) 2).1 = _
    rw [hd2]
  have hda3 : devAt exC7 3 = some ((256 / 25 : ℚ)) := by
    show (ewmState (smoothingFactor 9) (fun k => (basisAt exC7 k).map (fun b => |sample exC7 k - b|)) 3).1 = _
    rw [hd3]
  have hda4 : devAt exC7 4 = some ((2048 / 25 : ℚ)) := by
    show (ewmState (smoothingFactor 9) (fun k => (basisAt exC7 k).map (fun b => |sample exC7 k - b|)) 4).1 = _
    rw [hd4]
  have hda5 : devAt exC7 5 = some ((16384 / 25 : ℚ)) := by
    show (ewmState (smoothingFactor 9) (fun k => (basisAt exC7 k).map (fun b => |sample exC7 k - b|)) 5).1 = _
    rw [hd5]
  have hda6 : devAt exC7 6 = some ((131072 / 25 : ℚ)) := by
    show (ewmState (smoothingFactor 9) (fun k => (basisAt exC7 k).map (fun b => |sample exC7 k - b|)) 6).1 = _
    rw [hd6]
  have hda7 : devAt exC7 7 = some ((1048576 / 25 : ℚ)) := by
    show (ewmState (smoothingFactor 9) (fun k => (basisAt exC7 k).map (fun b => |sample exC7 k - b|)) 7).1 = _
    rw [hd7]
  have hda8 : devAt exC7 8 = some ((8388608 / 25 : ℚ)) := by
    show (ewmState (smoothingFactor 9) (fun k => (basisAt exC7 k).map (fun b => |sample exC7 k - b|)) 8).1 = _
    rw [hd8]
  have hda9 : devAt exC7 9 = some ((67108864 / 25 : ℚ)) := by
    show (ewmState (smoothingFactor 9) (fun k => (basisAt exC7 k).map (fun b => |sample exC7 k - b|)) 9).1 = _
    rw [hd9]
  have hda10 : devAt exC7 10 = some ((536870912 / 25 : ℚ)) := by
    show (ewmState (smoothingFactor 9) (fun k => (basisAt exC7 k).map (fun b => |sample exC7 k - b|)) 10).1 = _
    rw [hd10]
  have hda11 : devAt exC7 11 = some ((4294967296 / 25 : ℚ)) := by
    show (ewmState (smoothingFactor 9) (fun k => (basisAt exC7 k).map (fun b => |sample exC7 k - b|)) 11).1 = _
    rw [hd11]
  have hda12 : devAt exC7 12 = some ((34359738368 / 25 : ℚ)) := by
    show (ewmState (smoothingFactor 9) (fun k => (basisAt exC7 k).map (fun b => |sample exC7 k - b|)) 12).1 = _
    rw [hd12]
  have hda13 : devAt exC7 13 = some ((274877906944 / 25 : ℚ)) := by
    show (ewmState (smoothingFactor 9) (fun k => (basisAt exC7 k).map (fun b => |sample exC7 k - b|)) 13).1 = _
    rw [hd13]
  have hda14 : devAt exC7 14 = some ((2199023255552 / 25 : ℚ)) := by
    show (ewmState (smoothingFactor 9) (fun k => (basisAt exC7 k).map (fun b => |sample exC7 k - b|)) 14).1 = _
    rw [hd14]
  have hda15 : devAt exC7 15 = some ((17592186044416 / 25 : ℚ)) := by
    show (ewmState (smoothingFactor 9) (fun k => (basisAt exC7 k).map (fun b => |sample exC7 k - b|)) 15).1 = _
    rw [hd15]
  have hda16 : devAt exC7 16 = some ((140737488355328 / 25 : ℚ)) := by
    show (ewmState (smoothingFactor 9) (fun k => (basisAt exC7 k).map (fun b => |sample exC7 k - b|)) 16).1 = _
    rw [hd16]
  have hda17 : devAt exC7 17 = some ((1125899906842624 / 25 : ℚ)) := by
    show (ewmState (smoothingFactor 9) (fun k => (basisAt exC7 k).map (fun b => |sample exC7 k - b|)) 17).1 = _
    rw [hd17]
  have hda18 : devAt exC7 18 = some ((9007199254740992 / 25 : ℚ)) := by
    show (ewmState (smoothingFactor 9) (fun k => (basisAt exC7 k).map (fun b => |sample exC7 k - b|)) 18).1 = _
    rw [hd18]
  have hda19 : devAt exC7 19 = some ((72057594037927936 / 25 : ℚ)) := by
    show (ewmState (smoothingFactor 9) (fun k => (basisAt exC7 k).map (fun b => |sample exC7 k - b|)) 19).1 = _
    rw [hd19]
  have hda20 : devAt exC7 20 = some ((576460752303423488 / 25 : ℚ)) := by
    show (ewmState (smoothingFactor 9) (fun k => (basisAt exC7 k).map (fun b => |sample exC7 k - b|)) 20).1 = _
    rw [hd20]
  have hda21 : devAt exC7 21 = some ((4611686018427387904 / 25 : ℚ)) := by
    show (ewmState (smoothingFactor 9) (fun k => (basisAt exC7 k).map (fun b => |sample exC7 k - b|)) 21).1 = _
    rw [hd21]
  have hda22 : devAt exC7 22 = some ((36893488147419103232 / 25 : ℚ)) := by
    show (ewmState (smoothingFactor 9) (fun k => (basisAt exC7 k).map (fun b => |sample exC7 k - b|)) 22).1 = _
    rw [hd22]
  have hda23 : devAt exC7 23 = some ((295147905179352825856 / 25 : ℚ)) := by
    show (ewmState (smoothingFactor 9) (fun k => (basisAt exC7 k).map (fun b => |sample exC7 k - b|)) 23).1 = _
    rw [hd23]
  have hda24 : devAt exC7 24 = some ((2361183241434822606848 / 25 : ℚ)) := by
    show (ewmState (smoothingFactor 9) (fun k => (basisAt exC7 k).map (fun b => |sample exC7 k - b|)) 24).1 = _
    rw [hd24]
  have hda25 : devAt exC7 25 = some ((18889465931478580854784 / 25 : ℚ)) := by
    show (ewmState (smoothingFactor 9) (fun k => (basisAt exC7 k).map (fun b => |sample exC7 k - b|)) 25).1 = _
    rw [hd25]
  have hda26 : devAt exC7 26 = some ((151115727451828646838272 / 25 : ℚ)) := by
    show (ewmState (smoothingFactor 9) (fun k => (basisAt exC7 k).map (fun b => |sample exC7 k - b|)) 26).1 = _
    rw [hd26]
  have hda27 : devAt exC7 27 = some ((1208925819614629174706176 / 25 : ℚ)) := by
    show (ewmState (smoothingFactor 9) (fun k => (basisAt exC7 k).map (fun b => |sample exC7 k - b|)) 27).1 = _
    rw [hd27]
  have hda28 : devAt exC7 28 = some ((9671406556917033397649408 / 25 : ℚ)) := by
    show (ewmState (smoothingFactor 9) (fun k => (basisAt exC7 k).map (fun b => |sample exC7 k - b|)) 28).1 = _
    rw [hd28]
  have hda29 : devAt exC7 29 = some ((77371252455336267181195264 / 25 : ℚ)) := by
    show (ewmState (smoothingFactor 9) (fun k => (basisAt exC7 k).map (fun b => |sample exC7 k - b|)) 29).1 = _
    rw [hd29]
  have hda30 : devAt exC7 30 = some ((618970019642690137449562112 / 25 : ℚ)) := by
    show (ewmState (smoothingFactor 9) (fun k => (basisAt exC7 k).map (fun b => |sample exC7 k - b|)) 30).1 = _
    rw [hd30]
  have hda31 : devAt exC7 31 = some ((4951760157141521099596496896 / 25 : ℚ)) := by
    show (ewmState (smoothingFactor 9) (fun k => (basisAt exC7 k).map (fun b => |sample exC7 k - b|)) 31).1 = _
    rw [hd31]
  have hda32 : devAt exC7 32 = some ((39614081257132168796771975168 / 25 : ℚ)) := by
    show (ewmState (smoothingFactor 9) (fun k => (basisAt exC7 k).map (fun b => |sample exC7 k - b|)) 32).1 = _
    rw [hd32]
  have hda33 : devAt exC7 33 = some ((316912650057057350374175801344 / 25 : ℚ)) := by
    show (ewmState (smoothingFactor 9) (fun k => (basisAt exC7 k).map (fun b => |sample exC7 k - b|)) 33).1 = _
    rw [hd33]
  have hda34 : devAt exC7 34 = some ((2535301200456458802993406410752 / 25 : ℚ)) := by
    show (ewmState (smoothingFactor 9) (fun k => (basisAt exC7 k).map (fun b => |sample exC7 k - b|)) 34).1 = _
    rw [hd34]
  have hda35 : devAt exC7 35 = some ((20282409603651670423947251286016 / 25 : ℚ)) := by
    show (ewmState (smoothingFactor 9) (fun k => (basisAt exC7 k).map (fun b => |sample exC7 k - b|)) 35).1 = _
    rw [hd35]
  have hda36 : devAt exC7 36 = some ((162259276829213363391578010288128 / 25 : ℚ)) := by
    show (ewmState (smoothingFactor 9) (fun k => (basisAt exC7 k).map (fun b => |sample exC7 k - b|)) 36).1 = _
    rw [hd36]
  have hda37 : devAt exC7 37 = some ((1298074214633706907132624082305024 / 25 : ℚ)) := by
    show (ewmState (smoothingFactor 9) (fun k => (basisAt exC7 k).map (fun b => |sample exC7 k - b|)) 37).1 = _
    rw [hd37]
  have hda38 : devAt exC7 38 = some ((10384593717069655257060992658440192 / 25 : ℚ)) := by
    show (ewmState (smoothingFactor 9) (fun k => (basisAt exC7 k).map (fun b => |sample exC7 k - b|)) 38).1 = _
    rw [hd38]
  have hda39 : devAt exC7 39 = some ((83076749736557242056487941267521536 / 25 : ℚ)) := by
    show (ewmState (smoothingFactor 9) (fun k => (basisAt exC7 k).map (fun b => |sample exC7 k - b|)) 39).1 = _
    rw [hd39]
  have hda40 : devAt exC7 40 = some ((664613997892457936451903530140172288 / 25 : ℚ)) := by
    show (ewmState (smoothingFactor 9) (fun k => (basisAt exC7 k).map (fun b => |sample exC7 k - b|)) 40).1 = _
    rw [hd40]
  have hda41 : devAt exC7 41 = some ((5316911983139663491615228241121378304 / 25 : ℚ)) := by
    show (ewmState (smoothingFactor 9) (fun k => (basisAt exC7 k).map (fun b => |sample exC7 k - b|)) 41).1 = _
    rw [hd41]
  have hda42 : devAt exC7 42 = some ((42535295865117307932921825928971026432 / 25 : ℚ)) := by
    show (ewmState (smoothingFactor 9) (fun k => (basisAt exC7 k).map (fun b => |sample exC7 k - b|)) 42).1 = _
    rw [hd42]
  have hda43 : devAt exC7 43 = some ((340282366920938463463374607431768211456 / 25 : ℚ)) := by
    show (ewmState (smoothingFactor 9) (fun k => (basisAt exC7 k).map (fun b => |sample exC7 k - b|)) 43).1 = _
    rw [hd43]
  have hda44 : devAt exC7 44 = some ((2722258935367507707706996859454145691648 / 25 : ℚ)) := by
    show (ewmState (smoothingFactor 9) (fun k => (basisAt exC7 k).map (fun b => |sample exC7 k - b|)) 44).1 = _
    rw [hd44]
  have hda45 : devAt exC7 45 = some ((21778071482940061661655974875633165533184 / 25 : ℚ)) := by
    show (ewmState (smoothingFactor 9) (fun k => (basisAt exC7 k).map (fun b => |sample exC7 k - b|)) 45).1 = _
    rw [hd45]
  have hda46 : devAt exC7 46 = some ((174224571863520493293247799005065324265472 / 25 : ℚ)) := by
    show (ewmState (smoothingFactor 9) (fun k => (basisAt exC7 k).map (fun b => |sample exC7 k - b|)) 46).1 = _
    rw [hd46]
  have hda47 : devAt exC7 47 = some ((696898287454081973172991196020261297061888 / 5 : ℚ)) := by
    show (ewmState (smoothingFactor 9) (fun k => (basisAt exC7 k).map (fun b => |sample exC7 k - b|)) 47).1 = _
    rw [hd47]
  have hda48 : devAt exC7 48 = some (2787593149816327892691964784081045188247552) := by
    show (ewmState (smoothingFactor 9) (fun k => (basisAt exC7 k).map (fun b => |sample exC7 k - b|)) 48).1 = _
    rw [hd48]
  have hda49 : devAt exC7 49 = some ((223007451985306231415357182726483615059804160 / 49 : ℚ)) := by
    show (ewmState (smoothingFactor 9) (fun k => (basisAt exC7 k).map (fun b => |sample exC7 k - b|)) 49).1 = _
    rw [hd49]
  have hm0 : momentumAt exC7 0 = none := by
    rw [momentumAt, hba0, hda0]
    norm_num [hs0]
  have hm1 : momentumAt exC7 1 = some ((1000 / 3 : ℚ)) := by
    rw [momentumAt, hba1, hda1]
    norm_num [hs1]
  have hm2 : momentumAt exC7 2 = some (300) := by
    rw [momentumAt, hba2, hda2]
    norm_num [hs2]
  have hm3 : momentumAt exC7 3 = some (300) := by
    rw [momentumAt, hba3, hda3]
    norm_num [hs3]
  have hm4 : momentumAt exC7 4 = some (300) := by
    rw [momentumAt, hba4, hda4]
    norm_num [hs4]
  have hm5 : momentumAt exC7 5 = some (300) := by
    rw [momentumAt, hba5, hda5]
    norm_num [hs5]
  have hm6 : momentumAt exC7 6 = some (300) := by
    rw [momentumAt, hba6, hda6]
    norm_num [hs6]
  have hm7 : momentumAt exC7 7 = some (300) := by
    rw [momentumAt, hba7, hda7]
    norm_num [hs7]
  have hm8 : momentumAt exC7 8 = some (300) := by
    rw [momentumAt, hba8, hda8]
    norm_num [hs8]
  have hm9 : momentumAt exC7 9 = some (300) := by
    rw [momentumAt, hba9, hda9]
    norm_num [hs9]
  have hm10 : momentumAt exC7 10 = some (300) := by
    rw [momentumAt, hba10, hda10]
    norm_num [hs10]
  have hm11 : momentumAt exC7 11 = some (300) := by
    rw [momentumAt, hba11, hda11]
    norm_num [hs11]
  have hm12 : momentumAt exC7 12 = some (300) := by
    rw [momentumAt, hba12, hda12]
    norm_num [hs12]
  have hm13 : momentumAt exC7 13 = some (300) := by
    rw [momentumAt, hba13, hda13]
    norm_num [hs13]
  have hm14 : momentumAt exC7 14 = some (300) := by
    rw [momentumAt, hba14, hda14]
    norm_num [hs14]
  have hm15 : momentumAt exC7 15 = some (300) := by
    rw [momentumAt, hba15, hda15]
    norm_num [hs15]
  have hm16 : momentumAt exC7 16 = some (300) := by
    rw [momentumAt, hba16, hda16]
    norm_num [hs16]
  have hm17 : momentumAt exC7 17 = some (300) := by
    rw [momentumAt, hba17, hda17]
    norm_num [hs17]
  have hm18 : momentumAt exC7 18 = some (300) := by
    rw [momentumAt, hba18, hda18]
    norm_num [hs18]
  have hm19 : momentumAt exC7 19 = some (300) := by
    rw [momentumAt, hba19, hda19]
    norm_num [hs19]
  have hm20 : momentumAt exC7 20 = some (300) := by
    rw [momentumAt, hba20, hda20]
    norm_num [hs20]
  have hm21 : momentumAt exC7 21 = some (300) := by
    rw [momentumAt, hba21, hda21]
    norm_num [hs21]
  have hm22 : momentumAt exC7 22 = some (300) := by
    rw [momentumAt, hba22, hda22]
    norm_num [hs22]
  have hm23 : momentumAt exC7 23 = some (300) := by
    rw [momentumAt, hba23, hda23]
    norm_num [hs23]
  have hm24 : momentumAt exC7 24 = some (300) := by
    rw [momentumAt, hba24, hda24]
    norm_num [hs24]
  have hm25 : momentumAt exC7 25 = some (300) := by
    rw [momentumAt, hba25, hda25]
    norm_num [hs25]
  have hm26 : momentumAt exC7 26 = some (300) := by
    rw [momentumAt, hba26, hda26]
    norm_num [hs26]
  have hm27 : momentumAt exC7 27 = some (300) := by
    rw [momentumAt, hba27, hda27]
    norm_num [hs27]
  have hm28 : momentumAt exC7 28 = some (300) := by
    rw [momentumAt, hba28, hda28]
    norm_num [hs28]
  have hm29 : momentumAt exC7 29 = some (300) := by
    rw [momentumAt, hba29, hda29]
    norm_num [hs29]
  have hm30 : momentumAt exC7 30 = some (300) := by
    rw [momentumAt, hba30, hda30]
    norm_num [hs30]
  have hm31 : momentumAt exC7 31 = some (300) := by
    rw [momentumAt, hba31, hda31]
    norm_num [hs31]
  have hm32 : momentumAt exC7 32 = some (300) := by
    rw [momentumAt, hba32, hda32]
    norm_num [hs32]
  have hm33 : momentumAt exC7 33 = some (300) := by
    rw [momentumAt, hba33, hda33]
    norm_num [hs33]
  have hm34 : momentumAt exC7 34 = some (300) := by
    rw [momentumAt, hba34, hda34]
    norm_num [hs34]
  have hm35 : momentumAt exC7 35 = some (300) := by
    rw [momentumAt, hba35, hda35]
    norm_num [hs35]
  have hm36 : momentumAt exC7 36 = some (300) := by
    rw [momentumAt, hba36, hda36]
    norm_num [hs36]
  have hm37 : momentumAt exC7 37 = some (300) := by
    rw [momentumAt, hba37, hda37]
    norm_num [hs37]
  have hm38 : momentumAt exC7 38 = some (300) := by
    rw [momentumAt, hba38, hda38]
    norm_num [hs38]
  have hm39 : momentumAt exC7 39 = some (300) := by
    rw [momentumAt, hba39, hda39]
    norm_num [hs39]
  have hm40 : momentumAt exC7 40 = some (300) := by
    rw [momentumAt, hba40, hda40]
    norm_num [hs40]
  have hm41 : momentumAt exC7 41 = some (300) := by
    rw [momentumAt, hba41, hda41]
    norm_num [hs41]
  have hm42 : momentumAt exC7 42 = some (300) := by
    rw [momentumAt, hba42, hda42]
    norm_num [hs42]
  have hm43 : momentumAt exC7 43 = some (300) := by
    rw [momentumAt, hba43, hda43]
    norm_num [hs43]
  have hm44 : momentumAt exC7 44 = some (300) := by
    rw [momentumAt, hba44, hda44]
    norm_num [hs44]
  have hm45 : momentumAt exC7 45 = some (300) := by
    rw [momentumAt, hba45, hda45]
    norm_num [hs45]
  have hm46 : momentumAt exC7 46 = some (300) := by
    rw [momentumAt, hba46, hda46]
    norm_num [hs46]
  have hm47 : momentumAt exC7 47 = some (320) := by
    rw [momentumAt, hba47, hda47]
    norm_num [hs47]
  have hm48 : momentumAt exC7 48 = some (320) := by
    rw [momentumAt, hba48, hda48]
    norm_num [hs48]
  have hm49 : momentumAt exC7 49 = some (170) := by
    rw [momentumAt, hba49, hda49]
    norm_num [hs49]
  have hw0 : ewmState (smoothingFactor 12) (momentumAt exC7) 0 = (none, 1) := by
    norm_num [ewmState, ewmStep, smoothingFactor, hm0]
  have hw1 : ewmState (smoothingFactor 12) (momentumAt exC7) 1 = (some ((1000 / 3 : ℚ)), 1) := by
    rw [show (1 : ℕ) = 0 + 1 from rfl, ewmState_succ, hw0]
    norm_num [ewmStep, smoothingFactor, hm1]
  have hw2 : ewmState (smoothingFactor 12) (momentumAt exC7) 2 = (some ((12800 / 39 : ℚ)), 1) := by
    rw [show (2 : ℕ) = 1 + 1 from rfl, ewmState_succ, hw1]
    norm_num [ewmStep, smoothingFactor, hm2]
  have hw3 : ewmState (smoothingFactor 12) (momentumAt exC7) 3 = (some ((164200 / 507 : ℚ)), 1) := by
    rw [show (3 : ℕ) = 2 + 1 from rfl, ewmState_succ, hw2]
    norm_num [ewmStep, smoothingFactor, hm3]
  have hw4 : ewmState (smoothingFactor 12) (momentumAt exC7) 4 = (some ((2110400 / 6591 : ℚ)), 1) := by
    rw [show (4 : ℕ) = 3 + 1 from rfl, ewmState_succ, hw3]
    norm_num [ewmStep, smoothingFactor, hm4]
  have hw5 : ewmState (smoothingFactor 12) (momentumAt exC7) 5 = (some ((27169000 / 85683 : ℚ)), 1) := by
    rw [show (5 : ℕ) = 4 + 1 from rfl, ewmState_succ, hw4]
    norm_num [ewmStep, smoothingFactor, hm5]
  have hw6 : ewmState (smoothingFactor 12) (momentumAt exC7) 6 = (some ((350268800 / 1113879 : ℚ)), 1) := by
    rw [show (6 : ℕ) = 5 + 1 from rfl, ewmState_succ, hw5]
    norm_num [ewmStep, smoothingFactor, hm6]
  have hw7 : ewmState (smoothingFactor 12) (momentumAt exC7) 7 = (some ((4521284200 / 14480427 : ℚ)), 1) := by
    rw [show (7 : ℕ) = 6 + 1 from rfl, ewmState_succ, hw6]
    norm_num [ewmStep, smoothingFactor, hm7]
  have hw8 : ewmState (smoothingFactor 12) (momentumAt exC7) 8 = (some ((58422382400 / 188245551 : ℚ)), 1) := by
    rw [show (8 : ℕ) = 7 + 1 from rfl, ewmState_succ, hw7]
    norm_num [ewmStep, smoothingFactor, hm8]
  have hw9 : ewmState (smoothingFactor 12) (momentumAt exC7) 9 = (some ((755593537000 / 2447192163 : ℚ)), 1) := by
    rw [show (9 : ℕ) = 8 + 1 from rfl, ewmState_succ, hw8]
    norm_num [ewmStep, smoothingFactor, hm9]
  have hw10 : ewmState (smoothingFactor 12) (momentumAt exC7) 10 = (some ((9779844204800 / 31813498119 : ℚ)), 1) := by
    rw [show (10 : ℕ) = 9 + 1 from rfl, ewmState_succ, hw9]
    norm_num [ewmStep, smoothingFactor, hm10]
  have hw11 : ewmState (smoothingFactor 12) (momentumAt exC7) 11 = (some ((126666385124200 / 413575475547 : ℚ)), 1) := by
    rw [show (11 : ℕ) = 10 + 1 from rfl, ewmState_succ, hw10]
    norm_num [ewmStep, smoothingFactor, hm11]
  have hw12 : ewmState (smoothingFactor 12) (momentumAt exC7) 12 = (some ((1641475521694400 / 5376481182111 : ℚ)), 1) := by
    rw [show (12 : ℕ) = 11 + 1 from rfl, ewmState_succ, hw11]
    norm_num [ewmStep, smoothingFactor, hm12]
  have hw13 : ewmState (smoothingFactor 12) (momentumAt exC7) 13 = (some ((21282119447905000 / 69894255367443 : ℚ)), 1) := by
    rw [show (13 : ℕ) = 12 + 1 from rfl, ewmState_succ, hw12]
    norm_num [ewmStep, smoothingFactor, hm13]
  have hw14 : ewmState (smoothingFactor 12) (momentumAt exC7) 14 = (some ((276039867147420800 / 908625319776759 : ℚ)), 1) := by
    rw [show (14 : ℕ) = 13 + 1 from rfl, ewmState_succ, hw13]
    norm_num [ewmStep, smoothingFactor, hm14]
  have hw15 : ewmState (smoothingFactor 12) (momentumAt exC7) 15 = (some ((3581613730487684200 / 11812129157097867 : ℚ)), 1) := by
    rw [show (15 : ℕ) = 14 + 1 from rfl, ewmState_succ, hw14]
    norm_num [ewmStep, smoothingFactor, hm15]
  have hw16 : ewmState (smoothingFactor 12) (momentumAt exC7) 16 = (some ((46485028529623246400 / 153557679042272271 : ℚ)), 1) := by
    rw [show (16 : ℕ) = 15 + 1 from rfl, ewmState_succ, hw15]
    norm_num [ewmStep, smoothingFactor, hm16]
  have hw17 : ewmState (smoothingFactor 12) (momentumAt exC7) 17 = (some ((603469921251219073000 / 1996249827549539523 : ℚ)), 1) := by
    rw [show (17 : ℕ) = 16 + 1 from rfl, ewmState_succ, hw16]
    norm_num [ewmStep, smoothingFactor, hm17]
  have hw18 : ewmState (smoothingFactor 12) (momentumAt exC7) 18 = (some ((7835919030293133516800 / 25951247758144013799 : ℚ)), 1) := by
    rw [show (18 : ℕ) = 17 + 1 from rfl, ewmState_succ, hw17]
    norm_num [ewmStep, smoothingFactor, hm18]
  have hw19 : ewmState (smoothingFactor 12) (momentumAt exC7) 19 = (some ((101765857988110876964200 / 337366220855872179387 : ℚ)), 1) := by
    rw [show (19 : ℕ) = 18 + 1 from rfl, ewmState_succ, hw18]
    norm_num [ewmStep, smoothingFactor, hm19]
  have hw20 : ewmState (smoothingFactor 12) (momentumAt exC7) 20 = (some ((1321844170382742954238400 / 4385760871126338332031 : ℚ)), 1) := by
    rw [show (20 : ℕ) = 19 + 1 from rfl, ewmState_succ, hw19]
    norm_num [ewmStep, smoothingFactor, hm20]
  have hw21 : ewmState (smoothingFactor 12) (momentumAt exC7) 21 = (some ((17171742396885975495841000 / 57014891324642398316403 : ℚ)), 1) := by
    rw [show (21 : ℕ) = 20 + 1 from rfl, ewmState_succ, hw20]
    norm_num [ewmStep, smoothingFactor, hm21]
  have hw22 : ewmState (smoothingFactor 12) (momentumAt exC7) 22 = (some ((223098101160531169444092800 / 741193587220351178113239 : ℚ)), 1) := by
    rw [show (22 : ℕ) = 21 + 1 from rfl, ewmState_succ, hw21]
    norm_num [ewmStep, smoothingFactor, hm22]
  have hw23 : ewmState (smoothingFactor 12) (momentumAt exC7) 23 = (some ((2898795265098053570752964200 / 9635516633864565315472107 : ℚ)), 1) := by
    rw [show (23 : ℕ) = 22 + 1 from rfl, ewmState_succ, hw22]
    norm_num [ewmStep, smoothingFactor, hm23]
  have hw24 : ewmState (smoothingFactor 12) (momentumAt exC7) 24 = (some ((37668057896397328467565870400 / 125261716240239349101137391 : ℚ)), 1) := by
    rw [show (24 : ℕ) = 23 + 1 from rfl, ewmState_succ, hw23]
    norm_num [ewmStep, smoothingFactor, hm24]
  have hw25 : ewmState (smoothingFactor 12) (momentumAt exC7) 25 = (some ((489505666604514222603907009000 / 1628402311123111538314786083 : ℚ)), 1) := by
    rw [show (25 : ℕ) = 24 + 1 from rfl, ewmState_succ, hw24]
    norm_num [ewmStep, smoothingFactor, hm25]
  have hw26 : ewmState (smoothingFactor 12) (momentumAt exC7) 26 = (some ((6361603719323523371631848748800 / 21169230044600449998092219079 : ℚ)), 1) := by
    rw [show (26 : ℕ) = 25 + 1 from rfl, ewmState_succ, hw25]
    norm_num [ewmStep, smoothingFactor, hm26]
  have hw27 : ewmState (smoothingFactor 12) (momentumAt exC7) 27 = (some ((82679178939319027086805667684200 / 275199990579805849975198848027 : ℚ)), 1) := by
    rw [show (27 : ℕ) = 26 + 1 from rfl, ewmState_succ, hw26]
    norm_num [ewmStep, smoothingFactor, hm27]
  have hw28 : ewmState (smoothingFactor 12) (momentumAt exC7) 28 = (some ((1074590962680392807939981653342400 / 3577599877537476049677585024351 : ℚ)), 1) := by
    rw [show (28 : ℕ) = 27 + 1 from rfl, ewmState_succ, hw27]
    norm_num [ewmStep, smoothingFactor, hm28]
  have hw29 : ewmState (smoothingFactor 12) (momentumAt exC7) 29 = (some ((13967060516006806517146349201377000 / 46508798407987188645808605316563 : ℚ)), 1) := by
    rw [show (29 : ℕ) = 28 + 1 from rfl, ewmState_succ, hw28]
    norm_num [ewmStep, smoothingFactor, hm29]
  have hw30 : ewmState (smoothingFactor 12) (momentumAt exC7) 30 = (some ((181542944720867184876095004405084800 / 604614379303833452395511869115319 : ℚ)), 1) := by
    rw [show (30 : ℕ) = 29 + 1 from rfl, ewmState_succ, hw29]
    norm_num [ewmStep, smoothingFactor, hm30]
  have hw31 : ewmState (smoothingFactor 12) (momentumAt exC7) 31 = (some ((2359741019511839105074352169925124200 / 7859986930949834881141654298499147 : ℚ)), 1) := by
    rw [show (31 : ℕ) = 30 + 1 from rfl, ewmState_succ, hw30]
    norm_num [ewmStep, smoothingFactor, hm31]
  have hw32 : ewmState (smoothingFactor 12) (momentumAt exC7) 32 = (some ((30673143373200131084502866448275854400 / 102179830102347853454841505880488911 : ℚ)), 1) := by
    rw [show (32 : ℕ) = 31 + 1 from rfl, ewmState_succ, hw31]
    norm_num [ewmStep, smoothingFactor, hm32]
  have hw33 : ewmState (smoothingFactor 12) (momentumAt exC7) 33 = (some ((398712475166610154002436434459327745000 / 1328337791330522094912939576446355843 : ℚ)), 1) := by
    rw [show (33 : ℕ) = 32 + 1 from rfl, ewmState_succ, hw32]
    norm_num [ewmStep, smoothingFactor, hm33]
  have hw34 : ewmState (smoothingFactor 12) (momentumAt exC7) 34 = (some ((5182839901631024950974564524920418700800 / 17268391287296787233868214493802625959 : ℚ)), 1) := by
    rw [show (34 : ℕ) = 33 + 1 from rfl, ewmState_succ, hw33]
    norm_num [ewmStep, smoothingFactor, hm34]
  have hw35 : ewmState (smoothingFactor 12) (momentumAt exC7) 35 = (some ((67372273690319346801041138470406181284200 / 224489086734858234040286788419434137467 : ℚ)), 1) := by
    rw [show (35 : ℕ) = 34 + 1 from rfl, ewmState_succ, hw34]
    norm_num [ewmStep, smoothingFactor, hm35]
  have hw36 : ewmState (smoothingFactor 12) (momentumAt exC7) 36 = (some ((875788462634427755235624596226128476606400 / 2918358127553157042523728249452643787071 : ℚ)), 1) := by
    rw [show (36 : ℕ) = 35 + 1 from rfl, ewmState_succ, hw35]
    norm_num [ewmStep, smoothingFactor, hm36]
  have hw37 : ewmState (smoothingFactor 12) (momentumAt exC7) 37 = (some ((11384687965510599533106107508158999514913000 / 37938655658191041552808467242884369231923 : ℚ)), 1) := by
    rw [show (37 : ℕ) = 36 + 1 from rfl, ewmState_succ, hw36]
    norm_num [ewmStep, smoothingFactor, hm37]
  have hw38 : ewmState (smoothingFactor 12) (momentumAt exC7) 38 = (some ((147994761015531219795852262935479616203196800 / 493202523556483540186510074157496800014999 : ℚ)), 1) := by
    rw [show (38 : ℕ) = 37 + 1 from rfl, ewmState_succ, hw37]
    norm_num [ewmStep, smoothingFactor, hm38]
  have hw39 : ewmState (smoothingFactor 12) (momentumAt exC7) 39 = (some ((1923863885304733541866280936784773858244164200 / 6411632806234286022424630964047458400194987 : ℚ)), 1) := by
    rw [show (39 : ℕ) = 38 + 1 from rfl, ewmState_succ, hw38]
    norm_num [ewmStep, smoothingFactor, hm39]
  have hw40 : ewmState (smoothingFactor 12) (momentumAt exC7) 40 = (some ((25009482422092640573983868883060987480802798400 / 83351226481045718291520202532616959202534831 : ℚ)), 1) := by
    rw [show (40 : ℕ) = 39 + 1 from rfl, ewmState_succ, hw39]
    norm_num [ewmStep, smoothingFactor, hm40]
  have hw41 : ewmState (smoothingFactor 12) (momentumAt exC7) 41 = (some ((325115042531646477288734679233241037810351681000 / 1083565944253594337789762632924020469632952803 : ℚ)), 1) := by
    rw [show (41 : ℕ) = 40 + 1 from rfl, ewmState_succ, hw40]
    norm_num [ewmStep, smoothingFactor, hm41]
  have hw42 : ewmState (smoothingFactor 12) (momentumAt exC7) 42 = (some ((4226405034400267852849939051320063697693640172800 / 14086357275296726391266914228012266105228386439 : ℚ)), 1) := by
    rw [show (42 : ℕ) = 41 + 1 from rfl, ewmState_succ, hw41]
    norm_num [ewmStep, smoothingFactor, hm42]
  have hw43 : ewmState (smoothingFactor 12) (momentumAt exC7) 43 = (some ((54942269743580982216109478101328060337767073764200 / 183122644578857443086469884964159459367969023707 : ℚ)), 1) := by
    rw [show (43 : ℕ) = 42 + 1 from rfl, ewmState_succ, hw42]
    norm_num [ewmStep, smoothingFactor, hm43]
  have hw44 : ewmState (smoothingFactor 12) (momentumAt exC7) 44 = (some ((714238553926705270229086190093104339336219225630400 / 2380594379525146760124108504534072971783597308191 : ℚ)), 1) := by
    rw [show (44 : ℕ) = 43 + 1 from rfl, ewmState_succ, hw43]
    norm_num [ewmStep, smoothingFactor, hm44]
  have hw45 : ewmState (smoothingFactor 12) (momentumAt exC7) 45 = (some ((9284980720908846028594413193744591515768569866849000 / 30947726933826907881613410558942948633186765006483 : ℚ)), 1) := by
    rw [show (45 : ℕ) = 44 + 1 from rfl, ewmState_succ, hw44]
    norm_num [ewmStep, smoothingFactor, hm45]
  have hw46 : ewmState (smoothingFactor 12) (momentumAt exC7) 46 = (some ((120703424090293451043506591466556275853366327539228800 / 402320450139749802460974337266258332231427945084279 : ℚ)), 1) := by
    rw [show (46 : ℕ) = 45 + 1 from rfl, ewmState_succ, hw45]
    norm_num [ewmStep, smoothingFactor, hm46]
  have hw47 : ewmState (smoothingFactor 12) (momentumAt exC7) 47 = (some ((1585222753082667835053596081982524367015143487785455360 / 5230165851816747431992666384461358319008563286095627 : ℚ)), 1) := by
    rw [show (47 : ℕ) = 46 + 1 from rfl, ewmState_succ, hw46]
    norm_num [ewmStep, smoothingFactor, hm47]
  have hw48 : ewmState (smoothingFactor 12) (momentumAt exC7) 48 = (some ((20784756429072064542064863387863037361332058868741210240 / 67992156073617716615904662997997658147111322719243151 : ℚ)), 1) := by
    rw [show (48 : ℕ) = 47 + 1 from rfl, ewmState_succ, hw47]
    norm_num [ewmStep, smoothingFactor, hm48]
  have hw49 : ewmState (smoothingFactor 12) (momentumAt exC7) 49 = (some ((251749653784822733612121082685812614744670497280695983980 / 883898028957030316006760618973969555912447195350160963 : ℚ)), 1) := by
    rw [show (49 : ℕ) = 48 + 1 from rfl, ewmState_succ, hw48]
    norm_num [ewmStep, smoothingFactor, hm49]
  have hwa46 : wave1At exC7 46 = some ((120703424090293451043506591466556275853366327539228800 / 402320450139749802460974337266258332231427945084279 : ℚ)) := by
    show (ewmState (smoothingFactor 12) (momentumAt exC7) 46).1 = _
    rw [hw46]
  have hwa47 : wave1At exC7 47 = some ((1585222753082667835053596081982524367015143487785455360 / 5230165851816747431992666384461358319008563286095627 : ℚ)) := by
    show (ewmState (smoothingFactor 12) (momentumAt exC7) 47).1 = _
    rw [hw47]
  have hwa48 : wave1At exC7 48 = some ((20784756429072064542064863387863037361332058868741210240 / 67992156073617716615904662997997658147111322719243151 : ℚ)) := by
    show (ewmState (smoothingFactor 12) (momentumAt exC7) 48).1 = _
    rw [hw48]
  have hwa49 : wave1At exC7 49 = some ((251749653784822733612121082685812614744670497280695983980 / 883898028957030316006760618973969555912447195350160963 : ℚ)) := by
    show (ewmState (smoothingFactor 12) (momentumAt exC7) 49).1 = _
    rw [hw49]
  have hw2_48 : wave2At exC7 48 = some ((61791530890406339624114226411483864751747833564081797120 / 203976468220853149847713988993992974441333968157729453 : ℚ)) := by
    rw [wave2At_def, rollingMean3 (wave1At exC7) 48 (by omega)]
    norm_num [hwa46, hwa47, hwa48]
  have hw2_49 : wave2At exC7 49 = some ((789854132633730436783022044583078718467546512010073672940 / 2651694086871090948020281856921908667737341586050482889 : ℚ)) := by
    rw [wave2At_def, rollingMean3 (wave1At exC7) 49 (by omega)]
    norm_num [hwa47, hwa48, hwa49]
  have hsig : shortAt exC7 49 = true := by
    have h := short_iff_at_succ exC7 48
    norm_num [hwa48, hw2_48, hwa49, hw2_49] at h
    exact h
  constructor
  · intro i hi
    interval_cases i <;> norm_num [hs0, hs1, hs2, hs3, hs4, hs5, hs6, hs7, hs8, hs9, hs10, hs11, hs12, hs13, hs14, hs15, hs16, hs17, hs18, hs19, hs20, hs21, hs22, hs23, hs24, hs25, hs26, hs27, hs28, hs29, hs30, hs31, hs32, hs33, hs34, hs35, hs36, hs37, hs38, hs39, hs40, hs41, hs42, hs43, hs44, hs45, hs46, hs47, hs48, hs49]
  · rw [generate_signals_ok theEngine (seriesFrame exC7)
        (by simp [seriesFrame_len, show exC7.length = 50 from rfl])]
    rw [hlc3_series, seriesFrame_len, show exC7.length = 50 from rfl]
    norm_num [hsig, Except.map]

end TrendScanner
